import Mathlib

/-! EssentialsCore WebUI: connection-resilience and caching layer.

A shallow embedding of the browser-side code of the EssentialsCore dashboard:

* `sw.js`: the Service Worker's strategy table, request router, offline handler,
  offline command queue and cache expiry;
* `js/websocket-manager.js`: `WebUIWebSocketManager` (outbound queue, dispatch, requests,
  subscriptions, reconnection);
* `js/app.js`, `js/enhanced-features.js`: the heartbeat failure handling of
  `EssentialsCoreWebUI` and `WebUIEnhancedFeatures`, and the token validation, login
  and message routing of `EssentialsCoreWebUI`.

JavaScript strings are Lean strings, JavaScript numbers that are only counted or
compared are natural numbers, promises are modelled by the value they settle with
(`Except` for a rejection, `Option` for a value that may be `undefined`), and the
environment (network, socket, clock, timers) is passed in explicitly.
-/

set_option autoImplicit false

/-! # Part 1: the embedding of the source -/

namespace SW

/-! ## sw.js -/

/-- The JavaScript test `s.startsWith(pattern)`. -/
def startsWith (s pattern : String) : Bool :=
  pattern.toList.isPrefixOf s.toList

def CACHE_NAME : String := "essentialscore-webui-v2"
def API_CACHE_NAME : String := "essentialscore-api-v1"
def STATIC_CACHE_NAME : String := "essentialscore-static-v1"

namespace CACHE_STRATEGIES

def CACHE_FIRST : String := "cache-first"
def NETWORK_FIRST : String := "network-first"
def STALE_WHILE_REVALIDATE : String := "stale-while-revalidate"
def NETWORK_ONLY : String := "network-only"
def CACHE_ONLY : String := "cache-only"

end CACHE_STRATEGIES

/-- The object literal `CACHE_PATTERNS`; `Object.entries` enumerates its
(non-numeric) keys in the order in which they are written. -/
def CACHE_PATTERNS : List (String × String) :=
  [ ("/css/", CACHE_STRATEGIES.CACHE_FIRST),
    ("/js/", CACHE_STRATEGIES.CACHE_FIRST),
    ("/images/", CACHE_STRATEGIES.CACHE_FIRST),
    ("/fonts/", CACHE_STRATEGIES.CACHE_FIRST),
    ("/api/", CACHE_STRATEGIES.NETWORK_FIRST),
    ("/", CACHE_STRATEGIES.STALE_WHILE_REVALIDATE),
    ("/index.html", CACHE_STRATEGIES.STALE_WHILE_REVALIDATE),
    ("/ws/", CACHE_STRATEGIES.NETWORK_ONLY) ]

def OFFLINE_PAGE : String := "/offline.html"

/-- The loop of `getCacheStrategy` over the remaining table entries: the first
entry whose pattern is a prefix of the pathname returns its strategy. -/
def getCacheStrategyLoop (pathname : String) : List (String × String) → String
  | [] => CACHE_STRATEGIES.STALE_WHILE_REVALIDATE
  | (pattern, strategy) :: rest =>
    if startsWith pathname pattern then strategy
    else getCacheStrategyLoop pathname rest

/-- `getCacheStrategy(pathname)`. -/
def getCacheStrategy (pathname : String) : String :=
  getCacheStrategyLoop pathname CACHE_PATTERNS

/-- A JavaScript error value; only its message is kept. -/
abbrev JSError := String

deriving instance DecidableEq for Except

/-- A `Response`: body text, status code and header list. -/
structure Response where
  body : String
  status : Nat
  headers : List (String × String)
deriving DecidableEq, Repr

/-- The getter `response.ok`: the status is in the range 200..299. -/
def Response.ok (r : Response) : Bool :=
  decide (200 ≤ r.status) && decide (r.status ≤ 299)

/-- `headers.set(name, value)`: replaces the entry of that name. -/
def headersSet (headers : List (String × String)) (name value : String) :
    List (String × String) :=
  headers.filter (fun h => h.1 != name) ++ [(name, value)]

/-- A `Request` as far as the worker and the Cache API look at it:
`request.url`, `new URL(request.url).pathname`, `request.destination` and
`request.method`. The worker never reads the method itself; `cache.put` does. -/
structure Request where
  url : String
  pathname : String
  destination : String
  method : String
deriving DecidableEq, Repr

/-- One cache partition: the stored responses by URL. A relative URL such as
`OFFLINE_PAGE` stands for its resolution against the worker's location. -/
abbrev Cache := List (String × Response)

/-- The result of `cache.match(url)`: the stored response or `undefined`. -/
def cacheMatch (cache : Cache) (url : String) : Option Response :=
  match cache.find? (fun e => e.1 == url) with
  | some e => some e.2
  | none => none

/-- The effect of a `cache.put(url, response)` that the Cache API carries
out: the entry of that URL is replaced. -/
def cachePut (cache : Cache) (url : String) (response : Response) : Cache :=
  (url, response) :: cache.filter (fun e => e.1 != url)

/-- The parts of a text between its commas. -/
def splitCommas : List Char → List (List Char)
  | [] => [[]]
  | c :: rest =>
    if c = ',' then [] :: splitCommas rest
    else
      match splitCommas rest with
      | part :: parts => (c :: part) :: parts
      | [] => [[c]]

/-- A text without the blanks and tabs at its ends. -/
def trimBlanks (text : List Char) : List Char :=
  ((text.dropWhile (fun c => c = ' ' || c = '\t')).reverse.dropWhile
    (fun c => c = ' ' || c = '\t')).reverse

/-- The field values of a header value: its parts between commas, trimmed. -/
def fieldValues (value : String) : List (List Char) :=
  (splitCommas value.toList).map trimBlanks

/-- Whether a header list has a `Vary` header (in any spelling of the name)
one of whose field values is `*`. -/
def variesOnAll (headers : List (String × String)) : Bool :=
  headers.any (fun h =>
    (h.1.toList.map Char.toLower == "vary".toList) &&
      (fieldValues h.2).any (fun value => value == ['*']))

/-- Whether the Cache API carries out `cache.put(request, response)`. It
refuses, with a rejected promise and without storing anything, a request whose
method is not `GET`, a response of status 206, and a response whose `Vary`
header lists `*`. -/
def cacheAccepts (request : Request) (response : Response) : Bool :=
  request.method == "GET" && response.status != 206 && !variesOnAll response.headers

/-- The effect of the call `cache.put(request, response)` in the strategies,
which do not await it: the entry is stored when the Cache API carries the call
out; otherwise the rejection goes unobserved and the cache stays as it is. -/
def cachePutRequest (cache : Cache) (request : Request) (response : Response) : Cache :=
  if cacheAccepts request response then cachePut cache request.url response else cache

/-- The counters of `performanceMetrics`. -/
structure Metrics where
  cacheHits : Nat
  cacheMisses : Nat
  networkRequests : Nat
  offlineRequests : Nat
deriving DecidableEq, Repr

/-- The worker's state: the partitions opened under `STATIC_CACHE_NAME` and
`API_CACHE_NAME`, the metrics, and (as a record of the environment) the URLs
for which `fetch` has been called, oldest first. Apart from the puts that the
Cache API refuses (`cacheAccepts`), cache storage operations are taken not to
fail. -/
structure Worker where
  staticCache : Cache
  apiCache : Cache
  performanceMetrics : Metrics
  fetched : List String
deriving DecidableEq, Repr

/-- The call `fetch(request)`: it is recorded; its outcome comes from the network. -/
def recordFetch (w : Worker) (request : Request) : Worker :=
  { w with fetched := w.fetched ++ [request.url] }

/-- `cacheFirst(request)`; `net` is the outcome of `fetch(request)`, a
rejection (`.error`) or a response. -/
def cacheFirst (w : Worker) (net : Except JSError Response) (request : Request) :
    Worker × Except JSError Response :=
  match cacheMatch w.staticCache request.url with
  | some cachedResponse =>
    ({ w with performanceMetrics :=
        { w.performanceMetrics with cacheHits := w.performanceMetrics.cacheHits + 1 } },
     .ok cachedResponse)
  | none =>
    let w1 := recordFetch { w with performanceMetrics :=
        { w.performanceMetrics with cacheMisses := w.performanceMetrics.cacheMisses + 1 } } request
    match net with
    | .error e => (w1, .error e)
    | .ok networkResponse =>
      let w2 := if networkResponse.ok then
          { w1 with staticCache := cachePutRequest w1.staticCache request networkResponse }
        else w1
      (w2, .ok networkResponse)

/-- `networkFirst(request)`; `now` is the value of `Date.now()`. -/
def networkFirst (w : Worker) (net : Except JSError Response) (now : Nat) (request : Request) :
    Worker × Except JSError Response :=
  let w1 := recordFetch { w with performanceMetrics :=
      { w.performanceMetrics with networkRequests := w.performanceMetrics.networkRequests + 1 } }
      request
  match net with
  | .ok networkResponse =>
    let cachedResponse : Response :=
      { body := networkResponse.body, status := networkResponse.status,
        headers := headersSet networkResponse.headers "sw-cached-at" (toString now) }
    let w2 := if networkResponse.ok then
        { w1 with apiCache := cachePutRequest w1.apiCache request cachedResponse }
      else w1
    (w2, .ok networkResponse)
  | .error error =>
    match cacheMatch w1.apiCache request.url with
    | some cachedResponse =>
      ({ w1 with performanceMetrics :=
          { w1.performanceMetrics with cacheHits := w1.performanceMetrics.cacheHits + 1 } },
       .ok cachedResponse)
    | none => (w1, .error error)

/-- `staleWhileRevalidate(request)`. The background promise `fetchPromise`
resolves with the network response, or with `undefined` (`none`) when the
fetch rejects, because its `catch` handler returns nothing. -/
def staleWhileRevalidate (w : Worker) (net : Except JSError Response) (request : Request) :
    Worker × Option Response :=
  let cachedResponse := cacheMatch w.staticCache request.url
  let w1 := recordFetch w request
  let background : Worker × Option Response :=
    match net with
    | .ok networkResponse =>
      (if networkResponse.ok then
          { w1 with staticCache := cachePutRequest w1.staticCache request networkResponse }
        else w1,
       some networkResponse)
    | .error _ => (w1, none)
  match cachedResponse with
  | some cached =>
    ({ background.1 with performanceMetrics :=
        { background.1.performanceMetrics with
          cacheHits := background.1.performanceMetrics.cacheHits + 1 } },
     some cached)
  | none =>
    ({ background.1 with performanceMetrics :=
        { background.1.performanceMetrics with
          cacheMisses := background.1.performanceMetrics.cacheMisses + 1 } },
     background.2)

/-- `cacheOnly(request)`. -/
def cacheOnly (w : Worker) (request : Request) : Worker × Except JSError Response :=
  match cacheMatch w.staticCache request.url with
  | some cachedResponse =>
    ({ w with performanceMetrics :=
        { w.performanceMetrics with cacheHits := w.performanceMetrics.cacheHits + 1 } },
     .ok cachedResponse)
  | none => (w, .error "Resource not found in cache")

/-- The response `new Response('Offline')`. -/
def offlineTextResponse : Response :=
  { body := "Offline", status := 200,
    headers := [("content-type", "text/plain;charset=UTF-8")] }

/-- The synthetic response of `handleOffline` for API paths: status 503 with
the JSON text of `{error: 'Offline', message: 'No network connection
available', cached: false}`. -/
def offlineApiResponse : Response :=
  { body := "\x7b\"error\":\"Offline\",\"message\":\"No network connection available\",\"cached\":false\x7d",
    status := 503,
    headers := [("Content-Type", "application/json")] }

/-- The response `new Response('Not Found', { status: 404 })`. -/
def notFoundResponse : Response :=
  { body := "Not Found", status := 404,
    headers := [("content-type", "text/plain;charset=UTF-8")] }

/-- `handleOffline(request)`. -/
def handleOffline (w : Worker) (request : Request) : Worker × Response :=
  let w1 := { w with performanceMetrics :=
      { w.performanceMetrics with offlineRequests := w.performanceMetrics.offlineRequests + 1 } }
  if request.destination = "document" then
    (w1, (cacheMatch w1.staticCache OFFLINE_PAGE).getD offlineTextResponse)
  else if startsWith request.pathname "/api/" then
    match cacheMatch w1.apiCache request.url with
    | some cachedResponse => (w1, cachedResponse)
    | none => (w1, offlineApiResponse)
  else (w1, notFoundResponse)

/-- The `try` block of `handleRequest`: the dispatch on the strategy. The value
is what the awaited strategy gives: a rejection, or a resolution with a
response or with `undefined` (`none`). -/
def dispatchStrategy (w : Worker) (net : Except JSError Response) (now : Nat)
    (request : Request) (strategy : String) : Worker × Except JSError (Option Response) :=
  if strategy = CACHE_STRATEGIES.CACHE_FIRST then
    let r := cacheFirst w net request
    (r.1, r.2.map some)
  else if strategy = CACHE_STRATEGIES.NETWORK_FIRST then
    let r := networkFirst w net now request
    (r.1, r.2.map some)
  else if strategy = CACHE_STRATEGIES.STALE_WHILE_REVALIDATE then
    let r := staleWhileRevalidate w net request
    (r.1, .ok r.2)
  else if strategy = CACHE_STRATEGIES.NETWORK_ONLY then
    (recordFetch w request, net.map some)
  else if strategy = CACHE_STRATEGIES.CACHE_ONLY then
    let r := cacheOnly w request
    (r.1, r.2.map some)
  else
    let r := staleWhileRevalidate w net request
    (r.1, .ok r.2)

/-- `handleRequest(request, strategy)`: the dispatch, and in the `catch`
clause the offline handler. The result is the settlement of the returned
promise: `.error` for a rejection, `.ok none` for a resolution with `undefined`. -/
def handleRequest (w : Worker) (net : Except JSError Response) (now : Nat)
    (request : Request) (strategy : String) : Worker × Except JSError (Option Response) :=
  match dispatchStrategy w net now request strategy with
  | (w1, .ok response) => (w1, .ok response)
  | (w1, .error _) =>
    let r := handleOffline w1 request
    (r.1, .ok (some r.2))

/-! ### Background synchronisation and cache expiry -/

/-- `headers.get(name)`: the values stored under that name joined by `", "`,
or `null` (`none`) when there is none. Names are compared as the worker
writes them. -/
def headersGet (headers : List (String × String)) (name : String) : Option String :=
  match (headers.filter (fun h => h.1 == name)).map (fun h => h.2) with
  | [] => none
  | value :: values => some (String.intercalate ", " (value :: values))

/-- The effect of `cache.delete(url)`. -/
def cacheDelete (cache : Cache) (url : String) : Cache :=
  cache.filter (fun e => e.1 != url)

/-- The white space that `parseInt` skips at the start of its argument. -/
def isWhiteSpace (c : Char) : Bool :=
  c = ' ' || c = '\t' || c = '\n' || c = '\r' || c.toNat = 11 || c.toNat = 12 ||
    c.toNat = 160 || c.toNat = 65279

/-- The value of a character as a digit of the given radix. -/
def digitValue (radix : Nat) (c : Char) : Option Nat :=
  let value : Option Nat :=
    if '0' ≤ c ∧ c ≤ '9' then some (c.toNat - '0'.toNat)
    else if 'a' ≤ c ∧ c ≤ 'z' then some (c.toNat - 'a'.toNat + 10)
    else if 'A' ≤ c ∧ c ≤ 'Z' then some (c.toNat - 'A'.toNat + 10)
    else none
  value.filter (fun d => decide (d < radix))

/-- The longest run of digits at the start of the text, read in the given
radix; the accumulator is `none` as long as no digit has been read. -/
def parseDigits (radix : Nat) : List Char → Option Nat → Option Nat
  | [], acc => acc
  | c :: rest, acc =>
    match digitValue radix c with
    | some d => parseDigits radix rest (some (acc.getD 0 * radix + d))
    | none => acc

/-- The built-in `parseInt(text)` without a radix argument: leading white space,
an optional sign, an optional `0x` for radix 16, then the longest run of
digits; `none` stands for `NaN`. The value is kept as an exact integer; the
timestamps compared by the worker lie far below `2^53`. -/
def parseInt (text : String) : Option Int :=
  let trimmed := text.toList.dropWhile isWhiteSpace
  let signed : Bool × List Char :=
    match trimmed with
    | '-' :: rest => (true, rest)
    | '+' :: rest => (false, rest)
    | rest => (false, rest)
  let magnitude : Option Nat :=
    match signed.2 with
    | '0' :: 'x' :: rest => parseDigits 16 rest none
    | '0' :: 'X' :: rest => parseDigits 16 rest none
    | rest => parseDigits 10 rest none
  magnitude.map (fun n => if signed.1 then - (n : Int) else (n : Int))

/-- The constant `maxAge` of `cleanExpiredCache`: 24 hours in milliseconds. -/
def maxAge : Nat := 60000 * 60 * 24

/-- The test `cachedAt && (now - parseInt(cachedAt)) > maxAge` on the value of
`response.headers.get('sw-cached-at')`: `null` and the empty string are falsy,
and a comparison with `NaN` is false. -/
def expired (now : Nat) (cachedAt : Option String) : Bool :=
  match cachedAt with
  | none => false
  | some text =>
    if text = "" then false
    else
      match parseInt text with
      | some t => decide ((maxAge : Int) < (now : Int) - t)
      | none => false

/-- The loop of `cleanExpiredCache` over the keys read at its start. A key
whose entry is gone would make `response.headers` throw, which the enclosing
`try` catches: the sweep stops there. -/
def cleanExpiredCacheLoop (now : Nat) : List String → Cache → Cache
  | [], cache => cache
  | url :: rest, cache =>
    match cacheMatch cache url with
    | none => cache
    | some response =>
      if expired now (headersGet response.headers "sw-cached-at") then
        cleanExpiredCacheLoop now rest (cacheDelete cache url)
      else cleanExpiredCacheLoop now rest cache

/-- `cleanExpiredCache()`, run by the hourly interval; `now` is `Date.now()`. -/
def cleanExpiredCache (w : Worker) (now : Nat) : Worker :=
  { w with apiCache := cleanExpiredCacheLoop now (w.apiCache.map (fun e => e.1)) w.apiCache }

/-- An element of the list stored under `/offline-commands`: the object
`{...command, timestamp, id}`. `command` stands for the fields of the queued
object other than `timestamp` and `id`, which the two later keys override. -/
structure QueuedCommand where
  command : String
  timestamp : Nat
  id : String
deriving DecidableEq, Repr

/-- What `syncPendingCommands` does to the outside, in order: a `POST` of one
command to `/api/command`, with whether the `fetch` promise resolved, or the
deletion of the `/offline-commands` entry. -/
inductive SyncAction
  | post (command : QueuedCommand) (resolved : Bool)
  | delete
deriving DecidableEq, Repr

/-- The `for` loop of `syncPendingCommands`; `i` is the position of the next
command. A rejected `fetch` is caught and logged inside the loop body. -/
def syncPendingCommandsLoop (fetchResolves : Nat → QueuedCommand → Bool) :
    Nat → List QueuedCommand → Worker → Worker × List SyncAction
  | _, [], w => (w, [])
  | i, command :: rest, w =>
    let w1 := { w with fetched := w.fetched ++ ["/api/command"] }
    let r := syncPendingCommandsLoop fetchResolves (i + 1) rest w1
    (r.1, SyncAction.post command (fetchResolves i command) :: r.2)

/-- `syncPendingCommands()`. `json` is `response.json()` read as a list of
commands (`none` when the promise rejects or the value cannot be iterated, which
the outer `catch` logs), `fetchResolves i c` tells whether the `fetch` for the
command at position `i` resolves. The second component lists what was done. -/
def syncPendingCommands (json : String → Option (List QueuedCommand))
    (fetchResolves : Nat → QueuedCommand → Bool) (w : Worker) : Worker × List SyncAction :=
  match cacheMatch w.apiCache "/offline-commands" with
  | none => (w, [])
  | some offlineCommands =>
    match json offlineCommands.body with
    | none => (w, [])
    | some commands =>
      let r := syncPendingCommandsLoop fetchResolves 0 commands w
      ({ r.1 with apiCache := cacheDelete r.1.apiCache "/offline-commands" },
       r.2 ++ [SyncAction.delete])

/-- `queueOfflineCommand(command)`. `stringify` and `json` are `JSON.stringify`
and `response.json()` on lists of commands, `syncSupported` is the truth of
`self.registration.sync`, `now` is `Date.now()` and `id` the text drawn from
`Math.random()`. The second component lists the sync tags registered. -/
def queueOfflineCommand (stringify : List QueuedCommand → String)
    (json : String → Option (List QueuedCommand)) (syncSupported : Bool)
    (w : Worker) (command : String) (now : Nat) (id : String) : Worker × List String :=
  let existing : Option (List QueuedCommand) :=
    match cacheMatch w.apiCache "/offline-commands" with
    | none => some []
    | some response => json response.body
  match existing with
  | none => (w, [])
  | some commands =>
    let pushed := commands ++ [{ command := command, timestamp := now, id := id }]
    let response : Response :=
      { body := stringify pushed, status := 200,
        headers := [("Content-Type", "application/json")] }
    ({ w with apiCache := cachePut w.apiCache "/offline-commands" response },
     if syncSupported then ["background-sync-commands"] else [])

/-- The first part of `queueOfflineCommand`, up to the end of
`await existing.json()`: the list the call then holds in `commands` (`none` when
reading it throws). The store is not looked at again by the call. -/
def queueOfflineCommandRead (json : String → Option (List QueuedCommand)) (w : Worker) :
    Option (List QueuedCommand) :=
  match cacheMatch w.apiCache "/offline-commands" with
  | none => some []
  | some response => json response.body

/-- The rest of `queueOfflineCommand`, from `commands.push` on, for a call that
holds `commands`; `w` is the store as it is when `cache.put` runs. -/
def queueOfflineCommandWrite (stringify : List QueuedCommand → String) (syncSupported : Bool)
    (w : Worker) (commands : List QueuedCommand) (command : String) (now : Nat) (id : String) :
    Worker × List String :=
  let pushed := commands ++ [{ command := command, timestamp := now, id := id }]
  let response : Response :=
    { body := stringify pushed, status := 200,
      headers := [("Content-Type", "application/json")] }
  ({ w with apiCache := cachePut w.apiCache "/offline-commands" response },
   if syncSupported then ["background-sync-commands"] else [])

end SW

namespace WS

/-! ## js/websocket-manager.js -/

/-- A frame or message object as far as the manager looks at it: `type`,
`data` (the payload, kept as text), `id` (a number or absent), `error`,
`token` and `channel`. -/
structure Message where
  type : String
  data : String
  id : Option Nat
  error : Option String
  token : Option String
  channel : Option String
deriving DecidableEq, Repr

/-- A function registered as event handler: its name, and whether calling it
throws. A handler does not call back into the manager. -/
structure Handler where
  name : String
  throws : Bool
deriving DecidableEq, Repr

/-- The value a promise has settled with. -/
inductive Settlement
  | resolved (data : String)
  | rejected (error : String)
deriving DecidableEq, Repr

/-- The callbacks the manager passes to `setTimeout`: the timeout of
`request` (it closes over the request's `id` and over the `reject` of its
promise) and the reconnect of `handleConnectionLoss`. -/
inductive Callback
  | requestTimeout (id : Nat) (promise : Nat)
  | reconnect
deriving DecidableEq, Repr

/-- A pending `setTimeout`: delay in milliseconds and callback. -/
structure Timeout where
  delay : Nat
  callback : Callback
deriving DecidableEq, Repr

/-- The object `new WebSocket(wsUrl)`. -/
structure WebSocket where
  url : String
deriving DecidableEq, Repr

/-! ### `Map` and `localStorage` -/

/-- The result of `map.get(key)`. -/
def mapGet {κ α : Type} [DecidableEq κ] (map : List (κ × α)) (key : κ) : Option α :=
  match map with
  | [] => none
  | (k, v) :: rest => if k = key then some v else mapGet rest key

/-- The result of `map.has(key)`. -/
def mapHas {κ α : Type} [DecidableEq κ] (map : List (κ × α)) (key : κ) : Bool :=
  (mapGet map key).isSome

/-- The effect of `map.delete(key)`. -/
def mapDelete {κ α : Type} [DecidableEq κ] (map : List (κ × α)) (key : κ) : List (κ × α) :=
  match map with
  | [] => []
  | (k, v) :: rest => if k = key then mapDelete rest key else (k, v) :: mapDelete rest key

/-- The effect of `map.set(key, value)`: an existing key keeps its place. -/
def mapSet {κ α : Type} [DecidableEq κ] (map : List (κ × α)) (key : κ) (value : α) :
    List (κ × α) :=
  match map with
  | [] => [(key, value)]
  | (k, v) :: rest => if k = key then (key, value) :: rest else (k, v) :: mapSet rest key value

/-- The manager together with the part of the browser it talks to.

Fields of the class: `websocket` (`none` is `null`), `isConnected`,
`reconnectAttempts`, `maxReconnectAttempts`, `reconnectDelay`,
`heartbeatInterval` (the interval handle, `none` is `null`), `messageQueue`,
`subscriptions`, `eventHandlers`, `pendingRequests` (`none` while the field is
undefined; an entry maps a request id to the promise whose `resolve` and
`reject` it stores).

Environment: `localStorage`; `attempted`, the messages handed to
`JSON.stringify` and `websocket.send`, oldest first; `transmitted`, those of
them that went out on the socket; `promises`, the promise created by the n-th
call of `request` at position n (`none` while pending); `timeouts` and
`intervals`, the pending timers; `invoked`, the handler calls (name, payload);
`console`, `statusEvents` (`notifyConnectionStatus`) and `alerts` (`showAlert`). -/
structure Manager where
  websocket : Option WebSocket
  isConnected : Bool
  reconnectAttempts : Nat
  maxReconnectAttempts : Nat
  reconnectDelay : Nat
  heartbeatInterval : Option Nat
  messageQueue : List Message
  subscriptions : List (String × Bool)
  eventHandlers : List (String × Handler)
  pendingRequests : Option (List (Nat × Nat))
  localStorage : List (String × String)
  attempted : List Message
  transmitted : List Message
  promises : List (Option Settlement)
  timeouts : List Timeout
  intervals : List Nat
  invoked : List (String × String)
  console : List String
  statusEvents : List String
  alerts : List String
deriving DecidableEq, Repr

/-- Calling `resolve` or `reject` of promise `p`: a pending promise takes the
settlement, a settled one keeps its own. -/
def settle (promises : List (Option Settlement)) (p : Nat) (v : Settlement) :
    List (Option Settlement) :=
  match promises[p]? with
  | some none => promises.set p (some v)
  | _ => promises

section
variable (accepts : Nat → Message → Bool)

/-- `send(message)`. The environment decides through `accepts n m` whether the
attempt number `n` to serialise and transmit `m` goes through (`true`) or
throws; with `websocket` null it always throws. The second component is the
return value. -/
def send (s : Manager) (message : Message) : Manager × Bool :=
  if !s.isConnected then
    ({ s with
        console := s.console ++ ["log: WebSocket nicht verbunden - Nachricht in Warteschlange eingereiht"],
        messageQueue := s.messageQueue ++ [message] }, false)
  else if s.websocket.isSome && accepts s.attempted.length message then
    ({ s with attempted := s.attempted ++ [message],
              transmitted := s.transmitted ++ [message] }, true)
  else
    ({ s with attempted := s.attempted ++ [message],
              console := s.console ++ ["error: Fehler beim Senden der WebSocket-Nachricht"] }, false)

/-- The `while` loop of `processMessageQueue`, with a bound on the number of
iterations; `none` when the bound is used up before the loop exits. -/
def processMessageQueueLoop : Nat → Manager → Option Manager
  | fuel, s =>
    if decide (s.messageQueue.length > 0) && s.isConnected then
      match fuel, s.messageQueue with
      | 0, _ => none
      | _, [] => some s
      | fuel + 1, message :: rest =>
        processMessageQueueLoop fuel (send accepts { s with messageQueue := rest } message).1
    else some s

/-- `processMessageQueue()`. The loop runs at most once per queued message
(`processMessageQueueLoop_terminates`). -/
def processMessageQueue (s : Manager) : Manager :=
  (processMessageQueueLoop accepts s.messageQueue.length s).getD s

/-- `authenticate()`. -/
def authenticate (s : Manager) : Manager :=
  match mapGet s.localStorage "webui-auth-token" with
  | some authToken =>
    if authToken ≠ "" then
      (send accepts s { type := "authenticate", data := "", id := none, error := none,
                        token := some authToken, channel := none }).1
    else s
  | none => s

/-- `startHeartbeat()`: `setInterval` returns a new positive handle. -/
def startHeartbeat (s : Manager) : Manager :=
  let handle := s.intervals.foldl max 0 + 1
  { s with heartbeatInterval := some handle, intervals := s.intervals ++ [handle] }

/-- `stopHeartbeat()`. -/
def stopHeartbeat (s : Manager) : Manager :=
  match s.heartbeatInterval with
  | some handle =>
    { s with intervals := s.intervals.filter (fun h => h != handle), heartbeatInterval := none }
  | none => s

/-- `notifyConnectionStatus(status)`. -/
def notifyConnectionStatus (s : Manager) (status : String) : Manager :=
  { s with statusEvents := s.statusEvents ++ [status] }

/-- The handler `websocket.onopen`. -/
def onopen (s : Manager) : Manager :=
  let s1 := { s with console := s.console ++ ["log: WebSocket-Verbindung hergestellt"],
                     isConnected := true, reconnectAttempts := 0, reconnectDelay := 1000 }
  let s2 := authenticate accepts s1
  let s3 := processMessageQueue accepts s2
  let s4 := startHeartbeat s3
  notifyConnectionStatus s4 "connected"

end

/-- The test `id && this.pendingRequests && this.pendingRequests.has(id)` of
`handleMessage`, giving the stored promise when it succeeds. The id 0 and an
absent id are falsy. -/
def pendingFor (s : Manager) (id : Option Nat) : Option (Nat × Nat) :=
  match id, s.pendingRequests with
  | some i, some pending =>
    if i ≠ 0 then
      match mapGet pending i with
      | some p => some (i, p)
      | none => none
    else none
  | _, _ => none

/-- The truth value of `message.error`: present and not the empty string. -/
def errorOf (message : Message) : Option String :=
  match message.error with
  | some e => if e ≠ "" then some e else none
  | none => none

/-- `handleMessage(message)`. -/
def handleMessage (s : Manager) (message : Message) : Manager :=
  match pendingFor s message.id with
  | some (id, p) =>
    let s1 := { s with pendingRequests := s.pendingRequests.map (fun m => mapDelete m id) }
    match errorOf message with
    | some e => { s1 with promises := settle s1.promises p (.rejected e) }
    | none => { s1 with promises := settle s1.promises p (.resolved message.data) }
  | none =>
    match mapGet s.eventHandlers message.type with
    | some handler =>
      let s1 := { s with invoked := s.invoked ++ [(handler.name, message.data)] }
      if handler.throws then
        { s1 with console := s1.console ++ ["error: Fehler im Event-Handler für " ++ message.type] }
      else s1
    | none =>
      { s with console := s.console ++ ["warn: Unbekannter Message-Type: " ++ message.type] }

/-- `registerEventHandler(type, handler)`. -/
def registerEventHandler (s : Manager) (type : String) (handler : Handler) : Manager :=
  { s with eventHandlers := mapSet s.eventHandlers type handler }

/-- `unregisterEventHandler(type)`. -/
def unregisterEventHandler (s : Manager) (type : String) : Manager :=
  { s with eventHandlers := mapDelete s.eventHandlers type }

/-- `setupEventHandlers()`: the six standard handlers; each forwards to the
method named here (taken not to throw). -/
def setupEventHandlers (s : Manager) : Manager :=
  let s1 := registerEventHandler s "server-status" ⟨"handleServerStatusUpdate", false⟩
  let s2 := registerEventHandler s1 "player-update" ⟨"handlePlayerUpdate", false⟩
  let s3 := registerEventHandler s2 "performance-data" ⟨"handlePerformanceData", false⟩
  let s4 := registerEventHandler s3 "console-output" ⟨"handleConsoleOutput", false⟩
  let s5 := registerEventHandler s4 "system-alert" ⟨"handleSystemAlert", false⟩
  registerEventHandler s5 "notification" ⟨"handleNotification", false⟩

/-- `handleConnectionError(error)`. -/
def handleConnectionError (s : Manager) : Manager :=
  notifyConnectionStatus
    { s with console := s.console ++ ["error: WebSocket-Verbindungsfehler"] } "error"

/-- `connect()`; `wsUrl` is the address built from `window.location`, and
`constructorThrows` says whether `new WebSocket(wsUrl)` throws. -/
def connect (s : Manager) (wsUrl : String) (constructorThrows : Bool) : Manager :=
  let s1 := { s with console := s.console ++ ["log: Verbinde zu WebSocket: " ++ wsUrl] }
  if constructorThrows then
    handleConnectionError
      { s1 with console := s1.console ++ ["error: Fehler beim Erstellen der WebSocket-Verbindung"] }
  else { s1 with websocket := some ⟨wsUrl⟩ }

/-- `handleConnectionLoss()`. -/
def handleConnectionLoss (s : Manager) : Manager :=
  if s.reconnectAttempts < s.maxReconnectAttempts then
    { s with console := s.console ++ ["log: Reconnect-Versuch"],
             timeouts := s.timeouts ++ [⟨s.reconnectDelay, .reconnect⟩] }
  else
    { s with console := s.console ++ ["error: Maximale Anzahl Reconnect-Versuche erreicht"],
             alerts := s.alerts ++ ["Verbindung verloren"] }

/-- The handler `websocket.onclose`. -/
def onclose (s : Manager) (wasClean : Bool) : Manager :=
  let s1 := { s with console := s.console ++ ["log: WebSocket-Verbindung geschlossen"],
                     isConnected := false }
  let s2 := stopHeartbeat s1
  let s3 := if !wasClean then handleConnectionLoss s2 else s2
  notifyConnectionStatus s3 "disconnected"

/-- The handler `websocket.onerror`. -/
def onerror (s : Manager) : Manager :=
  handleConnectionError { s with console := s.console ++ ["error: WebSocket-Fehler"] }

section
variable (accepts : Nat → Message → Bool)

/-- `subscribe(channel)`. -/
def subscribe (s : Manager) (channel : String) : Manager :=
  let s1 := (send accepts s { type := "subscribe", data := "", id := none, error := none,
                              token := none, channel := some channel }).1
  { s1 with subscriptions := mapSet s1.subscriptions channel true }

/-- `unsubscribe(channel)`. -/
def unsubscribe (s : Manager) (channel : String) : Manager :=
  let s1 := (send accepts s { type := "unsubscribe", data := "", id := none, error := none,
                              token := none, channel := some channel }).1
  { s1 with subscriptions := mapDelete s1.subscriptions channel }

/-- `request(type, data)`; `id` is the value of `Date.now() + Math.random()`.
The second component is the returned promise. -/
def request (s : Manager) (type data : String) (id : Nat) : Manager × Nat :=
  let p := s.promises.length
  let s1 := { s with promises := s.promises ++ [none] }
  let s2 := { s1 with pendingRequests := some (mapSet (s1.pendingRequests.getD []) id p) }
  let s3 := (send accepts s2 { type := type, data := data, id := some id, error := none,
                               token := none, channel := none }).1
  ({ s3 with timeouts := s3.timeouts ++ [⟨30000, .requestTimeout id p⟩] }, p)

/-- The body of a timer callback. -/
def runCallback (s : Manager) (wsUrl : String) (constructorThrows : Bool) : Callback → Manager
  | .requestTimeout id p =>
    match s.pendingRequests with
    | some pending =>
      if mapHas pending id then
        { s with pendingRequests := some (mapDelete pending id),
                 promises := settle s.promises p (.rejected "Request timeout") }
      else s
    | none => s
  | .reconnect =>
    connect { s with reconnectAttempts := s.reconnectAttempts + 1,
                     reconnectDelay := s.reconnectDelay * 2 } wsUrl constructorThrows

/-- A pending timeout with callback `cb` fires: it leaves the timer list and
its callback runs. Nothing happens when no such timeout is pending. -/
def fireTimeout (s : Manager) (wsUrl : String) (constructorThrows : Bool) (cb : Callback) :
    Manager :=
  match s.timeouts.find? (fun t => t.callback == cb) with
  | some t => runCallback { s with timeouts := s.timeouts.erase t } wsUrl constructorThrows cb
  | none => s

/-- The interval callback of `startHeartbeat` for the interval `handle`. -/
def heartbeatTick (s : Manager) (handle : Nat) : Manager :=
  if handle ∈ s.intervals then
    (send accepts s { type := "ping", data := "", id := none, error := none,
                      token := none, channel := none }).1
  else s

end

/-- `destroy()`. -/
def destroy (s : Manager) : Manager :=
  let s1 := stopHeartbeat s
  let s2 := { s1 with websocket := none }
  { s2 with eventHandlers := [], subscriptions := [], messageQueue := [],
            pendingRequests := s2.pendingRequests.map (fun _ => []) }

/-- The constructor: the field initialisers followed by `init()`. -/
def Manager.new (localStorage : List (String × String)) (wsUrl : String)
    (constructorThrows : Bool) : Manager :=
  connect (setupEventHandlers
    { websocket := none, isConnected := false, reconnectAttempts := 0,
      maxReconnectAttempts := 5, reconnectDelay := 1000, heartbeatInterval := none,
      messageQueue := [], subscriptions := [], eventHandlers := [],
      pendingRequests := none, localStorage := localStorage, attempted := [],
      transmitted := [], promises := [], timeouts := [], intervals := [], invoked := [],
      console := [], statusEvents := [], alerts := [] }) wsUrl constructorThrows

/-- What can happen to a manager: calls of its public methods, events of its
socket, and firings of its timers. -/
inductive Event
  | send (message : Message)
  | request (type data : String) (id : Nat)
  | message (message : Message)
  | opened
  | closed (wasClean : Bool)
  | errored
  | timeout (callback : Callback) (wsUrl : String) (constructorThrows : Bool)
  | tick (handle : Nat)
  | subscribe (channel : String)
  | unsubscribe (channel : String)
  | registerEventHandler (type : String) (handler : Handler)
  | unregisterEventHandler (type : String)
  | destroy
deriving DecidableEq, Repr

/-- The effect of one event. -/
def step (accepts : Nat → Message → Bool) (s : Manager) : Event → Manager
  | .send message => (send accepts s message).1
  | .request type data id => (request accepts s type data id).1
  | .message message => handleMessage s message
  | .opened => onopen accepts s
  | .closed wasClean => onclose s wasClean
  | .errored => onerror s
  | .timeout callback wsUrl constructorThrows => fireTimeout s wsUrl constructorThrows callback
  | .tick handle => heartbeatTick accepts s handle
  | .subscribe channel => subscribe accepts s channel
  | .unsubscribe channel => unsubscribe accepts s channel
  | .registerEventHandler type handler => registerEventHandler s type handler
  | .unregisterEventHandler type => unregisterEventHandler s type
  | .destroy => destroy s

/-- The effect of a sequence of events. -/
def run (accepts : Nat → Message → Bool) (s : Manager) (events : List Event) : Manager :=
  events.foldl (step accepts) s

end WS

/-! ## js/app.js and js/enhanced-features.js: heartbeat and reconnection -/

/-- What the heartbeat probe `fetch('/api/heartbeat')` gives: a 2xx response
(`ok`), or a failure (another status, a timeout or a network error). -/
inductive Probe
  | ok
  | failed
deriving DecidableEq, Repr

/-- What `fetch('/api/auth/validate')` gives inside `validateToken`: a 2xx
response whose body is a JSON object (with its `user`), a 2xx response whose
body cannot be used, another status, or a network error. -/
inductive ValidateOutcome
  | valid (user : Option String)
  | badBody
  | refused
  | networkError
deriving DecidableEq, Repr

/-- The instance of class `EssentialsCoreWebUI` with the part of the page it
acts on. Fields of the class: `isAuthenticated`, `currentUser`, `websocket`
(`none` is `null`, otherwise the socket's `readyState`), `reconnectAttempts`,
`maxReconnectAttempts`, `lastHeartbeat`, `heartbeatInterval`. Environment:
`localStorage`; `notifications` (`showNotification`: text and type) and
`errors` (`showError`: title), oldest first; `timeouts`, the delays of the
pending `setTimeout(() => this.attemptReconnect(), delay)`; `reconnects`, how
often `attemptReconnect` has run; `console`. -/
structure EssentialsCoreWebUI where
  isAuthenticated : Bool
  currentUser : Option String
  websocket : Option Nat
  reconnectAttempts : Nat
  maxReconnectAttempts : Nat
  lastHeartbeat : Nat
  heartbeatInterval : Option Nat
  localStorage : List (String × String)
  notifications : List (String × String)
  errors : List String
  timeouts : List Nat
  reconnects : Nat
  console : List String
deriving DecidableEq, Repr

namespace EssentialsCoreWebUI

/-- The constant `WebSocket.OPEN`. -/
def OPEN : Nat := 1

/-- The field initialisers of the constructor, for a page loaded at `now`. -/
def initial (localStorage : List (String × String)) (now : Nat) : EssentialsCoreWebUI :=
  { isAuthenticated := false, currentUser := none, websocket := none,
    reconnectAttempts := 0, maxReconnectAttempts := 5, lastHeartbeat := now,
    heartbeatInterval := none, localStorage := localStorage, notifications := [],
    errors := [], timeouts := [], reconnects := 0, console := [] }

/-- `showNotification(message, type)`. -/
def showNotification (s : EssentialsCoreWebUI) (message type : String) : EssentialsCoreWebUI :=
  { s with notifications := s.notifications ++ [(message, type)] }

/-- `showError(title, message)`. -/
def showError (s : EssentialsCoreWebUI) (title : String) : EssentialsCoreWebUI :=
  { s with errors := s.errors ++ [title] }

/-- `validateToken(token)`. It never throws: every failure ends in its `catch`. -/
def validateToken (s : EssentialsCoreWebUI) : ValidateOutcome → EssentialsCoreWebUI
  | .valid user => { s with isAuthenticated := true, currentUser := user }
  | .badBody =>
    { s with console := s.console ++ ["error: Token-Validierung fehlgeschlagen"],
             isAuthenticated := false }
  | .refused =>
    { s with localStorage := s.localStorage.filter (fun e => e.1 != "webui_session_token"),
             isAuthenticated := false }
  | .networkError =>
    { s with console := s.console ++ ["error: Token-Validierung fehlgeschlagen"],
             isAuthenticated := false }

/-- `attemptReconnect()`. The method `setupWebSocket` is called by the class
but defined nowhere in the repository; it is a parameter here, and a call that
throws ends in the `catch` of `attemptReconnect`. -/
def attemptReconnect
    (setupWebSocket : EssentialsCoreWebUI → Except String EssentialsCoreWebUI)
    (s : EssentialsCoreWebUI) (outcome : ValidateOutcome) : EssentialsCoreWebUI :=
  let s1 := validateToken { s with reconnects := s.reconnects + 1 } outcome
  if s1.isAuthenticated then
    let s2 := { showNotification s1 "Verbindung wiederhergestellt" "success" with
                reconnectAttempts := 0 }
    match s2.websocket with
    | some readyState =>
      if readyState ≠ OPEN then
        match setupWebSocket s2 with
        | .ok s3 => s3
        | .error _ => { s2 with console := s2.console ++ ["error: Reconnect failed"] }
      else s2
    | none => s2
  else s1

/-- `handleHeartbeatFailure(error)`. -/
def handleHeartbeatFailure (s : EssentialsCoreWebUI) : EssentialsCoreWebUI :=
  let s1 := { s with reconnectAttempts := s.reconnectAttempts + 1 }
  if s1.reconnectAttempts ≤ s1.maxReconnectAttempts then
    let s2 := { s1 with console := s1.console ++ ["warn: Heartbeat failed, attempt "
                  ++ toString s1.reconnectAttempts ++ "/" ++ toString s1.maxReconnectAttempts] }
    let s3 := showNotification s2
      ("Verbindungsproblem erkannt (Versuch " ++ toString s2.reconnectAttempts ++ ")") "warning"
    { s3 with timeouts := s3.timeouts ++ [2 ^ s3.reconnectAttempts * 1000] }
  else showError s1 "Verbindung verloren"

/-- `startHeartbeat()`: the interval of 30000 ms is registered under `handle`. -/
def startHeartbeat (s : EssentialsCoreWebUI) (handle : Nat) : EssentialsCoreWebUI :=
  { s with heartbeatInterval := some handle }

/-- The interval callback of `startHeartbeat`, for a probe answered at `now`. -/
def heartbeat (s : EssentialsCoreWebUI) (probe : Probe) (now : Nat) : EssentialsCoreWebUI :=
  match probe with
  | .ok => { s with lastHeartbeat := now, reconnectAttempts := 0 }
  | .failed => handleHeartbeatFailure s

/-- What happens to the heartbeat controller: a heartbeat tick with the
probe's result, or the firing of a pending reconnect timeout of the given
delay, with the result of the validation that `attemptReconnect` then makes. -/
inductive Event
  | heartbeat (probe : Probe) (now : Nat)
  | timeout (delay : Nat) (outcome : ValidateOutcome)
deriving DecidableEq, Repr

/-- The effect of one event. A tick needs a running interval, a firing a
pending timeout of that delay. -/
def step (setupWebSocket : EssentialsCoreWebUI → Except String EssentialsCoreWebUI)
    (s : EssentialsCoreWebUI) : Event → EssentialsCoreWebUI
  | .heartbeat probe now =>
    if s.heartbeatInterval.isSome then heartbeat s probe now else s
  | .timeout delay outcome =>
    if delay ∈ s.timeouts then
      attemptReconnect setupWebSocket { s with timeouts := s.timeouts.erase delay } outcome
    else s

/-- The effect of a sequence of events. -/
def run (setupWebSocket : EssentialsCoreWebUI → Except String EssentialsCoreWebUI)
    (s : EssentialsCoreWebUI) (events : List Event) : EssentialsCoreWebUI :=
  events.foldl (step setupWebSocket) s

/-- What `fetch('/api/auth/login')` and `response.json()` give inside
`performLogin`: a 2xx response whose body has a true `success` (with its
`token` and `user`), a response whose body is read but that is not 2xx or has
no true `success` (with its `message`, if any), a response whose body cannot
be read, or a network error. -/
inductive LoginOutcome
  | success (token : String) (user : Option String)
  | refused (message : Option String)
  | badBody
  | networkError
deriving DecidableEq, Repr

/-- `performLogin(username, password, rememberMe)`. The second component is the
settlement of the returned promise. `setupWebSocket` as in `attemptReconnect`;
`showDashboard` acts on the page only. -/
def performLogin
    (setupWebSocket : EssentialsCoreWebUI → Except String EssentialsCoreWebUI)
    (s : EssentialsCoreWebUI) : LoginOutcome → EssentialsCoreWebUI × Except String Unit
  | .networkError => (s, .error "TypeError: Failed to fetch")
  | .badBody => (s, .error "SyntaxError: Unexpected token")
  | .refused message =>
    (s, .error (match message with
      | some text => if text ≠ "" then text else "Anmeldung fehlgeschlagen"
      | none => "Anmeldung fehlgeschlagen"))
  | .success token user =>
    let s1 := { s with localStorage := WS.mapSet s.localStorage "webui_session_token" token,
                       isAuthenticated := true, currentUser := user }
    match setupWebSocket s1 with
    | .ok s2 => (s2, .ok ())
    | .error e => (s1, .error e)

/-- `handleWebSocketMessage(message)`: the `switch` on `message.type`. The
first component lists the calls the dispatcher makes, each with the method's
name and its argument (`none` for a call without argument); the second is
what the default case writes to the console. The bodies of the methods are
not part of the dispatcher. -/
def handleWebSocketMessage (message : WS.Message) :
    List (String × Option String) × List String :=
  if message.type = "server_stats" then ([("updateServerStats", some message.data)], [])
  else if message.type = "console_output" then
    ([("handleConsoleOutput", some message.data)], [])
  else if message.type = "player_join" then ([("handlePlayerJoin", some message.data)], [])
  else if message.type = "player_leave" then ([("handlePlayerLeave", some message.data)], [])
  else if message.type = "performance_update" then
    ([("handlePerformanceUpdate", some message.data)], [])
  else if message.type = "module_event" then ([("handleModuleEvent", some message.data)], [])
  else if message.type = "security_alert" then
    ([("handleSecurityAlert", some message.data)], [])
  else if message.type = "notification" then ([("handleNotification", some message.data)], [])
  else if message.type = "auth_expired" then ([("handleAuthExpired", none)], [])
  else ([], ["log: Unbekannte WebSocket-Nachricht"])

end EssentialsCoreWebUI

/-- The instance of class `WebUIEnhancedFeatures` with its `webui`. Fields of
the class: `webui`, `reconnectAttempts`, `maxReconnectAttempts`,
`lastHeartbeat`, `heartbeatInterval`, `reconnectCount` (of
`performanceMetrics`). Environment: `connectionStatus`, the calls of
`updateConnectionStatus` (the page's status element is taken to be well
formed); `timeouts`, `reconnects` and `console` as in `EssentialsCoreWebUI`. -/
structure WebUIEnhancedFeatures where
  webui : EssentialsCoreWebUI
  reconnectAttempts : Nat
  maxReconnectAttempts : Nat
  lastHeartbeat : Nat
  heartbeatInterval : Option Nat
  reconnectCount : Nat
  connectionStatus : List String
  timeouts : List Nat
  reconnects : Nat
  console : List String
deriving DecidableEq, Repr

namespace WebUIEnhancedFeatures

/-- The field initialisers of the constructor, for a page loaded at `now`. -/
def initial (webui : EssentialsCoreWebUI) (now : Nat) : WebUIEnhancedFeatures :=
  { webui := webui, reconnectAttempts := 0, maxReconnectAttempts := 5, lastHeartbeat := now,
    heartbeatInterval := none, reconnectCount := 0, connectionStatus := [], timeouts := [],
    reconnects := 0, console := [] }

/-- `updateConnectionStatus(status)`. -/
def updateConnectionStatus (s : WebUIEnhancedFeatures) (status : String) :
    WebUIEnhancedFeatures :=
  { s with connectionStatus := s.connectionStatus ++ [status] }

/-- `refreshCurrentView()`; `activeModule` is the module of the active
navigation link, if there is one. -/
def refreshCurrentView (s : WebUIEnhancedFeatures) (activeModule : Option String) :
    WebUIEnhancedFeatures :=
  match activeModule with
  | some _ => { s with webui := s.webui.showNotification "🔄 Ansicht aktualisiert" "success" }
  | none => s

/-- `attemptReconnect()`; `setupWebSocket` as in `EssentialsCoreWebUI.attemptReconnect`. -/
def attemptReconnect
    (setupWebSocket : EssentialsCoreWebUI → Except String EssentialsCoreWebUI)
    (s : WebUIEnhancedFeatures) (outcome : ValidateOutcome) (activeModule : Option String) :
    WebUIEnhancedFeatures :=
  let s1 := { s with reconnects := s.reconnects + 1,
                     console := s.console ++ ["log: Attempting reconnection..."] }
  let s2 := { s1 with webui := s1.webui.validateToken outcome }
  if s2.webui.isAuthenticated then
    let s3 := { s2 with
      webui := s2.webui.showNotification "✅ Verbindung wiederhergestellt" "success",
      reconnectAttempts := 0 }
    let s4 := updateConnectionStatus s3 "online"
    match s4.webui.websocket with
    | some readyState =>
      if readyState ≠ EssentialsCoreWebUI.OPEN then
        match setupWebSocket s4.webui with
        | .ok webui => refreshCurrentView { s4 with webui := webui } activeModule
        | .error _ => { s4 with console := s4.console ++ ["error: Reconnect failed"] }
      else refreshCurrentView s4 activeModule
    | none => refreshCurrentView s4 activeModule
  else s2

/-- `handleHeartbeatFailure(error)`. -/
def handleHeartbeatFailure (s : WebUIEnhancedFeatures) : WebUIEnhancedFeatures :=
  let s1 := { s with reconnectAttempts := s.reconnectAttempts + 1,
                     reconnectCount := s.reconnectCount + 1 }
  let s2 := { s1 with console := s1.console ++ ["warn: Heartbeat failed ("
                ++ toString s1.reconnectAttempts ++ "/" ++ toString s1.maxReconnectAttempts ++ ")"] }
  if s2.reconnectAttempts ≤ s2.maxReconnectAttempts then
    let text := "🔄 Verbindungsproblem erkannt (Versuch " ++ toString s2.reconnectAttempts
      ++ "/" ++ toString s2.maxReconnectAttempts ++ ")"
    let s3 := { s2 with webui := s2.webui.showNotification text "warning" }
    { s3 with timeouts := s3.timeouts ++ [2 ^ s3.reconnectAttempts * 1000] }
  else
    let s3 := updateConnectionStatus s2 "offline"
    { s3 with webui := s3.webui.showError "🚫 Verbindung verloren" }

/-- `startHeartbeat()`: the interval of 30000 ms is registered under `handle`. -/
def startHeartbeat (s : WebUIEnhancedFeatures) (handle : Nat) : WebUIEnhancedFeatures :=
  { s with heartbeatInterval := some handle }

/-- The interval callback of `startHeartbeat`, for a probe answered at `now`. -/
def heartbeat (s : WebUIEnhancedFeatures) (probe : Probe) (now : Nat) : WebUIEnhancedFeatures :=
  match probe with
  | .ok => updateConnectionStatus { s with lastHeartbeat := now, reconnectAttempts := 0 } "online"
  | .failed => handleHeartbeatFailure s

/-- `cleanup()`. -/
def cleanup (s : WebUIEnhancedFeatures) : WebUIEnhancedFeatures :=
  { s with heartbeatInterval := none, reconnectAttempts := 0 }

/-- What happens to the heartbeat controller, as for `EssentialsCoreWebUI`. -/
inductive Event
  | heartbeat (probe : Probe) (now : Nat)
  | timeout (delay : Nat) (outcome : ValidateOutcome) (activeModule : Option String)
deriving DecidableEq, Repr

/-- The effect of one event. -/
def step (setupWebSocket : EssentialsCoreWebUI → Except String EssentialsCoreWebUI)
    (s : WebUIEnhancedFeatures) : Event → WebUIEnhancedFeatures
  | .heartbeat probe now =>
    if s.heartbeatInterval.isSome then heartbeat s probe now else s
  | .timeout delay outcome activeModule =>
    if delay ∈ s.timeouts then
      attemptReconnect setupWebSocket { s with timeouts := s.timeouts.erase delay }
        outcome activeModule
    else s

/-- The effect of a sequence of events. -/
def run (setupWebSocket : EssentialsCoreWebUI → Except String EssentialsCoreWebUI)
    (s : WebUIEnhancedFeatures) (events : List Event) : WebUIEnhancedFeatures :=
  events.foldl (step setupWebSocket) s

end WebUIEnhancedFeatures

/-! # Part 2: definitions used to state and prove the properties -/

namespace SW

/-- The lookup the specification describes: among the entries of a table whose
key is a prefix of the pathname, the strategy of a longest key; `none` when no
key is a prefix. The accumulator is the best entry seen so far. -/
def longestMatch (pathname : String) :
    List (String × String) → Option (String × String) → Option (String × String)
  | [], best => best
  | (pattern, strategy) :: rest, best =>
    if startsWith pathname pattern then
      match best with
      | none => longestMatch pathname rest (some (pattern, strategy))
      | some (p, s) =>
        if p.length < pattern.length then longestMatch pathname rest (some (pattern, strategy))
        else longestMatch pathname rest (some (p, s))
    else longestMatch pathname rest best

/-- The strategy selection as the specification words it: longest matching
prefix of `CACHE_PATTERNS`, default `stale-while-revalidate`. -/
def longestMatchStrategy (pathname : String) : String :=
  match longestMatch pathname CACHE_PATTERNS none with
  | some (_, strategy) => strategy
  | none => CACHE_STRATEGIES.STALE_WHILE_REVALIDATE

/-- The loop of `getCacheStrategy` on a table in which every key has been
replaced by whether it is a prefix of the pathname. -/
def firstMarked : List (Bool × String) → String
  | [] => CACHE_STRATEGIES.STALE_WHILE_REVALIDATE
  | (b, strategy) :: rest => if b then strategy else firstMarked rest

/-- The longest-match lookup on a table in which every key has been replaced
by whether it is a prefix of the pathname, and by its length. -/
def longestMarked :
    List (Bool × Nat × String) → Option (Nat × String) → Option (Nat × String)
  | [], best => best
  | (b, len, strategy) :: rest, best =>
    if b then
      match best with
      | none => longestMarked rest (some (len, strategy))
      | some (l, s) =>
        if l < len then longestMarked rest (some (len, strategy))
        else longestMarked rest (some (l, s))
    else longestMarked rest best

/-- The time at which an entry was cached, as `cleanExpiredCache` reads it: the
number that `parseInt` finds in a non-empty `sw-cached-at` header. -/
def cachedAt (response : Response) : Option Int :=
  match headersGet response.headers "sw-cached-at" with
  | none => none
  | some text => if text = "" then none else parseInt text

/-- The test of `cleanExpiredCache` on a stored response. -/
def expiredEntry (now : Nat) (response : Response) : Bool :=
  expired now (headersGet response.headers "sw-cached-at")

/-- A worker whose API cache was filled by `networkFirst`: `/api/players` at
time 1700000000000 - 25 h and `/api/status` at 1700000000000 - 23 h. -/
def agedWorker : Worker :=
  (networkFirst
    (networkFirst ⟨[], [], ⟨0, 0, 0, 0⟩, []⟩ (.ok ⟨"players", 200, []⟩) 1699910000000
      ⟨"/api/players", "/api/players", "", "GET"⟩).1
    (.ok ⟨"status", 200, []⟩) 1699917200000 ⟨"/api/status", "/api/status", "", "GET"⟩).1

/-- The command of a `POST` action; `none` for the deletion. -/
def SyncAction.posted : SyncAction → Option QueuedCommand
  | .post command _ => some command
  | .delete => none

/-- The list under `/offline-commands` as `queueOfflineCommand` reads it: empty
when there is no entry, `none` when the body of the entry cannot be read. -/
def storedCommands (json : String → Option (List QueuedCommand)) (w : Worker) :
    Option (List QueuedCommand) :=
  match cacheMatch w.apiCache "/offline-commands" with
  | none => some []
  | some response => json response.body

/-- The arguments of one call of `queueOfflineCommand`: the command, and what
the clock and the random generator give during the call. -/
structure QueueCall where
  command : String
  now : Nat
  id : String
deriving DecidableEq, Repr

/-- The list element that a call pushes. -/
def QueueCall.element (call : QueueCall) : QueuedCommand :=
  { command := call.command, timestamp := call.now, id := call.id }

/-- A sequence of calls of `queueOfflineCommand` in which each call has run to
its end before the next one begins. -/
def queueAll (stringify : List QueuedCommand → String)
    (json : String → Option (List QueuedCommand)) (syncSupported : Bool) :
    Worker → List QueueCall → Worker
  | w, [] => w
  | w, call :: rest =>
    queueAll stringify json syncSupported
      (queueOfflineCommand stringify json syncSupported w call.command call.now call.id).1 rest

/-- Two calls of `queueOfflineCommand` that overlap, as when two `QUEUE_COMMAND`
messages arrive back to back (the `message` listener does not await the call):
both calls have read the stored list before either reaches its `cache.put`,
then the first writes and then the second. -/
def queueOverlapping (stringify : List QueuedCommand → String)
    (json : String → Option (List QueuedCommand)) (syncSupported : Bool)
    (w : Worker) (first second : QueueCall) : Worker :=
  let held1 := queueOfflineCommandRead json w
  let held2 := queueOfflineCommandRead json w
  let w1 :=
    match held1 with
    | some commands =>
      (queueOfflineCommandWrite stringify syncSupported w commands
        first.command first.now first.id).1
    | none => w
  match held2 with
  | some commands =>
    (queueOfflineCommandWrite stringify syncSupported w1 commands
      second.command second.now second.id).1
  | none => w1

/-- The pieces of a text between occurrences of a separator. -/
def pieces (separator : Char) : List Char → List (List Char)
  | [] => []
  | c :: rest =>
    if c = separator then [] :: pieces separator rest
    else
      match pieces separator rest with
      | [] => [[c]]
      | piece :: others => (c :: piece) :: others

/-- A serialisation of command lists used in examples, standing in for
`JSON.stringify`: each element is written as `command,timestamp,id;`. -/
def sampleStringify (commands : List QueuedCommand) : String :=
  String.join (commands.map (fun c =>
    c.command ++ "," ++ toString c.timestamp ++ "," ++ c.id ++ ";"))

/-- The reader for `sampleStringify`, standing in for `response.json()`. -/
def sampleJson (body : String) : Option (List QueuedCommand) :=
  ((pieces ';' body.toList).filter (fun piece => !piece.isEmpty)).mapM (fun piece =>
    match pieces ',' piece with
    | [command, timestamp, id] =>
      (parseDigits 10 timestamp none).map (fun t =>
        { command := String.mk command, timestamp := t, id := String.mk id })
    | _ => none)

/-- The sweeps of `cleanExpiredCache` at the given times, one after the other. -/
def sweeps (w : Worker) (times : List Nat) : Worker :=
  times.foldl cleanExpiredCache w

end SW

namespace WS

/-- Of the messages `ms`, handed to the socket one after the other as attempts
number `n`, `n + 1`, ..., those whose transmission goes through, in order;
`socket` says whether `websocket` is set. -/
def delivered (accepts : Nat → Message → Bool) (socket : Bool) : Nat → List Message → List Message
  | _, [] => []
  | n, m :: ms =>
    (if socket && accepts n m then [m] else []) ++ delivered accepts socket (n + 1) ms

/-- The console lines that `send` writes for those of the messages `ms` whose
transmission throws. -/
def sendErrors (accepts : Nat → Message → Bool) (socket : Bool) : Nat → List Message → List String
  | _, [] => []
  | n, m :: ms =>
    (if socket && accepts n m then []
      else ["error: Fehler beim Senden der WebSocket-Nachricht"])
      ++ sendErrors accepts socket (n + 1) ms

/-- The frames that `authenticate` hands to `send`: one when a non-empty
token is stored under `webui-auth-token`, none otherwise. -/
def authenticateFrames (localStorage : List (String × String)) : List Message :=
  match mapGet localStorage "webui-auth-token" with
  | some authToken =>
    if authToken ≠ "" then
      [{ type := "authenticate", data := "", id := none, error := none,
         token := some authToken, channel := none }]
    else []
  | none => []

/-- A chat message with the given payload. -/
def chat (data : String) : Message :=
  { type := "chat", data := data, id := none, error := none, token := none, channel := none }

/-- A manager as `onopen` sees it when it calls `processMessageQueue`: two
messages were passed to `send` before the socket opened. -/
def drainingManager : Manager :=
  { run (fun _ _ => true) (Manager.new [] "ws://panel.example/api/websocket" false)
      [.send (chat "first"), .send (chat "second")] with isConnected := true }

/-- A message whose payload cannot be serialised: `JSON.stringify` throws on it. -/
def cyclic : Message :=
  { type := "chat", data := "<cyclic object>", id := none, error := none, token := none,
    channel := none }

/-- The part of a manager that requests live on: the pending requests, the
promises and the timers. -/
structure Core where
  pendingRequests : Option (List (Nat × Nat))
  promises : List (Option Settlement)
  timeouts : List Timeout

/-- The request part of a manager. -/
def Manager.core (s : Manager) : Core :=
  ⟨s.pendingRequests, s.promises, s.timeouts⟩

/-- The ways in which an event can act on the request part of a manager. -/
inductive Label
  | frame
  | reconnected
  | requested (id : Nat)
  | replied (id : Nat)
  | timedOut (id q : Nat)
  | expired (id q : Nat)
  | cleared

/-- The change of the request part, by kind: nothing but new reconnect timers
(`frame`); a reconnect timer fires (`reconnected`); `request` with a new
promise, a pending entry and a timer (`requested`); a reply settles the
promise of a pending entry (`replied`); a request timer fires and finds its
entry (`timedOut`) or finds none (`expired`); `destroy` clears the pending
entries (`cleared`). -/
inductive CoreStep : Label → Core → Core → Prop
  | frame (c : Core) (extra : List Timeout)
      (he : ∀ t ∈ extra, t.callback = Callback.reconnect) :
      CoreStep .frame c ⟨c.pendingRequests, c.promises, c.timeouts ++ extra⟩
  | reconnected (c : Core) (t : Timeout) (hc : t.callback = Callback.reconnect) :
      CoreStep .reconnected c ⟨c.pendingRequests, c.promises, c.timeouts.erase t⟩
  | requested (c : Core) (id : Nat) :
      CoreStep (.requested id) c
        ⟨some (mapSet (c.pendingRequests.getD []) id c.promises.length),
         c.promises ++ [none],
         c.timeouts ++ [⟨30000, .requestTimeout id c.promises.length⟩]⟩
  | replied (c : Core) (pending : List (Nat × Nat)) (id q : Nat) (v : Settlement)
      (h0 : c.pendingRequests = some pending) (hg : mapGet pending id = some q) :
      CoreStep (.replied id) c ⟨some (mapDelete pending id), settle c.promises q v, c.timeouts⟩
  | timedOut (c : Core) (t : Timeout) (id q : Nat) (pending : List (Nat × Nat))
      (hm : t ∈ c.timeouts) (hc : t.callback = Callback.requestTimeout id q)
      (h0 : c.pendingRequests = some pending) (hh : mapHas pending id = true) :
      CoreStep (.timedOut id q) c
        ⟨some (mapDelete pending id), settle c.promises q (.rejected "Request timeout"),
         c.timeouts.erase t⟩
  | expired (c : Core) (t : Timeout) (id q : Nat)
      (hm : t ∈ c.timeouts) (hc : t.callback = Callback.requestTimeout id q) :
      CoreStep (.expired id q) c ⟨c.pendingRequests, c.promises, c.timeouts.erase t⟩
  | cleared (c : Core) :
      CoreStep .cleared c ⟨c.pendingRequests.map (fun _ => []), c.promises, c.timeouts⟩

/-- The events that can be behind a kind of change. -/
def Caused (e : Event) : Label → Prop
  | .requested id => ∃ type data, e = .request type data id
  | .replied id => ∃ m, e = .message m ∧ m.id = some id
  | .timedOut id q => ∃ wsUrl throws, e = .timeout (.requestTimeout id q) wsUrl throws
  | .expired id q => ∃ wsUrl throws, e = .timeout (.requestTimeout id q) wsUrl throws
  | .cleared => e = .destroy
  | .frame => True
  | .reconnected => True

/-- Every promise that a pending entry or a request timer refers to exists. -/
def WellFormed (c : Core) : Prop :=
  (∀ pending i q, c.pendingRequests = some pending → mapGet pending i = some q →
    q < c.promises.length) ∧
  (∀ t ∈ c.timeouts, ∀ i q, t.callback = Callback.requestTimeout i q → q < c.promises.length)

/-- Promise `p` is referred to, by pending entries and by request timers, at
most under the id `o`. -/
def Exclusive (o : Option Nat) (p : Nat) (c : Core) : Prop :=
  (∀ pending i, c.pendingRequests = some pending → mapGet pending i = some p → some i = o) ∧
  (∀ t ∈ c.timeouts, ∀ i, t.callback = Callback.requestTimeout i p → some i = o)

/-- There is no pending entry for `id`. -/
def NoEntry (id : Nat) (c : Core) : Prop :=
  ∀ pending, c.pendingRequests = some pending → mapGet pending id = none

/-- The events that leave the request with id `id` and promise `p` waiting:
everything except `destroy`, a message with that id, a further request with
that id, and the firing of the request's own timer. -/
def Event.quiet (id p : Nat) : Event → Bool
  | .destroy => false
  | .message m => m.id != some id
  | .request _ _ id1 => id1 != id
  | .timeout callback _ _ => callback != .requestTimeout id p
  | _ => true

/-- The request with id `id` and promise `p` is waiting: the promise is
pending and referred to under `id` only, the entry for `id` holds it, its
timer of 30000 ms is pending, and no other timer carries `id`. -/
structure Waiting (id p : Nat) (c : Core) : Prop where
  exclusive : Exclusive (some id) p c
  pending : c.promises[p]? = some none
  entry : ∃ pending, c.pendingRequests = some pending ∧ mapGet pending id = some p
  timer : (⟨30000, .requestTimeout id p⟩ : Timeout) ∈ c.timeouts
  unique : ∀ t ∈ c.timeouts, ∀ q, t.callback = Callback.requestTimeout id q → q = p

/-- Whether a channel is in the subscription set after an event, going by the
calls alone: `subscribe` of the channel puts it in, `unsubscribe` of it takes
it out, `destroy` empties the set, and nothing else touches it. -/
def subscribedStep (channel : String) (before : Bool) : Event → Bool
  | .subscribe c => if c = channel then true else before
  | .unsubscribe c => if c = channel then false else before
  | .destroy => false
  | _ => before

/-- Whether a channel is in the subscription set after a sequence of events,
going by the calls alone. -/
def subscribedAfter (channel : String) (before : Bool) (events : List Event) : Bool :=
  events.foldl (subscribedStep channel) before

/-- A session that subscribes to `console` while connected, loses the
connection, and is reconnected by the timer. -/
def resubscribeTrace : List Event :=
  [.opened, .subscribe "console", .closed false, .timeout .reconnect "ws://host/ws" false,
   .opened]

/-- The reconnect part of a manager: the counter, its bound, the delay, the
pending timers and the alerts shown. -/
structure Backoff where
  reconnectAttempts : Nat
  maxReconnectAttempts : Nat
  reconnectDelay : Nat
  timeouts : List Timeout
  alerts : List String

/-- The reconnect part of a manager. -/
def Manager.backoff (s : Manager) : Backoff :=
  ⟨s.reconnectAttempts, s.maxReconnectAttempts, s.reconnectDelay, s.timeouts, s.alerts⟩

/-- A connection that keeps failing: `n` times the socket closes uncleanly, the
reconnect timer fires and `connect` creates the next socket. -/
def failedAttempts (wsUrl : String) : Nat → List Event
  | 0 => []
  | n + 1 => [.closed false, .timeout .reconnect wsUrl false] ++ failedAttempts wsUrl n

/-- Whether a sequence of open events, close events and firings of reconnect
timers can happen in a browser. `sockets` counts the sockets made by `connect`
that have not fired their close event: an open or close event comes from such a
socket, and the close event is a socket's last; a reconnect timer fires only
while pending, and `connect` then makes a socket unless the constructor throws. -/
def socketTrace (accepts : Nat → Message → Bool) : Nat → Manager → List Event → Bool
  | _, _, [] => true
  | sockets, s, .opened :: rest =>
    decide (0 < sockets) && socketTrace accepts sockets (step accepts s .opened) rest
  | sockets, s, .closed wasClean :: rest =>
    decide (0 < sockets) &&
      socketTrace accepts (sockets - 1) (step accepts s (.closed wasClean)) rest
  | sockets, s, .timeout .reconnect wsUrl constructorThrows :: rest =>
    s.timeouts.any (fun t => t.callback == Callback.reconnect) &&
      socketTrace accepts (if constructorThrows then sockets else sockets + 1)
        (step accepts s (.timeout .reconnect wsUrl constructorThrows)) rest
  | _, _, _ :: _ => false

/-- What the reconnect logic maintains along such a sequence: the bound is 5,
the delay is `2 ^ reconnectAttempts * 1000`, the counter is at most 5, and
either no timer is pending and at most one socket is alive, or no socket is
alive, the counter is below 5 and the one pending timer is a reconnect with the
current delay. -/
def Steady (sockets : Nat) (b : Backoff) : Prop :=
  b.maxReconnectAttempts = 5 ∧ b.reconnectDelay = 2 ^ b.reconnectAttempts * 1000 ∧
  b.reconnectAttempts ≤ 5 ∧
  ((sockets ≤ 1 ∧ b.timeouts = []) ∨
   (sockets = 0 ∧ b.reconnectAttempts < 5 ∧
    b.timeouts = [⟨b.reconnectDelay, Callback.reconnect⟩]))

/-- The nine type tags of the inbound protocol, as `handleWebSocketMessage`
of `app.js` lists them. -/
def protocolTypes : List String :=
  ["server_stats", "console_output", "player_join", "player_leave", "performance_update",
   "module_event", "security_alert", "notification", "auth_expired"]

end WS

/-- The validation is not a success: any outcome but a usable 2xx answer. -/
def ValidateOutcome.failed : ValidateOutcome → Bool
  | .valid _ => false
  | _ => true

namespace EssentialsCoreWebUI

/-- The events that cannot reset the failure counter: failed heartbeats, and
firings of reconnect timers whose validation fails. -/
def Event.unsuccessful : Event → Bool
  | .heartbeat probe _ => probe == Probe.failed
  | .timeout _ outcome => outcome.failed

/-- The number of heartbeat ticks among the events. -/
def heartbeats : List Event → Nat
  | [] => 0
  | .heartbeat _ _ :: rest => heartbeats rest + 1
  | .timeout _ _ :: rest => heartbeats rest

/-- The warning notification of `handleHeartbeatFailure` for attempt `n`. -/
def warning (n : Nat) : String × String :=
  ("Verbindungsproblem erkannt (Versuch " ++ toString n ++ ")", "warning")

end EssentialsCoreWebUI

namespace WebUIEnhancedFeatures

/-- The events that cannot reset the failure counter, as for `EssentialsCoreWebUI`. -/
def Event.unsuccessful : Event → Bool
  | .heartbeat probe _ => probe == Probe.failed
  | .timeout _ outcome _ => outcome.failed

/-- The number of heartbeat ticks among the events. -/
def heartbeats : List Event → Nat
  | [] => 0
  | .heartbeat _ _ :: rest => heartbeats rest + 1
  | .timeout _ _ _ :: rest => heartbeats rest

/-- The warning notification of `handleHeartbeatFailure` for attempt `n` of `max`. -/
def warning (n max : Nat) : String × String :=
  ("🔄 Verbindungsproblem erkannt (Versuch " ++ toString n ++ "/" ++ toString max ++ ")",
   "warning")

end WebUIEnhancedFeatures

/-- The call of the method `setupWebSocket`, which the repository does not
define: a `TypeError`. -/
def setupWebSocketMissing : EssentialsCoreWebUI → Except String EssentialsCoreWebUI :=
  fun _ => .error "TypeError: this.setupWebSocket is not a function"

/-- A page with the heartbeat running: six heartbeats fail, 30 s apart, and
the reconnect timers of 2, 4, 8 and 16 s fire in between, each validation
failing with a network error; the timer of 32 s is still pending. -/
def sixFailures : List EssentialsCoreWebUI.Event :=
  [.heartbeat .failed 30000, .timeout 2000 .networkError,
   .heartbeat .failed 60000, .timeout 4000 .networkError,
   .heartbeat .failed 90000, .timeout 8000 .networkError,
   .heartbeat .failed 120000, .timeout 16000 .networkError,
   .heartbeat .failed 150000, .heartbeat .failed 180000]

/-- A page after three failed heartbeats, with the heartbeat running and a
socket that is closed (`readyState` 3). -/
def backingOff : EssentialsCoreWebUI :=
  { EssentialsCoreWebUI.initial [] 0 with
    websocket := some 3, reconnectAttempts := 3, heartbeatInterval := some 1 }

/-- The enhanced features of that page, after three failed heartbeats of their own. -/
def backingOffFeatures : WebUIEnhancedFeatures :=
  { WebUIEnhancedFeatures.initial backingOff 0 with
    reconnectAttempts := 3, heartbeatInterval := some 1 }

/-- A `setupWebSocket` that returns normally and leaves an open socket, for
examples; the repository defines none. -/
def setupWebSocketOpens : EssentialsCoreWebUI → Except String EssentialsCoreWebUI :=
  fun s => .ok { s with websocket := some EssentialsCoreWebUI.OPEN }

/-! # Part 3: properties -/

namespace SW

/-! ## The Service Worker (C1, C2, C3) -/

theorem getCacheStrategyLoop_eq_default (pathname : String) :
    ∀ table : List (String × String),
      (∀ e ∈ table, startsWith pathname e.1 = false) →
      getCacheStrategyLoop pathname table = CACHE_STRATEGIES.STALE_WHILE_REVALIDATE := by
  intro table
  induction table with
  | nil => intro _; rfl
  | cons e rest ih =>
    intro h
    obtain ⟨pattern, strategy⟩ := e
    have h1 : startsWith pathname pattern = false := h (pattern, strategy) (by simp)
    have h2 : ∀ e ∈ rest, startsWith pathname e.1 = false :=
      fun e he => h e (List.mem_cons_of_mem _ he)
    simp [getCacheStrategyLoop, h1, ih h2]

/-- The default of `getCacheStrategy`: a pathname of which no table key is a
prefix gets `stale-while-revalidate`. -/
theorem getCacheStrategy_default (pathname : String)
    (h : ∀ e ∈ CACHE_PATTERNS, startsWith pathname e.1 = false) :
    getCacheStrategy pathname = CACHE_STRATEGIES.STALE_WHILE_REVALIDATE :=
  getCacheStrategyLoop_eq_default pathname CACHE_PATTERNS h

/-- C1, at the pathname `/ws/live`: the keys that are prefixes of it are `/`
and `/ws/`; the longest one, `/ws/`, is assigned `network-only`, but
`getCacheStrategy` returns the strategy of the first matching key in table
order, `/`, which is `stale-while-revalidate`. -/
theorem getCacheStrategy_ws_live :
    startsWith "/ws/live" "/" = true ∧ startsWith "/ws/live" "/ws/" = true ∧
    longestMatchStrategy "/ws/live" = "network-only" ∧
    getCacheStrategy "/ws/live" = "stale-while-revalidate" := by
  decide

/-- The promise returned by `handleRequest` never rejects: what a strategy
throws is caught and answered by `handleOffline`. -/
theorem handleRequest_never_rejects (w : Worker) (net : Except JSError Response) (now : Nat)
    (request : Request) (strategy : String) :
    ∃ r, (handleRequest w net now request strategy).2 = .ok r := by
  unfold handleRequest
  rcases h : dispatchStrategy w net now request strategy with ⟨w1, r | r⟩
  · exact ⟨_, rfl⟩
  · exact ⟨_, rfl⟩

/-- C2, at a request handled with `stale-while-revalidate` that is not in the
static cache while the network is down: the strategy can serve it neither
from cache nor from the network, yet `handleRequest` does not give the
response of `handleOffline` (here the 404 response) but resolves with
`undefined`. -/
theorem handleRequest_staleWhileRevalidate_undefined :
    cacheMatch ([] : Cache) "https://panel.example/index.html" = none ∧
    (handleRequest ⟨[], [], ⟨0, 0, 0, 0⟩, []⟩ (.error "TypeError: Failed to fetch") 0
        ⟨"https://panel.example/index.html", "/index.html", "script", "GET"⟩
        "stale-while-revalidate").2 = .ok none ∧
    (handleOffline ⟨[], [], ⟨0, 0, 1, 0⟩, ["https://panel.example/index.html"]⟩
        ⟨"https://panel.example/index.html", "/index.html", "script", "GET"⟩).2 = notFoundResponse := by
  decide

/-- The defect behind C2 in general: whenever the dispatch reaches
`staleWhileRevalidate`, the static cache misses and the fetch rejects,
`handleRequest` resolves with `undefined`. -/
theorem handleRequest_staleWhileRevalidate_miss_offline (w : Worker) (e : JSError) (now : Nat)
    (request : Request) (strategy : String)
    (h1 : strategy ≠ CACHE_STRATEGIES.CACHE_FIRST)
    (h2 : strategy ≠ CACHE_STRATEGIES.NETWORK_FIRST)
    (h3 : strategy ≠ CACHE_STRATEGIES.NETWORK_ONLY)
    (h4 : strategy ≠ CACHE_STRATEGIES.CACHE_ONLY)
    (hmiss : cacheMatch w.staticCache request.url = none) :
    (handleRequest w (.error e) now request strategy).2 = .ok none := by
  simp [handleRequest, dispatchStrategy, h1, h2, h3, h4, staleWhileRevalidate, hmiss,
    recordFetch]

/-- The response of `handleOffline` depends on the two cache partitions only. -/
theorem handleOffline_response_congr (w w1 : Worker) (request : Request)
    (hs : w1.staticCache = w.staticCache) (ha : w1.apiCache = w.apiCache) :
    (handleOffline w1 request).2 = (handleOffline w request).2 := by
  unfold handleOffline
  by_cases hd : request.destination = "document"
  · simp [hd, hs]
  · by_cases hp : startsWith request.pathname "/api/" = true
    · simp only [hd, hp, if_false, if_true, ha]
      cases cacheMatch w.apiCache request.url <;> rfl
    · simp [hd, hp]

/-- The other four strategies do route an exhausted request through
`handleOffline`: a rejected fetch (and, for the cache strategies, a miss)
ends in the response of `handleOffline`. -/
theorem handleRequest_offline_of_exhausted (w : Worker) (e : JSError) (now : Nat)
    (request : Request) :
    (cacheMatch w.staticCache request.url = none →
      (handleRequest w (.error e) now request CACHE_STRATEGIES.CACHE_FIRST).2
        = .ok (some (handleOffline w request).2)) ∧
    (cacheMatch w.apiCache request.url = none →
      (handleRequest w (.error e) now request CACHE_STRATEGIES.NETWORK_FIRST).2
        = .ok (some (handleOffline w request).2)) ∧
    (handleRequest w (.error e) now request CACHE_STRATEGIES.NETWORK_ONLY).2
        = .ok (some (handleOffline w request).2) ∧
    (cacheMatch w.staticCache request.url = none →
      (handleRequest w (.error e) now request CACHE_STRATEGIES.CACHE_ONLY).2
        = .ok (some (handleOffline w request).2)) := by
  refine ⟨?_, ?_, ?_, ?_⟩
  · intro h
    simp only [handleRequest, dispatchStrategy, if_true, cacheFirst, h, Except.map]
    exact congrArg (fun r => Except.ok (some r))
      (handleOffline_response_congr w _ request rfl rfl)
  · intro h
    have hne : CACHE_STRATEGIES.NETWORK_FIRST ≠ CACHE_STRATEGIES.CACHE_FIRST := by decide
    simp only [handleRequest, dispatchStrategy, hne, if_false, if_true, networkFirst,
      recordFetch, h, Except.map]
    exact congrArg (fun r => Except.ok (some r))
      (handleOffline_response_congr w _ request rfl rfl)
  · have h1 : CACHE_STRATEGIES.NETWORK_ONLY ≠ CACHE_STRATEGIES.CACHE_FIRST := by decide
    have h2 : CACHE_STRATEGIES.NETWORK_ONLY ≠ CACHE_STRATEGIES.NETWORK_FIRST := by decide
    have h3 : CACHE_STRATEGIES.NETWORK_ONLY ≠ CACHE_STRATEGIES.STALE_WHILE_REVALIDATE := by
      decide
    simp only [handleRequest, dispatchStrategy, h1, h2, h3, if_false, if_true, recordFetch,
      Except.map]
    exact congrArg (fun r => Except.ok (some r))
      (handleOffline_response_congr w _ request rfl rfl)
  · intro h
    have h1 : CACHE_STRATEGIES.CACHE_ONLY ≠ CACHE_STRATEGIES.CACHE_FIRST := by decide
    have h2 : CACHE_STRATEGIES.CACHE_ONLY ≠ CACHE_STRATEGIES.NETWORK_FIRST := by decide
    have h3 : CACHE_STRATEGIES.CACHE_ONLY ≠ CACHE_STRATEGIES.STALE_WHILE_REVALIDATE := by
      decide
    have h4 : CACHE_STRATEGIES.CACHE_ONLY ≠ CACHE_STRATEGIES.NETWORK_ONLY := by decide
    simp only [handleRequest, dispatchStrategy, h1, h2, h3, h4, if_false, if_true, cacheOnly,
      h, Except.map]

/-- C3: a request handled with `network-first` whose fetch rejects. If the API
cache holds an entry for the request, `handleRequest` resolves with exactly
that entry. If it holds none, `handleRequest` resolves with the response of
`handleOffline(request)` (called in the worker state that `networkFirst`
leaves), and for a request that is not a document and whose path starts with
`/api/` that response is the synthetic one: status 503, content type
`application/json`, body `{error: 'Offline', message: 'No network connection
available', cached: false}`. -/
theorem handleRequest_networkFirst_fetch_fails (w : Worker) (e : JSError) (now : Nat)
    (request : Request) :
    (∀ cached, cacheMatch w.apiCache request.url = some cached →
      (handleRequest w (.error e) now request "network-first").2 = .ok (some cached)) ∧
    (cacheMatch w.apiCache request.url = none →
      (handleRequest w (.error e) now request "network-first").2
        = .ok (some (handleOffline (networkFirst w (.error e) now request).1 request).2)) ∧
    (cacheMatch w.apiCache request.url = none → request.destination ≠ "document" →
      startsWith request.pathname "/api/" = true →
      (handleRequest w (.error e) now request "network-first").2
        = .ok (some ⟨"\x7b\"error\":\"Offline\",\"message\":\"No network connection available\",\"cached\":false\x7d",
            503, [("Content-Type", "application/json")]⟩)) := by
  have hne : CACHE_STRATEGIES.NETWORK_FIRST ≠ CACHE_STRATEGIES.CACHE_FIRST := by decide
  have heq : "network-first" = CACHE_STRATEGIES.NETWORK_FIRST := rfl
  refine ⟨?_, ?_, ?_⟩
  · intro cached h
    simp only [handleRequest, dispatchStrategy, hne, heq, if_false, if_true, networkFirst,
      recordFetch, h, Except.map]
  · intro h
    simp only [handleRequest, dispatchStrategy, hne, heq, if_false, if_true, networkFirst,
      recordFetch, h, Except.map]
  · intro h hd hp
    simp only [handleRequest, dispatchStrategy, hne, heq, if_false, if_true, networkFirst,
      recordFetch, h, Except.map, handleOffline, hd, hp]
    rfl

/-- C3 at concrete requests for `/api/stats`: once with the entry `cached` in
the API cache, once with an empty API cache. -/
theorem handleRequest_networkFirst_fetch_fails_witness :
    (handleRequest ⟨[], [("https://panel.example/api/stats", ⟨"42", 200, []⟩)], ⟨0, 0, 0, 0⟩, []⟩
        (.error "TypeError: Failed to fetch") 7
        ⟨"https://panel.example/api/stats", "/api/stats", "", "GET"⟩ "network-first").2
      = .ok (some ⟨"42", 200, []⟩) ∧
    (handleRequest ⟨[], [], ⟨0, 0, 0, 0⟩, []⟩ (.error "TypeError: Failed to fetch") 7
        ⟨"https://panel.example/api/stats", "/api/stats", "", "GET"⟩ "network-first").2
      = .ok (some ⟨"\x7b\"error\":\"Offline\",\"message\":\"No network connection available\",\"cached\":false\x7d",
            503, [("Content-Type", "application/json")]⟩) :=
  ⟨(handleRequest_networkFirst_fetch_fails
      ⟨[], [("https://panel.example/api/stats", ⟨"42", 200, []⟩)], ⟨0, 0, 0, 0⟩, []⟩
      "TypeError: Failed to fetch" 7
      ⟨"https://panel.example/api/stats", "/api/stats", "", "GET"⟩).1 ⟨"42", 200, []⟩ (by decide),
   (handleRequest_networkFirst_fetch_fails ⟨[], [], ⟨0, 0, 0, 0⟩, []⟩
      "TypeError: Failed to fetch" 7
      ⟨"https://panel.example/api/stats", "/api/stats", "", "GET"⟩).2.2
      (by decide) (by decide) (by decide)⟩

theorem startsWith_of_longer (p k1 k2 : String)
    (h12 : k1.toList.isPrefixOf k2.toList = true) (h : startsWith p k2 = true) :
    startsWith p k1 = true := by
  unfold startsWith at *
  rw [ List.isPrefixOf_iff_prefix] at *
  exact h12.trans h

theorem startsWith_exclusive (p k1 k2 : String)
    (h1 : k1.toList.isPrefixOf k2.toList = false)
    (h2 : k2.toList.isPrefixOf k1.toList = false)
    (ha : startsWith p k1 = true) : startsWith p k2 = false := by
  cases hb : startsWith p k2 with
  | false => rfl
  | true =>
    exfalso
    unfold startsWith at *
    rw [ List.isPrefixOf_iff_prefix] at ha hb
    rcases Nat.le_total k1.toList.length k2.toList.length with hle | hle
    · have := List.prefix_of_prefix_length_le ha hb hle
      rw [← List.isPrefixOf_iff_prefix, h1] at this
      cases this
    · have := List.prefix_of_prefix_length_le hb ha hle
      rw [← List.isPrefixOf_iff_prefix, h2] at this
      cases this

theorem getCacheStrategyLoop_eq_firstMarked (pathname : String) :
    ∀ table : List (String × String),
      getCacheStrategyLoop pathname table
        = firstMarked (table.map (fun e => (startsWith pathname e.1, e.2))) := by
  intro table
  induction table with
  | nil => rfl
  | cons e rest ih =>
    obtain ⟨pattern, strategy⟩ := e
    simp only [getCacheStrategyLoop, List.map_cons, firstMarked, ih]

theorem longestMatch_eq_longestMarked (pathname : String) :
    ∀ (table : List (String × String)) (best : Option (String × String)),
      (longestMatch pathname table best).map (fun e => (e.1.length, e.2))
        = longestMarked (table.map (fun e => (startsWith pathname e.1, e.1.length, e.2)))
            (best.map (fun e => (e.1.length, e.2))) := by
  intro table
  induction table with
  | nil => intro best; rfl
  | cons e rest ih =>
    intro best
    obtain ⟨pattern, strategy⟩ := e
    simp only [longestMatch, List.map_cons, longestMarked]
    by_cases hb : startsWith pathname pattern = true
    · simp only [hb, if_true]
      cases best with
      | none => simp only [Option.map_none']; exact ih _
      | some b =>
        obtain ⟨p, s⟩ := b
        simp only [Option.map_some']
        by_cases hl : p.length < pattern.length
        · simp only [hl, if_true]; exact ih _
        · simp only [hl, if_false]; exact ih _
    · simp only [hb, Bool.false_eq_true, if_false]
      exact ih _

theorem marked_agree :
    ∀ b1 b2 b3 b4 b5 b6 b7 : Bool,
      (b1 = true → b6 = true) → (b2 = true → b6 = true) → (b3 = true → b6 = true) →
      (b4 = true → b6 = true) → (b5 = true → b6 = true) → (b7 = true → b6 = true) →
      (b1 = true → b2 = false ∧ b3 = false ∧ b4 = false ∧ b5 = false ∧ b7 = false) →
      (b2 = true → b3 = false ∧ b4 = false ∧ b5 = false ∧ b7 = false) →
      (b3 = true → b4 = false ∧ b5 = false ∧ b7 = false) →
      (b4 = true → b5 = false ∧ b7 = false) →
      (b5 = true → b7 = false) →
      (longestMarked
          [(b1, 5, "cache-first"), (b2, 4, "cache-first"), (b3, 8, "cache-first"),
           (b4, 7, "cache-first"), (b5, 5, "network-first"),
           (b6, 1, "stale-while-revalidate"), (b7, 11, "stale-while-revalidate"),
           (false, 4, "network-only")] none).map (fun e => e.2)
        = (if b6 then some (firstMarked
            [(b1, "cache-first"), (b2, "cache-first"), (b3, "cache-first"),
             (b4, "cache-first"), (b5, "network-first"), (b6, "stale-while-revalidate"),
             (b7, "stale-while-revalidate"), (false, "network-only")]) else none) := by
  intro b1 b2 b3 b4 b5 b6 b7
  intro a1 a2 a3 a4 a5 a7 e1 e2 e3 e4 e5
  cases b1 <;> cases b2 <;> cases b3 <;> cases b4 <;> cases b5 <;> cases b6 <;> cases b7 <;>
    first
      | rfl
      | simp at a1 a2 a3 a4 a5 a7 e1 e2 e3 e4 e5

/-- Apart from the pathnames that start with `/ws/`, `getCacheStrategy` does
return the strategy of the longest key that is a prefix of the pathname (and
the default when there is none): the first matching key in table order and
the longest matching key then carry the same strategy. -/
theorem getCacheStrategy_eq_longestMatch (pathname : String)
    (h : startsWith pathname "/ws/" = false) :
    getCacheStrategy pathname = longestMatchStrategy pathname := by
  have r1 := startsWith_of_longer pathname "/" "/css/" (by decide)
  have r2 := startsWith_of_longer pathname "/" "/js/" (by decide)
  have r3 := startsWith_of_longer pathname "/" "/images/" (by decide)
  have r4 := startsWith_of_longer pathname "/" "/fonts/" (by decide)
  have r5 := startsWith_of_longer pathname "/" "/api/" (by decide)
  have r7 := startsWith_of_longer pathname "/" "/index.html" (by decide)
  have x12 := startsWith_exclusive pathname "/css/" "/js/" (by decide) (by decide)
  have x13 := startsWith_exclusive pathname "/css/" "/images/" (by decide) (by decide)
  have x14 := startsWith_exclusive pathname "/css/" "/fonts/" (by decide) (by decide)
  have x15 := startsWith_exclusive pathname "/css/" "/api/" (by decide) (by decide)
  have x17 := startsWith_exclusive pathname "/css/" "/index.html" (by decide) (by decide)
  have x23 := startsWith_exclusive pathname "/js/" "/images/" (by decide) (by decide)
  have x24 := startsWith_exclusive pathname "/js/" "/fonts/" (by decide) (by decide)
  have x25 := startsWith_exclusive pathname "/js/" "/api/" (by decide) (by decide)
  have x27 := startsWith_exclusive pathname "/js/" "/index.html" (by decide) (by decide)
  have x34 := startsWith_exclusive pathname "/images/" "/fonts/" (by decide) (by decide)
  have x35 := startsWith_exclusive pathname "/images/" "/api/" (by decide) (by decide)
  have x37 := startsWith_exclusive pathname "/images/" "/index.html" (by decide) (by decide)
  have x45 := startsWith_exclusive pathname "/fonts/" "/api/" (by decide) (by decide)
  have x47 := startsWith_exclusive pathname "/fonts/" "/index.html" (by decide) (by decide)
  have x57 := startsWith_exclusive pathname "/api/" "/index.html" (by decide) (by decide)
  have hagree := marked_agree (startsWith pathname "/css/") (startsWith pathname "/js/")
    (startsWith pathname "/images/") (startsWith pathname "/fonts/")
    (startsWith pathname "/api/") (startsWith pathname "/") (startsWith pathname "/index.html")
    r1 r2 r3 r4 r5 r7
    (fun h1 => ⟨x12 h1, x13 h1, x14 h1, x15 h1, x17 h1⟩)
    (fun h2 => ⟨x23 h2, x24 h2, x25 h2, x27 h2⟩)
    (fun h3 => ⟨x34 h3, x35 h3, x37 h3⟩)
    (fun h4 => ⟨x45 h4, x47 h4⟩)
    (fun h5 => x57 h5)
  have hfirst : getCacheStrategy pathname = firstMarked
      [(startsWith pathname "/css/", "cache-first"), (startsWith pathname "/js/", "cache-first"),
       (startsWith pathname "/images/", "cache-first"),
       (startsWith pathname "/fonts/", "cache-first"),
       (startsWith pathname "/api/", "network-first"),
       (startsWith pathname "/", "stale-while-revalidate"),
       (startsWith pathname "/index.html", "stale-while-revalidate"),
       (false, "network-only")] := by
    unfold getCacheStrategy
    rw [getCacheStrategyLoop_eq_firstMarked, ← h]
    rfl
  have hlong := longestMatch_eq_longestMarked pathname CACHE_PATTERNS none
  have hlong1 : (longestMatch pathname CACHE_PATTERNS none).map (fun e => e.2)
      = (longestMarked
          [(startsWith pathname "/css/", 5, "cache-first"),
           (startsWith pathname "/js/", 4, "cache-first"),
           (startsWith pathname "/images/", 8, "cache-first"),
           (startsWith pathname "/fonts/", 7, "cache-first"),
           (startsWith pathname "/api/", 5, "network-first"),
           (startsWith pathname "/", 1, "stale-while-revalidate"),
           (startsWith pathname "/index.html", 11, "stale-while-revalidate"),
           (false, 4, "network-only")] none).map (fun e => e.2) := by
    have h2 := congrArg (Option.map (fun e : Nat × String => e.2)) hlong
    rw [Option.map_map] at h2
    rw [← h]
    exact h2
  rw [hagree] at hlong1
  unfold longestMatchStrategy
  rw [hfirst]
  cases h6 : startsWith pathname "/" with
  | true =>
    rw [h6] at hlong1
    simp only [if_true] at hlong1
    cases hm : longestMatch pathname CACHE_PATTERNS none with
    | none => rw [hm] at hlong1; cases hlong1
    | some e =>
      rw [hm] at hlong1
      simp only [Option.map_some', Option.some.injEq] at hlong1
      rw [← hlong1]
  | false =>
    rw [h6] at hlong1
    simp only [Bool.false_eq_true, if_false] at hlong1
    cases hm : longestMatch pathname CACHE_PATTERNS none with
    | none =>
      have c1 : startsWith pathname "/css/" = false := by
        cases hc : startsWith pathname "/css/" with
        | false => rfl
        | true => rw [r1 hc] at h6; cases h6
      have c2 : startsWith pathname "/js/" = false := by
        cases hc : startsWith pathname "/js/" with
        | false => rfl
        | true => rw [r2 hc] at h6; cases h6
      have c3 : startsWith pathname "/images/" = false := by
        cases hc : startsWith pathname "/images/" with
        | false => rfl
        | true => rw [r3 hc] at h6; cases h6
      have c4 : startsWith pathname "/fonts/" = false := by
        cases hc : startsWith pathname "/fonts/" with
        | false => rfl
        | true => rw [r4 hc] at h6; cases h6
      have c5 : startsWith pathname "/api/" = false := by
        cases hc : startsWith pathname "/api/" with
        | false => rfl
        | true => rw [r5 hc] at h6; cases h6
      have c7 : startsWith pathname "/index.html" = false := by
        cases hc : startsWith pathname "/index.html" with
        | false => rfl
        | true => rw [r7 hc] at h6; cases h6
      rw [c1, c2, c3, c4, c5, c7]
      rfl
    | some e => rw [hm] at hlong1; cases hlong1

/-! ## The strategies and the offline handler (C12, C13, C17, C18) -/

theorem cacheMatch_cons (cache : Cache) (key url : String) (response : Response) :
    cacheMatch ((key, response) :: cache) url =
      if key = url then some response else cacheMatch cache url := by
  unfold cacheMatch
  by_cases h : key = url
  · simp [List.find?_cons, h]
  · simp [List.find?_cons, h]

theorem cacheMatch_filter_ne (cache : Cache) (key url : String) (h : url ≠ key) :
    cacheMatch (cache.filter (fun e => e.1 != key)) url = cacheMatch cache url := by
  induction cache with
  | nil => rfl
  | cons e rest ih =>
    rcases e with ⟨k, r⟩
    by_cases hk : k = key
    · subst hk
      have hne : ¬ k = url := fun hh => h hh.symm
      simp [List.filter_cons, cacheMatch_cons, hne, ih]
    · simp [List.filter_cons, cacheMatch_cons, hk, ih]

theorem cacheMatch_filter_eq (cache : Cache) (key : String) :
    cacheMatch (cache.filter (fun e => e.1 != key)) key = none := by
  induction cache with
  | nil => rfl
  | cons e rest ih =>
    rcases e with ⟨k, r⟩
    by_cases hk : k = key
    · simp [List.filter_cons, hk, ih]
    · simp [List.filter_cons, cacheMatch_cons, hk, ih]

theorem cacheMatch_cachePut (cache : Cache) (url : String) (response : Response) :
    cacheMatch (cachePut cache url response) url = some response := by
  simp [cachePut, cacheMatch_cons]

theorem cacheMatch_cachePut_ne (cache : Cache) (key url : String) (response : Response)
    (h : url ≠ key) :
    cacheMatch (cachePut cache key response) url = cacheMatch cache url := by
  have hne : ¬ key = url := fun hh => h hh.symm
  simp [cachePut, cacheMatch_cons, hne, cacheMatch_filter_ne cache key url h]

theorem headersGet_headersSet (headers : List (String × String)) (name value : String) :
    headersGet (headersSet headers name value) name = some value := by
  have h : ((headers.filter (fun h => h.1 != name) ++ [(name, value)]).filter
      (fun h => h.1 == name)) = [(name, value)] := by
    rw [List.filter_append, List.filter_filter]
    simp
  unfold headersGet headersSet
  rw [h]
  rfl

/-- Every pathname under `/ws/` is given the strategy of the key `/`, which
precedes `/ws/` in the table. -/
theorem getCacheStrategy_ws (pathname : String) (h : startsWith pathname "/ws/" = true) :
    getCacheStrategy pathname = CACHE_STRATEGIES.STALE_WHILE_REVALIDATE := by
  have h1 := startsWith_exclusive pathname "/ws/" "/css/" (by decide) (by decide) h
  have h2 := startsWith_exclusive pathname "/ws/" "/js/" (by decide) (by decide) h
  have h3 := startsWith_exclusive pathname "/ws/" "/images/" (by decide) (by decide) h
  have h4 := startsWith_exclusive pathname "/ws/" "/fonts/" (by decide) (by decide) h
  have h5 := startsWith_exclusive pathname "/ws/" "/api/" (by decide) (by decide) h
  have h6 := startsWith_of_longer pathname "/" "/ws/" (by decide) h
  simp [getCacheStrategy, CACHE_PATTERNS, getCacheStrategyLoop, h1, h2, h3, h4, h5, h6]

/-- C12, at the pathname `/ws/console`: `getCacheStrategy` returns
`stale-while-revalidate`, not `network-only`. With that strategy `handleRequest`
answers from the static cache (the stale entry is returned) and writes the
network response into it; with `network-only` it would return the network
response and leave the caches alone. -/
theorem getCacheStrategy_ws_console :
    startsWith "/ws/console" "/ws/" = true ∧
    getCacheStrategy "/ws/console" = "stale-while-revalidate" ∧
    handleRequest ⟨[("/ws/console", ⟨"stale", 200, []⟩)], [], ⟨0, 0, 0, 0⟩, []⟩
        (.ok ⟨"fresh", 200, []⟩) 0 ⟨"/ws/console", "/ws/console", "", "GET"⟩
        (getCacheStrategy "/ws/console") =
      (⟨[("/ws/console", ⟨"fresh", 200, []⟩)], [], ⟨1, 0, 0, 0⟩, ["/ws/console"]⟩,
        .ok (some ⟨"stale", 200, []⟩)) ∧
    handleRequest ⟨[("/ws/console", ⟨"stale", 200, []⟩)], [], ⟨0, 0, 0, 0⟩, []⟩
        (.ok ⟨"fresh", 200, []⟩) 0 ⟨"/ws/console", "/ws/console", "", "GET"⟩ "network-only" =
      (⟨[("/ws/console", ⟨"stale", 200, []⟩)], [], ⟨0, 0, 0, 0⟩, ["/ws/console"]⟩,
        .ok (some ⟨"fresh", 200, []⟩)) := by
  decide

/-- C13: when the static cache holds an entry for the request, `cacheFirst`
returns that entry, calls `fetch` for nothing, and leaves the static and the
API cache as they were, whatever the network would have answered. -/
theorem cacheFirst_hit (w : Worker) (net : Except JSError Response) (request : Request)
    (cached : Response) (h : cacheMatch w.staticCache request.url = some cached) :
    (cacheFirst w net request).2 = .ok cached ∧
    (cacheFirst w net request).1.fetched = w.fetched ∧
    (cacheFirst w net request).1.staticCache = w.staticCache ∧
    (cacheFirst w net request).1.apiCache = w.apiCache := by
  simp [cacheFirst, h]

theorem cacheFirst_hit_witness :
    cacheMatch (Worker.mk [("/css/main.css", ⟨"body", 200, []⟩)] [] ⟨0, 0, 0, 0⟩ []).staticCache
        (Request.mk "/css/main.css" "/css/main.css" "style" "GET").url = some ⟨"body", 200, []⟩ ∧
    (cacheFirst ⟨[("/css/main.css", ⟨"body", 200, []⟩)], [], ⟨0, 0, 0, 0⟩, []⟩
        (.ok ⟨"newer", 200, []⟩) ⟨"/css/main.css", "/css/main.css", "style", "GET"⟩).2 =
      .ok ⟨"body", 200, []⟩ :=
  ⟨by decide,
   (cacheFirst_hit ⟨[("/css/main.css", ⟨"body", 200, []⟩)], [], ⟨0, 0, 0, 0⟩, []⟩
      (.ok ⟨"newer", 200, []⟩) ⟨"/css/main.css", "/css/main.css", "style", "GET"⟩
      ⟨"body", 200, []⟩ (by decide)).1⟩

/-- C17, as the code has it: for a request whose destination is `document`,
`handleOffline` returns the `/offline.html` entry of the static cache when
there is one and otherwise the plain text response `Offline` (status 200); for
any other request whose path starts with `/api/`, the API-cache entry of the
request when there is one and otherwise the 503 JSON response; for every
remaining request the 404 response. -/
theorem handleOffline_answers (w : Worker) (request : Request) :
    (request.destination = "document" →
      (handleOffline w request).2 =
        (cacheMatch w.staticCache "/offline.html").getD
          ⟨"Offline", 200, [("content-type", "text/plain;charset=UTF-8")]⟩) ∧
    (request.destination ≠ "document" → startsWith request.pathname "/api/" = true →
      (∀ cached, cacheMatch w.apiCache request.url = some cached →
        (handleOffline w request).2 = cached) ∧
      (cacheMatch w.apiCache request.url = none →
        (handleOffline w request).2 = offlineApiResponse ∧
        (handleOffline w request).2.status = 503)) ∧
    (request.destination ≠ "document" → startsWith request.pathname "/api/" = false →
      (handleOffline w request).2 = notFoundResponse ∧
      (handleOffline w request).2.status = 404) := by
  refine ⟨?_, ?_, ?_⟩
  · intro hd
    simp [handleOffline, hd, OFFLINE_PAGE, offlineTextResponse]
  · intro hd hapi
    constructor
    · intro cached hc
      simp [handleOffline, hd, hapi, hc]
    · intro hc
      simp [handleOffline, hd, hapi, hc, offlineApiResponse]
  · intro hd hapi
    simp [handleOffline, hd, hapi, notFoundResponse]

theorem handleOffline_answers_witness :
    (handleOffline ⟨[("/offline.html", ⟨"<html>offline</html>", 200, []⟩)], [], ⟨0, 0, 0, 0⟩, []⟩
        ⟨"/dashboard", "/dashboard", "document", "GET"⟩).2 = ⟨"<html>offline</html>", 200, []⟩ ∧
    (handleOffline ⟨[], [("/api/status", ⟨"up", 200, []⟩)], ⟨0, 0, 0, 0⟩, []⟩
        ⟨"/api/status", "/api/status", "", "GET"⟩).2 = ⟨"up", 200, []⟩ ∧
    (handleOffline ⟨[], [], ⟨0, 0, 0, 0⟩, []⟩ ⟨"/api/status", "/api/status", "", "GET"⟩).2.status = 503 ∧
    (handleOffline ⟨[], [], ⟨0, 0, 0, 0⟩, []⟩ ⟨"/logo.png", "/logo.png", "image", "GET"⟩).2.status = 404 :=
  ⟨(handleOffline_answers
      ⟨[("/offline.html", ⟨"<html>offline</html>", 200, []⟩)], [], ⟨0, 0, 0, 0⟩, []⟩
      ⟨"/dashboard", "/dashboard", "document", "GET"⟩).1 rfl,
   ((handleOffline_answers ⟨[], [("/api/status", ⟨"up", 200, []⟩)], ⟨0, 0, 0, 0⟩, []⟩
      ⟨"/api/status", "/api/status", "", "GET"⟩).2.1 (by decide) (by decide)).1 _ (by decide),
   (((handleOffline_answers ⟨[], [], ⟨0, 0, 0, 0⟩, []⟩
      ⟨"/api/status", "/api/status", "", "GET"⟩).2.1 (by decide) (by decide)).2 (by decide)).2,
   ((handleOffline_answers ⟨[], [], ⟨0, 0, 0, 0⟩, []⟩
      ⟨"/logo.png", "/logo.png", "image", "GET"⟩).2.2 (by decide) (by decide)).2⟩

/-- C17 does not hold as stated: with no `/offline.html` entry in the static
cache a `document` request is answered by the plain text `Offline`, and a
`document` request under `/api/` is answered by the offline page although the
API cache holds an entry for it. -/
theorem handleOffline_document_without_page :
    cacheMatch ([] : Cache) "/offline.html" = none ∧
    (handleOffline ⟨[], [], ⟨0, 0, 0, 0⟩, []⟩ ⟨"/dashboard", "/dashboard", "document", "GET"⟩).2 =
      ⟨"Offline", 200, [("content-type", "text/plain;charset=UTF-8")]⟩ ∧
    startsWith "/api/status" "/api/" = true ∧
    (handleOffline
        ⟨[("/offline.html", ⟨"<html>offline</html>", 200, []⟩)],
          [("/api/status", ⟨"up", 200, []⟩)], ⟨0, 0, 0, 0⟩, []⟩
        ⟨"/api/status", "/api/status", "document", "GET"⟩).2 = ⟨"<html>offline</html>", 200, []⟩ := by
  decide

theorem variesOnAll_headersSet (headers : List (String × String)) (value : String) :
    variesOnAll (headersSet headers "sw-cached-at" value) = variesOnAll headers := by
  unfold variesOnAll headersSet
  rw [List.any_append]
  have hlast : [("sw-cached-at", value)].any (fun h =>
      (h.1.toList.map Char.toLower == "vary".toList) &&
        (fieldValues h.2).any (fun v => v == ['*'])) = false := by
    have hname : ("sw-cached-at".toList.map Char.toLower == "vary".toList) = false := by decide
    simp only [List.any_cons, List.any_nil, hname, Bool.false_and, Bool.or_false]
  rw [hlast, Bool.or_false]
  induction headers with
  | nil => rfl
  | cons h rest ih =>
    by_cases hn : h.1 = "sw-cached-at"
    · have hname : (h.1.toList.map Char.toLower == "vary".toList) = false := by
        rw [hn]
        decide
      simp only [List.filter_cons, hn, bne_self_eq_false, Bool.false_eq_true, if_false,
        List.any_cons, hname, Bool.false_and, Bool.false_or]
      simpa [hn] using ih
    · have hne : (h.1 != "sw-cached-at") = true := by simpa using hn
      simp only [List.filter_cons, hne, if_true, List.any_cons, ih]

theorem cacheAccepts_cached (request : Request) (networkResponse : Response) (value : String) :
    cacheAccepts request
      ⟨networkResponse.body, networkResponse.status,
        headersSet networkResponse.headers "sw-cached-at" value⟩
      = cacheAccepts request networkResponse := by
  unfold cacheAccepts
  rw [variesOnAll_headersSet]

/-- C18, as the code has it: both strategies call `cache.put` only for an `ok`
response, and do not await it. After an `ok` fetch at time `now` that the Cache
API stores (a `GET` request, a status other than 206, no `Vary: *`),
`networkFirst` returns the network response and the API cache holds, for the
request, an entry with the response's body and status whose header
`sw-cached-at` is `now`, the other entries and the static cache being as
before; `cacheFirst` on a miss returns the response and stores it in the
static cache. After a fetch whose response is not `ok`, or is one that the
Cache API refuses, both return the response and leave both caches unchanged. -/
theorem strategies_cache_ok_only (w : Worker) (now : Nat) (request : Request)
    (networkResponse : Response) :
    (networkResponse.ok = true → cacheAccepts request networkResponse = true →
      (networkFirst w (.ok networkResponse) now request).2 = .ok networkResponse ∧
      (∃ stored, cacheMatch (networkFirst w (.ok networkResponse) now request).1.apiCache
            request.url = some stored ∧
          stored.body = networkResponse.body ∧ stored.status = networkResponse.status ∧
          headersGet stored.headers "sw-cached-at" = some (toString now)) ∧
      (∀ url, url ≠ request.url →
        cacheMatch (networkFirst w (.ok networkResponse) now request).1.apiCache url =
          cacheMatch w.apiCache url) ∧
      (networkFirst w (.ok networkResponse) now request).1.staticCache = w.staticCache) ∧
    (networkResponse.ok = true → cacheAccepts request networkResponse = true →
      cacheMatch w.staticCache request.url = none →
      (cacheFirst w (.ok networkResponse) request).2 = .ok networkResponse ∧
      cacheMatch (cacheFirst w (.ok networkResponse) request).1.staticCache request.url =
        some networkResponse ∧
      (∀ url, url ≠ request.url →
        cacheMatch (cacheFirst w (.ok networkResponse) request).1.staticCache url =
          cacheMatch w.staticCache url) ∧
      (cacheFirst w (.ok networkResponse) request).1.apiCache = w.apiCache) ∧
    (networkResponse.ok = false ∨ cacheAccepts request networkResponse = false →
      (networkFirst w (.ok networkResponse) now request).2 = .ok networkResponse ∧
      (networkFirst w (.ok networkResponse) now request).1.apiCache = w.apiCache ∧
      (networkFirst w (.ok networkResponse) now request).1.staticCache = w.staticCache) ∧
    (networkResponse.ok = false ∨ cacheAccepts request networkResponse = false →
      cacheMatch w.staticCache request.url = none →
      (cacheFirst w (.ok networkResponse) request).2 = .ok networkResponse ∧
      (cacheFirst w (.ok networkResponse) request).1.staticCache = w.staticCache ∧
      (cacheFirst w (.ok networkResponse) request).1.apiCache = w.apiCache) := by
  refine ⟨?_, ?_, ?_, ?_⟩
  · intro hok hacc
    have hacc1 := (cacheAccepts_cached request networkResponse (toString now)).trans hacc
    refine ⟨by simp [networkFirst], ?_, ?_, ?_⟩
    · refine ⟨⟨networkResponse.body, networkResponse.status,
        headersSet networkResponse.headers "sw-cached-at" (toString now)⟩, ?_, rfl, rfl,
        headersGet_headersSet _ _ _⟩
      simp [networkFirst, hok, recordFetch, cachePutRequest, hacc1, cacheMatch_cachePut]
    · intro url hne
      simp [networkFirst, hok, recordFetch, cachePutRequest, hacc1,
        cacheMatch_cachePut_ne _ _ _ _ hne]
    · simp [networkFirst, hok, recordFetch]
  · intro hok hacc hmiss
    refine ⟨by simp [cacheFirst, hmiss], ?_, ?_, ?_⟩
    · simp [cacheFirst, hmiss, hok, recordFetch, cachePutRequest, hacc, cacheMatch_cachePut]
    · intro url hne
      simp [cacheFirst, hmiss, hok, recordFetch, cachePutRequest, hacc,
        cacheMatch_cachePut_ne _ _ _ _ hne]
    · simp [cacheFirst, hmiss, hok, recordFetch]
  · intro h
    rcases h with hok | hacc
    · simp [networkFirst, hok, recordFetch]
    · have hacc1 := (cacheAccepts_cached request networkResponse (toString now)).trans hacc
      refine ⟨by simp [networkFirst], ?_, ?_⟩
      · simp only [networkFirst, recordFetch, cachePutRequest, hacc1]
        split_ifs <;> first | rfl | contradiction
      · simp only [networkFirst, recordFetch]
        split_ifs <;> rfl
  · intro h hmiss
    rcases h with hok | hacc
    · simp [cacheFirst, hmiss, hok, recordFetch]
    · refine ⟨by simp [cacheFirst, hmiss], ?_, ?_⟩
      · simp only [cacheFirst, hmiss, recordFetch, cachePutRequest, hacc]
        split_ifs <;> first | rfl | contradiction
      · simp only [cacheFirst, hmiss, recordFetch]
        split_ifs <;> rfl

theorem strategies_cache_ok_only_witness :
    Response.ok ⟨"up", 200, []⟩ = true ∧
    (networkFirst ⟨[], [], ⟨0, 0, 0, 0⟩, []⟩ (.ok ⟨"up", 200, []⟩) 1700000000000
        ⟨"/api/status", "/api/status", "", "GET"⟩).2 = .ok ⟨"up", 200, []⟩ ∧
    Response.ok ⟨"down", 500, []⟩ = false ∧
    (networkFirst ⟨[], [], ⟨0, 0, 0, 0⟩, []⟩ (.ok ⟨"down", 500, []⟩) 1700000000000
        ⟨"/api/status", "/api/status", "", "GET"⟩).1.apiCache = [] ∧
    cacheMatch (cacheFirst ⟨[], [], ⟨0, 0, 0, 0⟩, []⟩ (.ok ⟨"body", 200, []⟩)
        ⟨"/css/main.css", "/css/main.css", "style", "GET"⟩).1.staticCache "/css/main.css" =
      some ⟨"body", 200, []⟩ :=
  ⟨by decide,
   ((strategies_cache_ok_only ⟨[], [], ⟨0, 0, 0, 0⟩, []⟩ 1700000000000
      ⟨"/api/status", "/api/status", "", "GET"⟩ ⟨"up", 200, []⟩).1 (by decide) (by decide)).1,
   by decide,
   ((strategies_cache_ok_only ⟨[], [], ⟨0, 0, 0, 0⟩, []⟩ 1700000000000
      ⟨"/api/status", "/api/status", "", "GET"⟩ ⟨"down", 500, []⟩).2.2.1
      (Or.inl (by decide))).2.1,
   ((strategies_cache_ok_only ⟨[], [], ⟨0, 0, 0, 0⟩, []⟩ 0
      ⟨"/css/main.css", "/css/main.css", "style", "GET"⟩ ⟨"body", 200, []⟩).2.1
      (by decide) (by decide) (by decide)).2.1⟩

/-- C18 does not hold as stated: an answer of status 206 is `ok`, and so are a
200 answer to a `POST` and a 200 answer with `Vary: *`, but the Cache API
refuses these puts, so `networkFirst` returns the response and the API cache
has no entry afterwards; likewise `cacheFirst` on a miss with a 206 answer
leaves the static cache empty. -/
theorem networkFirst_put_refused :
    Response.ok ⟨"part", 206, []⟩ = true ∧
    networkFirst ⟨[], [], ⟨0, 0, 0, 0⟩, []⟩ (.ok ⟨"part", 206, []⟩) 1700000000000
        ⟨"/api/log", "/api/log", "", "GET"⟩ =
      (⟨[], [], ⟨0, 0, 1, 0⟩, ["/api/log"]⟩, .ok ⟨"part", 206, []⟩) ∧
    networkFirst ⟨[], [], ⟨0, 0, 0, 0⟩, []⟩ (.ok ⟨"done", 200, []⟩) 1700000000000
        ⟨"/api/command", "/api/command", "", "POST"⟩ =
      (⟨[], [], ⟨0, 0, 1, 0⟩, ["/api/command"]⟩, .ok ⟨"done", 200, []⟩) ∧
    networkFirst ⟨[], [], ⟨0, 0, 0, 0⟩, []⟩ (.ok ⟨"up", 200, [("vary", "*")]⟩) 1700000000000
        ⟨"/api/status", "/api/status", "", "GET"⟩ =
      (⟨[], [], ⟨0, 0, 1, 0⟩, ["/api/status"]⟩, .ok ⟨"up", 200, [("vary", "*")]⟩) ∧
    cacheFirst ⟨[], [], ⟨0, 0, 0, 0⟩, []⟩ (.ok ⟨"part", 206, []⟩)
        ⟨"/images/map.png", "/images/map.png", "image", "GET"⟩ =
      (⟨[], [], ⟨0, 1, 0, 0⟩, ["/images/map.png"]⟩, .ok ⟨"part", 206, []⟩) := by
  decide

/-! ## The expiry sweep (C14) -/

theorem cacheMatch_mem (cache : Cache) (url : String) (response : Response)
    (h : cacheMatch cache url = some response) : (url, response) ∈ cache := by
  induction cache with
  | nil => simp [cacheMatch] at h
  | cons e rest ih =>
    rcases e with ⟨k, r⟩
    rw [cacheMatch_cons] at h
    by_cases hk : k = url
    · rw [if_pos hk] at h
      cases h
      subst hk
      exact List.mem_cons_self _ _
    · rw [if_neg hk] at h
      exact List.mem_cons_of_mem _ (ih h)

theorem cacheMatch_eq_none (cache : Cache) (url : String)
    (h : url ∉ cache.map Prod.fst) : cacheMatch cache url = none := by
  cases hm : cacheMatch cache url with
  | none => rfl
  | some r =>
    exact absurd (List.mem_map_of_mem Prod.fst (cacheMatch_mem cache url r hm)) h

theorem cacheMatch_of_mem (cache : Cache) (url : String) (response : Response)
    (hkeys : (cache.map Prod.fst).Nodup) (h : (url, response) ∈ cache) :
    cacheMatch cache url = some response := by
  induction cache with
  | nil => cases h
  | cons e rest ih =>
    rcases e with ⟨k, r⟩
    rw [List.map_cons, List.nodup_cons] at hkeys
    rw [cacheMatch_cons]
    rcases List.mem_cons.mp h with heq | hmem
    · cases heq
      simp
    · have hne : ¬ k = url := by
        intro hk
        subst hk
        exact hkeys.1 (List.mem_map.mpr ⟨(k, response), hmem, rfl⟩)
      rw [if_neg hne]
      exact ih hkeys.2 hmem

theorem cacheMatch_filter (cache : Cache) (p : String × Response → Bool) (url : String)
    (response : Response) (hkeys : (cache.map Prod.fst).Nodup)
    (h : cacheMatch cache url = some response) :
    cacheMatch (cache.filter p) url = if p (url, response) then some response else none := by
  have hmem := cacheMatch_mem cache url response h
  have hsub : ((cache.filter p).map Prod.fst).Nodup :=
    hkeys.sublist ((List.filter_sublist cache).map Prod.fst)
  by_cases hp : p (url, response) = true
  · rw [if_pos hp]
    exact cacheMatch_of_mem _ _ _ hsub (List.mem_filter.mpr ⟨hmem, hp⟩)
  · rw [if_neg hp]
    cases hm : cacheMatch (cache.filter p) url with
    | none => rfl
    | some r =>
      exfalso
      have h1 := List.mem_filter.mp (cacheMatch_mem _ _ _ hm)
      have h2 := cacheMatch_of_mem cache url r hkeys h1.1
      rw [h] at h2
      cases h2
      exact hp h1.2

theorem cleanExpiredCacheLoop_eq_filter (now : Nat) (todo : List String) :
    ∀ cache : Cache, (cache.map Prod.fst).Nodup → todo.Nodup →
      (∀ u ∈ todo, u ∈ cache.map Prod.fst) →
      cleanExpiredCacheLoop now todo cache =
        cache.filter (fun e => !(decide (e.1 ∈ todo) && expiredEntry now e.2)) := by
  induction todo with
  | nil =>
    intro cache _ _ _
    simp [cleanExpiredCacheLoop]
  | cons u rest ih =>
    intro cache hkeys htodo hall
    rw [List.nodup_cons] at htodo
    have hu : u ∈ cache.map Prod.fst := hall u (List.mem_cons_self _ _)
    obtain ⟨⟨k, r⟩, hmem, hk⟩ := List.mem_map.mp hu
    simp only at hk
    subst hk
    have hmatch := cacheMatch_of_mem cache k r hkeys hmem
    have huniq : ∀ e ∈ cache, e.1 = k → e.2 = r := by
      intro e he hek
      have h1 := cacheMatch_of_mem cache e.1 e.2 hkeys he
      rw [hek, hmatch] at h1
      cases h1
      rfl
    have hall1 : ∀ v ∈ rest, v ∈ cache.map Prod.fst := fun v hv =>
      hall v (List.mem_cons_of_mem _ hv)
    unfold cleanExpiredCacheLoop
    rw [hmatch]
    simp only
    by_cases hexp : expired now (headersGet r.headers "sw-cached-at") = true
    · rw [if_pos hexp]
      have hkeys1 : ((cacheDelete cache k).map Prod.fst).Nodup :=
        hkeys.sublist ((List.filter_sublist cache).map Prod.fst)
      have hall2 : ∀ v ∈ rest, v ∈ (cacheDelete cache k).map Prod.fst := by
        intro v hv
        obtain ⟨e, he, hev⟩ := List.mem_map.mp (hall1 v hv)
        refine List.mem_map.mpr ⟨e, ?_, hev⟩
        unfold cacheDelete
        refine List.mem_filter.mpr ⟨he, ?_⟩
        have hne : e.1 ≠ k := by
          intro hh
          rw [hev] at hh
          rw [hh] at hv
          exact htodo.1 hv
        simpa using hne
      rw [ih _ hkeys1 htodo.2 hall2]
      unfold cacheDelete
      rw [List.filter_filter]
      apply List.filter_congr
      intro e he
      by_cases hek : e.1 = k
      · have h2 := huniq e he hek
        simp [hek, h2, expiredEntry, hexp]
      · simp [hek]
    · rw [if_neg hexp]
      rw [ih _ hkeys htodo.2 hall1]
      apply List.filter_congr
      intro e he
      by_cases hek : e.1 = k
      · have h2 := huniq e he hek
        simp [h2, expiredEntry, hexp]
      · simp [hek]

theorem cleanExpiredCache_eq_filter (w : Worker) (now : Nat)
    (hkeys : (w.apiCache.map Prod.fst).Nodup) :
    (cleanExpiredCache w now).apiCache =
      w.apiCache.filter (fun e => !(expiredEntry now e.2)) := by
  unfold cleanExpiredCache
  simp only
  rw [cleanExpiredCacheLoop_eq_filter now _ w.apiCache hkeys hkeys (fun u hu => hu)]
  apply List.filter_congr
  intro e he
  have : e.1 ∈ List.map (fun e => e.1) w.apiCache := List.mem_map_of_mem (fun e => e.1) he
  simp [this]

theorem expiredEntry_eq (now : Nat) (response : Response) (t : Int)
    (ht : cachedAt response = some t) :
    expiredEntry now response = decide ((86400000 : Int) < (now : Int) - t) := by
  unfold cachedAt at ht
  unfold expiredEntry expired
  cases hg : headersGet response.headers "sw-cached-at" with
  | none => rw [hg] at ht; cases ht
  | some text =>
    rw [hg] at ht
    simp only at ht ⊢
    by_cases he : text = ""
    · rw [if_pos he] at ht; cases ht
    · rw [if_neg he] at ht
      rw [if_neg he, ht]
      simp [maxAge]

/-- C14: `cleanExpiredCache` run at time `now` removes from the API cache every
entry whose `sw-cached-at` time `t` has `now - t` above 24 hours (86400000 ms)
and keeps, with the response it held, every entry with `now - t` below 24 hours;
the entries that remain keep their order, and the static cache is not touched. -/
theorem cleanExpiredCache_sweep (w : Worker) (now : Nat) (url : String) (response : Response)
    (t : Int) (hkeys : (w.apiCache.map Prod.fst).Nodup)
    (hentry : cacheMatch w.apiCache url = some response) (ht : cachedAt response = some t) :
    ((86400000 : Int) < (now : Int) - t →
      cacheMatch (cleanExpiredCache w now).apiCache url = none) ∧
    ((now : Int) - t < 86400000 →
      cacheMatch (cleanExpiredCache w now).apiCache url = some response) ∧
    (cleanExpiredCache w now).apiCache.Sublist w.apiCache ∧
    (cleanExpiredCache w now).staticCache = w.staticCache := by
  have hfilter := cleanExpiredCache_eq_filter w now hkeys
  have hexp := expiredEntry_eq now response t ht
  refine ⟨?_, ?_, ?_, rfl⟩
  · intro hlt
    rw [hfilter, cacheMatch_filter _ _ _ _ hkeys hentry]
    simp [hexp, hlt]
  · intro hlt
    rw [hfilter, cacheMatch_filter _ _ _ _ hkeys hentry]
    have : ¬ (86400000 : Int) < (now : Int) - t := by omega
    simp [hexp, this]
  · rw [hfilter]
    exact List.filter_sublist _

theorem cleanExpiredCache_sweep_witness :
    cacheMatch (cleanExpiredCache agedWorker 1700000000000).apiCache "/api/players" = none ∧
    cacheMatch (cleanExpiredCache agedWorker 1700000000000).apiCache "/api/status" =
      some ⟨"status", 200, [("sw-cached-at", "1699917200000")]⟩ :=
  ⟨(cleanExpiredCache_sweep agedWorker 1700000000000 "/api/players"
      ⟨"players", 200, [("sw-cached-at", "1699910000000")]⟩ 1699910000000
      (by decide) (by decide) (by decide)).1 (by decide),
   (cleanExpiredCache_sweep agedWorker 1700000000000 "/api/status"
      ⟨"status", 200, [("sw-cached-at", "1699917200000")]⟩ 1699917200000
      (by decide) (by decide) (by decide)).2.1 (by decide)⟩

/-! ## The offline command queue (C15, C16) -/

theorem syncPendingCommandsLoop_eq (fetchResolves : Nat → QueuedCommand → Bool)
    (commands : List QueuedCommand) :
    ∀ (i : Nat) (w : Worker),
      syncPendingCommandsLoop fetchResolves i commands w =
        ({ w with fetched := w.fetched ++ List.replicate commands.length "/api/command" },
         (commands.enumFrom i).map (fun p => SyncAction.post p.2 (fetchResolves p.1 p.2))) := by
  induction commands with
  | nil =>
    intro i w
    simp [syncPendingCommandsLoop]
  | cons c rest ih =>
    intro i w
    simp [syncPendingCommandsLoop, ih, List.enumFrom, List.replicate_succ]

theorem posted_enumFrom (fetchResolves : Nat → QueuedCommand → Bool)
    (commands : List QueuedCommand) :
    ∀ i : Nat,
      ((commands.enumFrom i).map
          (fun p => SyncAction.post p.2 (fetchResolves p.1 p.2))).map SyncAction.posted =
        commands.map some := by
  induction commands with
  | nil => intro i; rfl
  | cons c rest ih =>
    intro i
    simp only [List.enumFrom, List.map_cons, SyncAction.posted, ih (i + 1)]

/-- C15: when the entry `/offline-commands` holds the list `commands`,
`syncPendingCommands` issues one `POST` to `/api/command` per command, in list
order and whatever the outcome of the earlier ones, and deletes the entry as its
last action, leaving the other entries of the API cache alone; when there is no
such entry it issues no `POST` and changes nothing. -/
theorem syncPendingCommands_posts (json : String → Option (List QueuedCommand))
    (fetchResolves : Nat → QueuedCommand → Bool) (w : Worker) :
    (∀ offlineCommands commands,
      cacheMatch w.apiCache "/offline-commands" = some offlineCommands →
      json offlineCommands.body = some commands →
      (syncPendingCommands json fetchResolves w).2 =
          (commands.enum.map (fun p => SyncAction.post p.2 (fetchResolves p.1 p.2))) ++
            [SyncAction.delete] ∧
        (syncPendingCommands json fetchResolves w).2.map SyncAction.posted =
          commands.map some ++ [none] ∧
        (syncPendingCommands json fetchResolves w).1.fetched =
          w.fetched ++ List.replicate commands.length "/api/command" ∧
        cacheMatch (syncPendingCommands json fetchResolves w).1.apiCache "/offline-commands" =
          none ∧
        (∀ url, url ≠ "/offline-commands" →
          cacheMatch (syncPendingCommands json fetchResolves w).1.apiCache url =
            cacheMatch w.apiCache url)) ∧
    (cacheMatch w.apiCache "/offline-commands" = none →
      syncPendingCommands json fetchResolves w = (w, [])) := by
  constructor
  · intro offlineCommands commands hentry hjson
    have hrun : syncPendingCommands json fetchResolves w =
        ({ w with fetched := w.fetched ++ List.replicate commands.length "/api/command",
                  apiCache := cacheDelete w.apiCache "/offline-commands" },
         (commands.enum.map (fun p => SyncAction.post p.2 (fetchResolves p.1 p.2))) ++
            [SyncAction.delete]) := by
      unfold syncPendingCommands
      rw [hentry]
      simp only [hjson, syncPendingCommandsLoop_eq, List.enum]
    rw [hrun]
    refine ⟨rfl, ?_, rfl, ?_, ?_⟩
    · simp only [List.map_append, List.enum, posted_enumFrom, List.map_cons, List.map_nil,
        SyncAction.posted]
    · exact cacheMatch_filter_eq _ _
    · intro url hne
      exact cacheMatch_filter_ne _ _ _ hne
  · intro hnone
    unfold syncPendingCommands
    rw [hnone]

theorem syncPendingCommands_posts_witness :
    (syncPendingCommands sampleJson (fun i _ => decide (i ≠ 0))
        ⟨[], [("/offline-commands", ⟨"stop,5,a1;say hi,7,b2;", 200, []⟩)], ⟨0, 0, 0, 0⟩, []⟩).2 =
      [SyncAction.post ⟨"stop", 5, "a1"⟩ false, SyncAction.post ⟨"say hi", 7, "b2"⟩ true,
        SyncAction.delete] ∧
    syncPendingCommands sampleJson (fun i _ => decide (i ≠ 0)) ⟨[], [], ⟨0, 0, 0, 0⟩, []⟩ =
      (⟨[], [], ⟨0, 0, 0, 0⟩, []⟩, []) :=
  ⟨((syncPendingCommands_posts sampleJson (fun i _ => decide (i ≠ 0))
      ⟨[], [("/offline-commands", ⟨"stop,5,a1;say hi,7,b2;", 200, []⟩)], ⟨0, 0, 0, 0⟩, []⟩).1
      ⟨"stop,5,a1;say hi,7,b2;", 200, []⟩ [⟨"stop", 5, "a1"⟩, ⟨"say hi", 7, "b2"⟩]
      (by decide) (by decide)).1,
   (syncPendingCommands_posts sampleJson (fun i _ => decide (i ≠ 0))
      ⟨[], [], ⟨0, 0, 0, 0⟩, []⟩).2 (by decide)⟩

theorem queueOfflineCommand_stored (stringify : List QueuedCommand → String)
    (json : String → Option (List QueuedCommand)) (syncSupported : Bool) (w : Worker)
    (previous : List QueuedCommand) (command : String) (now : Nat) (id : String)
    (hprev : storedCommands json w = some previous) :
    (queueOfflineCommand stringify json syncSupported w command now id).1 =
      Worker.mk w.staticCache
        (cachePut w.apiCache "/offline-commands"
          ⟨stringify (previous ++ [⟨command, now, id⟩]), 200,
            [("Content-Type", "application/json")]⟩)
        w.performanceMetrics w.fetched := by
  unfold storedCommands at hprev
  unfold queueOfflineCommand
  simp only [hprev]

theorem queueAll_stored (stringify : List QueuedCommand → String)
    (json : String → Option (List QueuedCommand)) (syncSupported : Bool)
    (calls : List QueueCall) :
    ∀ (w : Worker) (previous : List QueuedCommand),
      storedCommands json w = some previous →
      (∀ k, 0 < k → k ≤ calls.length →
        json (stringify (previous ++ (calls.take k).map QueueCall.element)) =
          some (previous ++ (calls.take k).map QueueCall.element)) →
      storedCommands json (queueAll stringify json syncSupported w calls) =
        some (previous ++ calls.map QueueCall.element) := by
  induction calls with
  | nil =>
    intro w previous hprev _
    simpa [queueAll] using hprev
  | cons call rest ih =>
    intro w previous hprev hround
    have hone := hround 1 (by decide) (by simp)
    simp only [List.take_succ_cons, List.take_zero, List.map_cons, List.map_nil] at hone
    have hstored : storedCommands json
        (queueOfflineCommand stringify json syncSupported w call.command call.now call.id).1 =
        some (previous ++ [call.element]) := by
      rw [queueOfflineCommand_stored stringify json syncSupported w previous _ _ _ hprev]
      unfold storedCommands
      simp only [cacheMatch_cachePut]
      exact hone
    have hrest : ∀ k, 0 < k → k ≤ rest.length →
        json (stringify ((previous ++ [call.element]) ++ (rest.take k).map QueueCall.element)) =
          some ((previous ++ [call.element]) ++ (rest.take k).map QueueCall.element) := by
      intro k hk hle
      have := hround (k + 1) (by omega) (by simpa using hle)
      simpa [List.take_succ_cons] using this
    have := ih _ _ hstored hrest
    simpa [queueAll] using this

theorem queueOfflineCommand_eq_read_write (stringify : List QueuedCommand → String)
    (json : String → Option (List QueuedCommand)) (syncSupported : Bool) (w : Worker)
    (command : String) (now : Nat) (id : String) :
    queueOfflineCommand stringify json syncSupported w command now id =
      match queueOfflineCommandRead json w with
      | some commands =>
        queueOfflineCommandWrite stringify syncSupported w commands command now id
      | none => (w, []) := by
  unfold queueOfflineCommand queueOfflineCommandRead queueOfflineCommandWrite
  cases cacheMatch w.apiCache "/offline-commands" with
  | none => rfl
  | some response =>
    simp only
    cases json response.body <;> rfl

/-- C16, as the code has it: a call `queueOfflineCommand(c)` reads the list
stored under `/offline-commands` (empty when there is no entry) and later
stores under that key the serialisation of the list it read followed by the
one element made of `c`, the current time and the generated id, whatever the
store holds by then, and changes no other entry. A call that runs to its end
undisturbed on a store whose list is `previous` therefore leaves `previous`
followed by the new element; so a sequence of calls, each finished before the
next begins and each of whose stored texts reads back as the list that was
written, leaves `previous` followed by the new elements in call order, and `n`
such calls on a store without the entry leave `n` elements. -/
theorem queueOfflineCommand_appends (stringify : List QueuedCommand → String)
    (json : String → Option (List QueuedCommand)) (syncSupported : Bool) (w : Worker)
    (previous : List QueuedCommand) (calls : List QueueCall)
    (hprev : storedCommands json w = some previous)
    (hround : ∀ k, 0 < k → k ≤ calls.length →
      json (stringify (previous ++ (calls.take k).map QueueCall.element)) =
        some (previous ++ (calls.take k).map QueueCall.element)) :
    (∀ command now id,
      cacheMatch (queueOfflineCommand stringify json syncSupported w command now id).1.apiCache
          "/offline-commands" =
        some ⟨stringify (previous ++ [⟨command, now, id⟩]), 200,
          [("Content-Type", "application/json")]⟩ ∧
      (∀ url, url ≠ "/offline-commands" →
        cacheMatch (queueOfflineCommand stringify json syncSupported w command now id).1.apiCache
            url = cacheMatch w.apiCache url) ∧
      (queueOfflineCommand stringify json syncSupported w command now id).1.staticCache =
        w.staticCache) ∧
    storedCommands json (queueAll stringify json syncSupported w calls) =
      some (previous ++ calls.map QueueCall.element) ∧
    (cacheMatch w.apiCache "/offline-commands" = none →
      ∃ stored, storedCommands json (queueAll stringify json syncSupported w calls) =
          some stored ∧
        stored = calls.map QueueCall.element ∧ stored.length = calls.length) ∧
    (queueOfflineCommandRead json w = some previous ∧
      ∀ command now id,
        queueOfflineCommand stringify json syncSupported w command now id =
          queueOfflineCommandWrite stringify syncSupported w previous command now id) ∧
    (∀ (later : Worker) (held : List QueuedCommand) command now id,
      cacheMatch (queueOfflineCommandWrite stringify syncSupported later held command now
          id).1.apiCache "/offline-commands" =
        some ⟨stringify (held ++ [⟨command, now, id⟩]), 200,
          [("Content-Type", "application/json")]⟩ ∧
      (∀ url, url ≠ "/offline-commands" →
        cacheMatch (queueOfflineCommandWrite stringify syncSupported later held command now
          id).1.apiCache url = cacheMatch later.apiCache url)) := by
  have hread : queueOfflineCommandRead json w = some previous := hprev
  refine ⟨?_, queueAll_stored stringify json syncSupported calls w previous hprev hround, ?_,
    ⟨hread, ?_⟩, ?_⟩
  · intro command now id
    rw [queueOfflineCommand_stored stringify json syncSupported w previous _ _ _ hprev]
    exact ⟨cacheMatch_cachePut _ _ _, fun url hne => cacheMatch_cachePut_ne _ _ _ _ hne, rfl⟩
  · intro hnone
    have hempty : previous = [] := by
      unfold storedCommands at hprev
      rw [hnone] at hprev
      cases hprev
      rfl
    subst hempty
    refine ⟨_, queueAll_stored stringify json syncSupported calls w [] hprev hround, ?_, ?_⟩
    · simp
    · simp
  · intro command now id
    rw [queueOfflineCommand_eq_read_write, hread]
  · intro later held command now id
    exact ⟨cacheMatch_cachePut _ _ _, fun url hne => cacheMatch_cachePut_ne _ _ _ _ hne⟩

theorem queueOfflineCommand_appends_witness :
    storedCommands sampleJson
        (queueAll sampleStringify sampleJson true ⟨[], [], ⟨0, 0, 0, 0⟩, []⟩
          [⟨"stop", 5, "a1"⟩, ⟨"say hi", 7, "b2"⟩]) =
      some [⟨"stop", 5, "a1"⟩, ⟨"say hi", 7, "b2"⟩] :=
  (queueOfflineCommand_appends sampleStringify sampleJson true ⟨[], [], ⟨0, 0, 0, 0⟩, []⟩ []
    [⟨"stop", 5, "a1"⟩, ⟨"say hi", 7, "b2"⟩] (by decide)
    (by
      intro k hk hle
      have h2 : k = 1 ∨ k = 2 := by
        simp only [List.length_cons, List.length_nil] at hle
        omega
      rcases h2 with h | h <;> subst h <;> decide)).2.1

/-- C16 does not hold as stated: when two calls on an empty store overlap, each
reads the empty list, the first writes its one element and the second
overwrites it with its own, so two calls leave one element; run one after the
other, the same two calls leave two. -/
theorem queueOfflineCommand_overlap_loses :
    storedCommands sampleJson
        (queueOverlapping sampleStringify sampleJson true ⟨[], [], ⟨0, 0, 0, 0⟩, []⟩
          ⟨"stop", 5, "a1"⟩ ⟨"say hi", 5, "b2"⟩) = some [⟨"say hi", 5, "b2"⟩] ∧
    storedCommands sampleJson
        (queueAll sampleStringify sampleJson true ⟨[], [], ⟨0, 0, 0, 0⟩, []⟩
          [⟨"stop", 5, "a1"⟩, ⟨"say hi", 5, "b2"⟩]) =
      some [⟨"stop", 5, "a1"⟩, ⟨"say hi", 5, "b2"⟩] := by
  decide

/-! ## What the expiry sweep keeps (C30) -/

theorem cachePut_nodup (cache : Cache) (url : String) (response : Response)
    (hkeys : (cache.map Prod.fst).Nodup) :
    ((cachePut cache url response).map Prod.fst).Nodup := by
  unfold cachePut
  rw [List.map_cons, List.nodup_cons]
  constructor
  · intro hmem
    obtain ⟨e, he, hk⟩ := List.mem_map.mp hmem
    have := (List.mem_filter.mp he).2
    simp only [bne_iff_ne, ne_eq] at this
    exact this hk
  · exact hkeys.sublist ((List.filter_sublist cache).map Prod.fst)

theorem cleanExpiredCache_nodup (w : Worker) (now : Nat)
    (hkeys : (w.apiCache.map Prod.fst).Nodup) :
    ((cleanExpiredCache w now).apiCache.map Prod.fst).Nodup := by
  rw [cleanExpiredCache_eq_filter w now hkeys]
  exact hkeys.sublist ((List.filter_sublist _).map Prod.fst)

theorem cleanExpiredCache_keeps_entry (w : Worker) (now : Nat) (url : String)
    (response : Response) (hkeys : (w.apiCache.map Prod.fst).Nodup)
    (hentry : cacheMatch w.apiCache url = some response)
    (hfresh : expiredEntry now response = false) :
    cacheMatch (cleanExpiredCache w now).apiCache url = some response := by
  rw [cleanExpiredCache_eq_filter w now hkeys, cacheMatch_filter _ _ _ _ hkeys hentry]
  simp [hfresh]

theorem sweeps_keep_entry (times : List Nat) (url : String) (response : Response)
    (hfresh : ∀ now, expiredEntry now response = false) :
    ∀ w : Worker, (w.apiCache.map Prod.fst).Nodup →
      cacheMatch w.apiCache url = some response →
      cacheMatch (sweeps w times).apiCache url = some response ∧
      (sweeps w times).staticCache = w.staticCache := by
  induction times with
  | nil => intro w _ h; exact ⟨h, rfl⟩
  | cons now rest ih =>
    intro w hkeys hentry
    have h := ih (cleanExpiredCache w now) (cleanExpiredCache_nodup w now hkeys)
      (cleanExpiredCache_keeps_entry w now url response hkeys hentry (hfresh now))
    exact ⟨h.1, h.2⟩

/-- C30: a sweep of `cleanExpiredCache` keeps, with its response, every
API-cache entry that has no `sw-cached-at` header, every entry whose header
`parseInt` reads as no number, and every entry whose age `now - t` is exactly
24 hours; it leaves the static cache alone; and the entry that
`queueOfflineCommand` writes under `/offline-commands` is still there after any
number of sweeps. -/
theorem cleanExpiredCache_keeps (w : Worker) (now : Nat) (url : String) (response : Response)
    (hkeys : (w.apiCache.map Prod.fst).Nodup)
    (hentry : cacheMatch w.apiCache url = some response) :
    (headersGet response.headers "sw-cached-at" = none →
      cacheMatch (cleanExpiredCache w now).apiCache url = some response) ∧
    (∀ text, headersGet response.headers "sw-cached-at" = some text → parseInt text = none →
      cacheMatch (cleanExpiredCache w now).apiCache url = some response) ∧
    (∀ t : Int, cachedAt response = some t → (now : Int) - t = 86400000 →
      cacheMatch (cleanExpiredCache w now).apiCache url = some response) ∧
    (cleanExpiredCache w now).staticCache = w.staticCache ∧
    (∀ (stringify : List QueuedCommand → String)
        (json : String → Option (List QueuedCommand)) (syncSupported : Bool)
        (command : String) (time : Nat) (id : String) (times : List Nat)
        (previous : List QueuedCommand), storedCommands json w = some previous →
      cacheMatch (sweeps (queueOfflineCommand stringify json syncSupported w command time
          id).1 times).apiCache "/offline-commands" =
        some ⟨stringify (previous ++ [⟨command, time, id⟩]), 200,
          [("Content-Type", "application/json")]⟩) := by
  refine ⟨?_, ?_, ?_, rfl, ?_⟩
  · intro hnone
    apply cleanExpiredCache_keeps_entry w now url response hkeys hentry
    simp [expiredEntry, expired, hnone]
  · intro text htext hnan
    apply cleanExpiredCache_keeps_entry w now url response hkeys hentry
    simp only [expiredEntry, expired, htext, hnan]
    split_ifs <;> rfl
  · intro t ht hage
    apply cleanExpiredCache_keeps_entry w now url response hkeys hentry
    rw [expiredEntry_eq now response t ht, hage]
    decide
  · intro stringify json syncSupported command time id times previous hprev
    have hq := queueOfflineCommand_stored stringify json syncSupported w previous command
      time id hprev
    refine (sweeps_keep_entry times "/offline-commands" _ ?_ _ ?_ ?_).1
    · intro now1
      rfl
    · rw [hq]
      exact cachePut_nodup _ _ _ hkeys
    · rw [hq]
      exact cacheMatch_cachePut _ _ _

theorem cleanExpiredCache_keeps_witness :
    cacheMatch (cleanExpiredCache
        ⟨[("/", ⟨"page", 200, []⟩)],
         [("/api/a", ⟨"a", 200, [("sw-cached-at", "1699913600000")]⟩),
          ("/api/b", ⟨"b", 200, [("sw-cached-at", "yesterday")]⟩),
          ("/offline-commands", ⟨"stop,5,a1;", 200, [("Content-Type", "application/json")]⟩)],
         ⟨0, 0, 0, 0⟩, []⟩ 1700000000000).apiCache "/api/a" =
      some ⟨"a", 200, [("sw-cached-at", "1699913600000")]⟩ ∧
    cacheMatch (cleanExpiredCache
        ⟨[("/", ⟨"page", 200, []⟩)],
         [("/api/a", ⟨"a", 200, [("sw-cached-at", "1699913600000")]⟩),
          ("/api/b", ⟨"b", 200, [("sw-cached-at", "yesterday")]⟩),
          ("/offline-commands", ⟨"stop,5,a1;", 200, [("Content-Type", "application/json")]⟩)],
         ⟨0, 0, 0, 0⟩, []⟩ 1700000000000).apiCache "/api/b" =
      some ⟨"b", 200, [("sw-cached-at", "yesterday")]⟩ :=
  ⟨(cleanExpiredCache_keeps _ 1700000000000 "/api/a"
      ⟨"a", 200, [("sw-cached-at", "1699913600000")]⟩ (by decide) (by decide)).2.2.1
      1699913600000 (by decide) (by decide),
   (cleanExpiredCache_keeps _ 1700000000000 "/api/b"
      ⟨"b", 200, [("sw-cached-at", "yesterday")]⟩ (by decide) (by decide)).2.1
      "yesterday" (by decide) (by decide)⟩

end SW

namespace WS

/-! ## The outbound queue of `WebUIWebSocketManager` (C4, C5) -/

theorem delivered_append (accepts : Nat → Message → Bool) (socket : Bool) :
    ∀ (xs ys : List Message) (n : Nat),
      delivered accepts socket n (xs ++ ys)
        = delivered accepts socket n xs ++ delivered accepts socket (n + xs.length) ys := by
  intro xs
  induction xs with
  | nil => intro ys n; simp [delivered]
  | cons x xs ih =>
    intro ys n
    have hn : n + 1 + xs.length = n + (xs.length + 1) := by omega
    have h := ih ys (n + 1)
    rw [hn] at h
    simp only [List.cons_append, delivered, List.length_cons, List.append_assoc,
      List.append_eq, h]

theorem delivered_all (accepts : Nat → Message → Bool) (h : ∀ n m, accepts n m = true) :
    ∀ (ms : List Message) (n : Nat), delivered accepts true n ms = ms := by
  intro ms
  induction ms with
  | nil => intro n; rfl
  | cons m ms ih => intro n; simp [delivered, h, ih]

/-- What `send` does on a connected manager. -/
theorem send_connected (accepts : Nat → Message → Bool) (s : Manager) (m : Message)
    (h : s.isConnected = true) :
    (send accepts s m).1 =
      { s with attempted := s.attempted ++ [m],
               transmitted := s.transmitted ++ delivered accepts s.websocket.isSome s.attempted.length [m],
               console := s.console ++ sendErrors accepts s.websocket.isSome s.attempted.length [m] } := by
  unfold send
  by_cases ha : (s.websocket.isSome && accepts s.attempted.length m) = true
  · simp [h, ha, delivered, sendErrors]
  · simp only [Bool.not_eq_true] at ha
    simp [h, ha, delivered, sendErrors]

/-- What `send` does on a manager that is not connected: the message is
appended to the queue, nothing is handed to the socket, the result is `false`. -/
theorem send_disconnected (accepts : Nat → Message → Bool) (s : Manager) (m : Message)
    (h : s.isConnected = false) :
    send accepts s m =
      ({ s with
          console := s.console ++ ["log: WebSocket nicht verbunden - Nachricht in Warteschlange eingereiht"],
          messageQueue := s.messageQueue ++ [m] }, false) := by
  simp [send, h]

/-- The loop of `processMessageQueue` on a connected manager: with a bound of
at least the queue length it exits, having handed every queued message to the
socket once, in queue order. -/
theorem processMessageQueueLoop_connected (accepts : Nat → Message → Bool) :
    ∀ (q : List Message) (fuel : Nat) (s : Manager),
      s.messageQueue = q → s.isConnected = true → q.length ≤ fuel →
      processMessageQueueLoop accepts fuel s = some
        { s with messageQueue := [],
                 attempted := s.attempted ++ q,
                 transmitted := s.transmitted ++ delivered accepts s.websocket.isSome s.attempted.length q,
                 console := s.console ++ sendErrors accepts s.websocket.isSome s.attempted.length q } := by
  intro q
  induction q with
  | nil =>
    intro fuel s hq hc _
    unfold processMessageQueueLoop
    cases s
    simp only at hq
    subst hq
    simp [delivered, sendErrors]
  | cons m rest ih =>
    intro fuel s hq hc hfuel
    cases fuel with
    | zero => simp at hfuel
    | succ fuel =>
      cases s
      simp only at hq hc
      subst hq hc
      have hfuel1 : rest.length ≤ fuel := by simpa using hfuel
      unfold processMessageQueueLoop
      simp only [List.length_cons, gt_iff_lt, Nat.zero_lt_succ, decide_True, Bool.and_self,
        if_true]
      rw [send_connected accepts _ m rfl, ih fuel _ rfl rfl hfuel1]
      simp [delivered, sendErrors, List.append_assoc]

/-- The loop of `processMessageQueue` always exits within one iteration per
queued message, and at its exit the queue is empty or the manager is not connected. -/
theorem processMessageQueueLoop_terminates (accepts : Nat → Message → Bool) (s : Manager) :
    ∃ s1, processMessageQueueLoop accepts s.messageQueue.length s = some s1 ∧
      (s1.messageQueue = [] ∨ s1.isConnected = false) := by
  by_cases hc : s.isConnected = true
  · exact ⟨_, processMessageQueueLoop_connected accepts _ _ s rfl hc (Nat.le_refl _), Or.inl rfl⟩
  · simp only [Bool.not_eq_true] at hc
    refine ⟨s, ?_, Or.inr hc⟩
    unfold processMessageQueueLoop
    simp [hc]

theorem processMessageQueue_connected (accepts : Nat → Message → Bool) (s : Manager)
    (h : s.isConnected = true) :
    processMessageQueue accepts s =
      { s with messageQueue := [],
               attempted := s.attempted ++ s.messageQueue,
               transmitted := s.transmitted
                 ++ delivered accepts s.websocket.isSome s.attempted.length s.messageQueue,
               console := s.console
                 ++ sendErrors accepts s.websocket.isSome s.attempted.length s.messageQueue } := by
  unfold processMessageQueue
  rw [processMessageQueueLoop_connected accepts _ _ s rfl h (Nat.le_refl _)]
  rfl

theorem processMessageQueue_disconnected (accepts : Nat → Message → Bool) (s : Manager)
    (h : s.isConnected = false) : processMessageQueue accepts s = s := by
  unfold processMessageQueue processMessageQueueLoop
  simp [h]

theorem sendErrors_append (accepts : Nat → Message → Bool) (socket : Bool) :
    ∀ (xs ys : List Message) (n : Nat),
      sendErrors accepts socket n (xs ++ ys)
        = sendErrors accepts socket n xs ++ sendErrors accepts socket (n + xs.length) ys := by
  intro xs
  induction xs with
  | nil => intro ys n; simp [sendErrors]
  | cons x xs ih =>
    intro ys n
    have hn : n + 1 + xs.length = n + (xs.length + 1) := by omega
    have h := ih ys (n + 1)
    rw [hn] at h
    simp only [List.cons_append, sendErrors, List.length_cons, List.append_assoc,
      List.append_eq, h]

/-- What `authenticate` does on a connected manager. -/
theorem authenticate_connected (accepts : Nat → Message → Bool) (s : Manager)
    (h : s.isConnected = true) :
    authenticate accepts s =
      { s with attempted := s.attempted ++ authenticateFrames s.localStorage,
               transmitted := s.transmitted ++ delivered accepts s.websocket.isSome
                 s.attempted.length (authenticateFrames s.localStorage),
               console := s.console ++ sendErrors accepts s.websocket.isSome
                 s.attempted.length (authenticateFrames s.localStorage) } := by
  unfold authenticate authenticateFrames
  cases hget : mapGet s.localStorage "webui-auth-token" with
  | none => simp [delivered, sendErrors]
  | some authToken =>
    by_cases ht : authToken = ""
    · simp [ht, delivered, sendErrors]
    · simp only [ne_eq, ht, not_false_eq_true, if_true]
      rw [send_connected accepts s _ h]

/-- The queue, the messages handed to the socket and the transmitted frames
after an open event. -/
theorem onopen_queue (accepts : Nat → Message → Bool) (s : Manager) :
    (onopen accepts s).messageQueue = [] ∧
    (onopen accepts s).attempted
      = s.attempted ++ (authenticateFrames s.localStorage ++ s.messageQueue) ∧
    (onopen accepts s).transmitted
      = s.transmitted ++ delivered accepts s.websocket.isSome s.attempted.length
          (authenticateFrames s.localStorage ++ s.messageQueue) := by
  unfold onopen
  simp only [notifyConnectionStatus, startHeartbeat]
  rw [authenticate_connected accepts _ rfl, processMessageQueue_connected accepts _ rfl]
  simp [delivered_append, List.append_assoc]

/-- Messages passed to `send` one after the other while the manager is not
connected all end up, in order, at the end of the queue. -/
theorem run_send_disconnected (accepts : Nat → Message → Bool) :
    ∀ (ms : List Message) (s : Manager), s.isConnected = false →
      run accepts s (ms.map Event.send) =
        { s with messageQueue := s.messageQueue ++ ms,
                 console := s.console ++ List.replicate ms.length
                   "log: WebSocket nicht verbunden - Nachricht in Warteschlange eingereiht" } := by
  intro ms
  induction ms with
  | nil => intro s _; cases s; simp [run]
  | cons m ms ih =>
    intro s h
    have hstep : run accepts s ((m :: ms).map Event.send)
        = run accepts (send accepts s m).1 (ms.map Event.send) := by
      simp [run, step]
    rw [hstep, send_disconnected accepts s m h]
    cases s
    simp only at h
    subst h
    rw [ih _ rfl]
    simp [List.replicate_succ, List.append_assoc]

/-- C4 (amended): on a connected manager the loop of `processMessageQueue`
exits after one iteration per queued message and leaves the queue empty; every
queued message has been handed to the socket exactly once, in queue order; the
messages whose transmission goes through are on the wire in that order; for
each message whose transmission throws one error line is logged, the message
is not put back on the queue and is not transmitted, and the drain goes on
with the next message. No other field changes. -/
theorem processMessageQueue_drains (accepts : Nat → Message → Bool) (s : Manager)
    (h : s.isConnected = true) :
    (∃ s1, processMessageQueueLoop accepts s.messageQueue.length s = some s1) ∧
    processMessageQueue accepts s =
      { s with messageQueue := [],
               attempted := s.attempted ++ s.messageQueue,
               transmitted := s.transmitted
                 ++ delivered accepts s.websocket.isSome s.attempted.length s.messageQueue,
               console := s.console
                 ++ sendErrors accepts s.websocket.isSome s.attempted.length s.messageQueue } :=
  ⟨⟨_, processMessageQueueLoop_connected accepts _ _ s rfl h (Nat.le_refl _)⟩,
   processMessageQueue_connected accepts s h⟩

/-- C4 fails as stated: when the first transmission attempt throws, the
message `first` taken from the queue is afterwards neither on the wire nor
back on the queue, while the drain went on and transmitted `second`. -/
theorem processMessageQueue_loses_failed_message :
    drainingManager.messageQueue = [chat "first", chat "second"] ∧
    (processMessageQueue (fun n _ => n != 0) drainingManager).transmitted = [chat "second"] ∧
    (processMessageQueue (fun n _ => n != 0) drainingManager).messageQueue = [] ∧
    chat "first" ∉ (processMessageQueue (fun n _ => n != 0) drainingManager).transmitted ∧
    chat "first" ∉ (processMessageQueue (fun n _ => n != 0) drainingManager).messageQueue := by
  decide

/-- C4 (amended) on the manager `drainingManager` with a socket whose first
transmission attempt throws. -/
theorem processMessageQueue_drains_witness :
    (processMessageQueue (fun n _ => n != 0) drainingManager).messageQueue = [] ∧
    (processMessageQueue (fun n _ => n != 0) drainingManager).attempted
      = [chat "first", chat "second"] ∧
    (processMessageQueue (fun n _ => n != 0) drainingManager).transmitted = [chat "second"] := by
  have h := (processMessageQueue_drains (fun n _ => n != 0) drainingManager (by decide)).2
  rw [h]
  decide

/-- C5 (amended): on a manager that is not connected, `send` appends the
message to `messageQueue`, hands nothing to the socket and returns `false`
(it has no throwing path there); after the messages `ms` have been passed to
`send` in this way, the next open event empties the queue and hands, after
the authenticate frame if a token is stored, all queued messages to the
socket in the order in which they were passed to `send`; each of them is
transmitted unless its transmission throws, so that all of them are
transmitted, in that order, when no transmission throws. -/
theorem send_queues_until_open (accepts : Nat → Message → Bool) (s : Manager)
    (ms : List Message) (h : s.isConnected = false) :
    (∀ m, send accepts s m =
      ({ s with
          console := s.console ++ ["log: WebSocket nicht verbunden - Nachricht in Warteschlange eingereiht"],
          messageQueue := s.messageQueue ++ [m] }, false)) ∧
    (run accepts s (ms.map Event.send)).messageQueue = s.messageQueue ++ ms ∧
    (run accepts s (ms.map Event.send)).isConnected = false ∧
    (run accepts s (ms.map Event.send)).attempted = s.attempted ∧
    (run accepts s (ms.map Event.send)).transmitted = s.transmitted ∧
    (onopen accepts (run accepts s (ms.map Event.send))).messageQueue = [] ∧
    (onopen accepts (run accepts s (ms.map Event.send))).attempted
      = s.attempted ++ (authenticateFrames s.localStorage ++ (s.messageQueue ++ ms)) ∧
    (onopen accepts (run accepts s (ms.map Event.send))).transmitted
      = s.transmitted ++ delivered accepts s.websocket.isSome s.attempted.length
          (authenticateFrames s.localStorage ++ (s.messageQueue ++ ms)) ∧
    ((∀ n m, accepts n m = true) → s.websocket.isSome = true →
      (onopen accepts (run accepts s (ms.map Event.send))).transmitted
        = s.transmitted ++ (authenticateFrames s.localStorage ++ (s.messageQueue ++ ms))) := by
  have hrun := run_send_disconnected accepts ms s h
  have hopen := onopen_queue accepts (run accepts s (ms.map Event.send))
  rw [hrun] at hopen ⊢
  refine ⟨fun m => send_disconnected accepts s m h, rfl, h, rfl, rfl, hopen.1, hopen.2.1,
    hopen.2.2, ?_⟩
  intro hall hsock
  rw [hopen.2.2]
  simp only [hsock]
  rw [delivered_all accepts hall]

/-- C5 fails as stated: `cyclic` and then `chat "second"` are passed to `send`
on a fresh manager, before its socket has opened; both calls return `false`
and queue the message. At the open event the serialisation of `cyclic`
throws: only `second` is transmitted, and the queue is empty. -/
theorem onopen_does_not_transmit_all :
    (Manager.new [] "ws://panel.example/api/websocket" false).isConnected = false ∧
    (run (fun _ m => m != cyclic) (Manager.new [] "ws://panel.example/api/websocket" false)
      [.send cyclic, .send (chat "second")]).messageQueue = [cyclic, chat "second"] ∧
    (run (fun _ m => m != cyclic) (Manager.new [] "ws://panel.example/api/websocket" false)
      [.send cyclic, .send (chat "second"), .opened]).transmitted = [chat "second"] ∧
    (run (fun _ m => m != cyclic) (Manager.new [] "ws://panel.example/api/websocket" false)
      [.send cyclic, .send (chat "second"), .opened]).messageQueue = [] := by
  decide

/-- C5 (amended) on a fresh manager with the token `t0` in `localStorage`, two
queued messages and a socket that transmits everything. -/
theorem send_queues_until_open_witness :
    (onopen (fun _ _ => true)
      (run (fun _ _ => true)
        (Manager.new [("webui-auth-token", "t0")] "ws://panel.example/api/websocket" false)
        ([chat "first", chat "second"].map Event.send))).transmitted
      = [⟨"authenticate", "", none, none, some "t0", none⟩, chat "first", chat "second"] :=
  (send_queues_until_open (fun _ _ => true)
    (Manager.new [("webui-auth-token", "t0")] "ws://panel.example/api/websocket" false)
    [chat "first", chat "second"] (by decide)).2.2.2.2.2.2.2.2 (fun _ _ => rfl) (by decide)

/-! ## The pending requests of `WebUIWebSocketManager` (C8, C9, C10) -/

theorem mapGet_mapSet {κ α : Type} [DecidableEq κ] (map : List (κ × α)) (k k1 : κ) (v : α) :
    mapGet (mapSet map k v) k1 = if k = k1 then some v else mapGet map k1 := by
  induction map with
  | nil => simp [mapSet, mapGet]
  | cons e rest ih =>
    obtain ⟨k0, v0⟩ := e
    by_cases h0 : k0 = k
    · subst h0
      by_cases h1 : k0 = k1
      · simp [mapSet, mapGet, h1]
      · simp [mapSet, mapGet, h1]
    · by_cases h1 : k0 = k1
      · subst h1
        have h2 : ¬ k = k0 := fun h => h0 h.symm
        simp [mapSet, mapGet, h0, h2]
      · simp [mapSet, mapGet, h0, h1, ih]

theorem mapGet_mapDelete {κ α : Type} [DecidableEq κ] (map : List (κ × α)) (k k1 : κ) :
    mapGet (mapDelete map k) k1 = if k = k1 then none else mapGet map k1 := by
  induction map with
  | nil => simp [mapDelete, mapGet]
  | cons e rest ih =>
    obtain ⟨k0, v0⟩ := e
    by_cases h0 : k0 = k
    · subst h0
      by_cases h1 : k0 = k1
      · subst h1
        simpa [mapDelete] using ih
      · simp [mapDelete, mapGet, h1, ih]
    · by_cases h1 : k0 = k1
      · subst h1
        have h2 : ¬ k = k0 := fun h => h0 h.symm
        simp [mapDelete, mapGet, h0, h2]
      · simp [mapDelete, mapGet, h0, h1, ih]

theorem settle_length (promises : List (Option Settlement)) (q : Nat) (v : Settlement) :
    (settle promises q v).length = promises.length := by
  unfold settle
  split <;> simp

theorem settle_get_other (promises : List (Option Settlement)) (p q : Nat) (v : Settlement)
    (h : q ≠ p) : (settle promises q v)[p]? = promises[p]? := by
  unfold settle
  split
  · simp [List.getElem?_set, h]
  · rfl

theorem settle_get_pending (promises : List (Option Settlement)) (p : Nat) (v : Settlement)
    (h : promises[p]? = some none) : (settle promises p v)[p]? = some (some v) := by
  have hlt : p < promises.length := by
    by_contra hge
    rw [List.getElem?_eq_none (by omega)] at h
    cases h
  unfold settle
  simp [h, List.getElem?_set, hlt]

theorem settle_get_settled (promises : List (Option Settlement)) (p q : Nat)
    (v w : Settlement) (h : promises[p]? = some (some w)) :
    (settle promises q v)[p]? = some (some w) := by
  by_cases hq : q = p
  · subst hq
    unfold settle
    simp [h]
  · rw [settle_get_other promises p q v hq, h]

theorem send_core (accepts : Nat → Message → Bool) (s : Manager) (m : Message) :
    (send accepts s m).1.core = s.core := by
  unfold send
  split_ifs <;> rfl

theorem processMessageQueue_core (accepts : Nat → Message → Bool) (s : Manager) :
    (processMessageQueue accepts s).core = s.core := by
  by_cases h : s.isConnected = true
  · rw [processMessageQueue_connected accepts s h]
    rfl
  · simp only [Bool.not_eq_true] at h
    rw [processMessageQueue_disconnected accepts s h]

theorem authenticate_core (accepts : Nat → Message → Bool) (s : Manager) :
    (authenticate accepts s).core = s.core := by
  unfold authenticate
  split
  · split_ifs
    · exact send_core accepts s _
    · rfl
  · rfl

theorem startHeartbeat_core (s : Manager) : (startHeartbeat s).core = s.core := rfl

theorem notifyConnectionStatus_core (s : Manager) (status : String) :
    (notifyConnectionStatus s status).core = s.core := rfl

theorem onopen_core (accepts : Nat → Message → Bool) (s : Manager) :
    (onopen accepts s).core = s.core := by
  unfold onopen
  simp only [notifyConnectionStatus_core, startHeartbeat_core, processMessageQueue_core,
    authenticate_core]
  rfl

theorem stopHeartbeat_core (s : Manager) : (stopHeartbeat s).core = s.core := by
  unfold stopHeartbeat
  split <;> rfl

theorem connect_core (s : Manager) (wsUrl : String) (constructorThrows : Bool) :
    (connect s wsUrl constructorThrows).core = s.core := by
  unfold connect
  split_ifs <;> rfl

theorem heartbeatTick_core (accepts : Nat → Message → Bool) (s : Manager) (handle : Nat) :
    (heartbeatTick accepts s handle).core = s.core := by
  unfold heartbeatTick
  split_ifs
  · exact send_core accepts s _
  · rfl

theorem subscribe_core (accepts : Nat → Message → Bool) (s : Manager) (channel : String) :
    (subscribe accepts s channel).core = s.core := by
  unfold subscribe
  exact send_core accepts s _

theorem unsubscribe_core (accepts : Nat → Message → Bool) (s : Manager) (channel : String) :
    (unsubscribe accepts s channel).core = s.core := by
  unfold unsubscribe
  exact send_core accepts s _

theorem handleConnectionLoss_core (s : Manager) :
    ∃ extra, (handleConnectionLoss s).core
        = ⟨s.pendingRequests, s.promises, s.timeouts ++ extra⟩ ∧
      ∀ t ∈ extra, t.callback = Callback.reconnect := by
  unfold handleConnectionLoss
  split_ifs
  · refine ⟨[⟨s.reconnectDelay, .reconnect⟩], rfl, ?_⟩
    intro t ht
    simp only [List.mem_singleton] at ht
    rw [ht]
  · exact ⟨[], by simp [Manager.core], by simp⟩

/-- `onclose` leaves the pending requests and the promises alone and adds at
most one timer, a reconnect. -/
theorem onclose_core (s : Manager) (wasClean : Bool) :
    ∃ extra, (onclose s wasClean).core
        = ⟨s.pendingRequests, s.promises, s.timeouts ++ extra⟩ ∧
      ∀ t ∈ extra, t.callback = Callback.reconnect := by
  unfold onclose
  simp only [notifyConnectionStatus_core]
  generalize hs2 : stopHeartbeat _ = s2
  have hc : s2.core = s.core := by
    rw [← hs2, stopHeartbeat_core]
    rfl
  simp only [Manager.core, Core.mk.injEq] at hc
  obtain ⟨hc1, hc2, hc3⟩ := hc
  cases wasClean
  · simp only [Bool.not_false, if_true]
    obtain ⟨extra, h1, h2⟩ := handleConnectionLoss_core s2
    exact ⟨extra, by rw [h1, hc1, hc2, hc3], h2⟩
  · simp only [Bool.not_true, if_false]
    exact ⟨[], by simp [Manager.core, hc1, hc2, hc3], by simp⟩

theorem pendingFor_some (s : Manager) (mid : Option Nat) (i q : Nat)
    (h : pendingFor s mid = some (i, q)) :
    mid = some i ∧ i ≠ 0 ∧ ∃ pending, s.pendingRequests = some pending ∧
      mapGet pending i = some q := by
  unfold pendingFor at h
  cases mid with
  | none => simp at h
  | some j =>
    cases hp : s.pendingRequests with
    | none => simp [hp] at h
    | some pending =>
      simp only [hp] at h
      by_cases hj : j = 0
      · simp [hj] at h
      · simp only [ne_eq, hj, not_false_eq_true, if_true] at h
        cases hg : mapGet pending j with
        | none => simp [hg] at h
        | some q1 =>
          simp only [hg, Option.some.injEq, Prod.mk.injEq] at h
          obtain ⟨h1, h2⟩ := h
          subst h1 h2
          exact ⟨rfl, hj, pending, rfl, hg⟩

theorem pendingFor_none (s : Manager) (i : Nat)
    (h : ∀ pending, s.pendingRequests = some pending → mapGet pending i = none) :
    pendingFor s (some i) = none := by
  unfold pendingFor
  cases hp : s.pendingRequests with
  | none => rfl
  | some pending =>
    simp only [h pending hp]
    split_ifs <;> rfl

theorem coreStep_of_core_eq (s s1 : Manager) (h : s1.core = s.core) :
    CoreStep .frame s.core s1.core := by
  rw [h]
  have h1 := CoreStep.frame s.core [] (by simp)
  simpa using h1

theorem request_core (accepts : Nat → Message → Bool) (s : Manager) (type data : String)
    (id : Nat) :
    (request accepts s type data id).1.core =
      ⟨some (mapSet (s.pendingRequests.getD []) id s.promises.length),
       s.promises ++ [none],
       s.timeouts ++ [⟨30000, .requestTimeout id s.promises.length⟩]⟩ := by
  unfold request
  simp only [Manager.core, Core.mk.injEq]
  exact ⟨congrArg Core.pendingRequests (send_core accepts _ _),
    congrArg Core.promises (send_core accepts _ _),
    congrArg (fun c => c.timeouts ++ _) (send_core accepts _ _)⟩

theorem handleMessage_coreStep (s : Manager) (m : Message) :
    ∃ l, CoreStep l s.core (handleMessage s m).core ∧ Caused (.message m) l := by
  unfold handleMessage
  cases hpf : pendingFor s m.id with
  | none =>
    refine ⟨.frame, ?_, trivial⟩
    apply coreStep_of_core_eq
    simp only
    split
    · split_ifs <;> rfl
    · rfl
  | some r =>
    obtain ⟨i, q⟩ := r
    obtain ⟨hid, _, pending, hp, hg⟩ := pendingFor_some s m.id i q hpf
    refine ⟨.replied i, ?_, m, rfl, hid⟩
    simp only
    split
    · next e _ =>
      have h := CoreStep.replied s.core pending i q (.rejected e) hp hg
      simpa [Manager.core, hp] using h
    · have h := CoreStep.replied s.core pending i q (.resolved m.data) hp hg
      simpa [Manager.core, hp] using h

theorem fireTimeout_coreStep (s : Manager) (wsUrl : String) (throws : Bool) (cb : Callback) :
    ∃ l, CoreStep l s.core (fireTimeout s wsUrl throws cb).core ∧
      Caused (.timeout cb wsUrl throws) l := by
  unfold fireTimeout
  cases hf : s.timeouts.find? (fun t => t.callback == cb) with
  | none => exact ⟨.frame, coreStep_of_core_eq s s rfl, trivial⟩
  | some t =>
    have hmem : t ∈ s.timeouts := List.mem_of_find?_eq_some hf
    have hcb : t.callback = cb := by
      have h := List.find?_some hf
      simpa using h
    cases cb with
    | reconnect =>
      refine ⟨.reconnected, ?_, trivial⟩
      simp only [runCallback, connect_core]
      exact CoreStep.reconnected s.core t hcb
    | requestTimeout id q =>
      simp only [runCallback]
      cases hp : s.pendingRequests with
      | none =>
        refine ⟨.expired id q, ?_, wsUrl, throws, rfl⟩
        have h := CoreStep.expired s.core t id q hmem hcb
        simpa [Manager.core, hp] using h
      | some pending =>
        simp only
        by_cases hh : mapHas pending id = true
        · refine ⟨.timedOut id q, ?_, wsUrl, throws, rfl⟩
          simp only [hh, if_true]
          exact CoreStep.timedOut s.core t id q pending hmem hcb hp hh
        · refine ⟨.expired id q, ?_, wsUrl, throws, rfl⟩
          simp only [hh, if_false]
          have h := CoreStep.expired s.core t id q hmem hcb
          simpa [Manager.core, hp] using h

/-- Every event acts on the request part of the manager in one of the ways
of `CoreStep`. -/
theorem step_coreStep (accepts : Nat → Message → Bool) (s : Manager) (e : Event) :
    ∃ l, CoreStep l s.core (step accepts s e).core ∧ Caused e l := by
  cases e with
  | send message => exact ⟨.frame, coreStep_of_core_eq _ _ (send_core accepts s message), trivial⟩
  | request type data id =>
    refine ⟨.requested id, ?_, type, data, rfl⟩
    simp only [step, request_core]
    exact CoreStep.requested s.core id
  | message message => exact handleMessage_coreStep s message
  | opened => exact ⟨.frame, coreStep_of_core_eq _ _ (onopen_core accepts s), trivial⟩
  | closed wasClean =>
    obtain ⟨extra, h1, h2⟩ := onclose_core s wasClean
    refine ⟨.frame, ?_, trivial⟩
    simp only [step, h1]
    exact CoreStep.frame s.core extra h2
  | errored => exact ⟨.frame, coreStep_of_core_eq _ _ rfl, trivial⟩
  | timeout callback wsUrl constructorThrows =>
    exact fireTimeout_coreStep s wsUrl constructorThrows callback
  | tick handle => exact ⟨.frame, coreStep_of_core_eq _ _ (heartbeatTick_core accepts s handle), trivial⟩
  | subscribe channel =>
    exact ⟨.frame, coreStep_of_core_eq _ _ (subscribe_core accepts s channel), trivial⟩
  | unsubscribe channel =>
    exact ⟨.frame, coreStep_of_core_eq _ _ (unsubscribe_core accepts s channel), trivial⟩
  | registerEventHandler type handler => exact ⟨.frame, coreStep_of_core_eq _ _ rfl, trivial⟩
  | unregisterEventHandler type => exact ⟨.frame, coreStep_of_core_eq _ _ rfl, trivial⟩
  | destroy =>
    refine ⟨.cleared, ?_, rfl⟩
    have h := CoreStep.cleared s.core
    have hs := stopHeartbeat_core s
    simp only [Manager.core, Core.mk.injEq] at hs
    obtain ⟨h1, h2, h3⟩ := hs
    simpa [step, destroy, Manager.core, h1, h2, h3] using h

theorem CoreStep.length_le {l : Label} {c c1 : Core} (h : CoreStep l c c1) :
    c.promises.length ≤ c1.promises.length := by
  cases h <;> simp [settle_length]

/-- A pending entry after a step was there before, or it is the entry of the
request just made, for the promise just created. -/
theorem CoreStep.entry_origin {l : Label} {c c1 : Core} (h : CoreStep l c c1)
    (pending1 : List (Nat × Nat)) (i q : Nat) (hp : c1.pendingRequests = some pending1)
    (hg : mapGet pending1 i = some q) :
    (∃ pending, c.pendingRequests = some pending ∧ mapGet pending i = some q) ∨
    (l = .requested i ∧ q = c.promises.length ∧ c1.promises.length = c.promises.length + 1) := by
  cases h with
  | frame _ extra he => exact Or.inl ⟨pending1, hp, hg⟩
  | reconnected _ t hc => exact Or.inl ⟨pending1, hp, hg⟩
  | requested _ id =>
    simp only [Option.some.injEq] at hp
    subst hp
    rw [mapGet_mapSet] at hg
    by_cases hi : id = i
    · subst hi
      simp only [if_true, Option.some.injEq] at hg
      exact Or.inr ⟨rfl, hg.symm, by simp⟩
    · simp only [hi, if_false] at hg
      cases hc : c.pendingRequests with
      | none => simp [hc, mapGet] at hg
      | some pending =>
        simp only [hc, Option.getD_some] at hg
        exact Or.inl ⟨pending, rfl, hg⟩
  | replied _ pending id q1 v h0 hg0 =>
    simp only [Option.some.injEq] at hp
    subst hp
    rw [mapGet_mapDelete] at hg
    by_cases hi : id = i
    · simp [hi] at hg
    · simp only [hi, if_false] at hg
      exact Or.inl ⟨pending, h0, hg⟩
  | timedOut _ t id q1 pending hm hc h0 hh =>
    simp only [Option.some.injEq] at hp
    subst hp
    rw [mapGet_mapDelete] at hg
    by_cases hi : id = i
    · simp [hi] at hg
    · simp only [hi, if_false] at hg
      exact Or.inl ⟨pending, h0, hg⟩
  | expired _ t id q1 hm hc => exact Or.inl ⟨pending1, hp, hg⟩
  | cleared _ =>
    cases hc : c.pendingRequests with
    | none => simp [hc] at hp
    | some pending =>
      simp only [hc, Option.map_some', Option.some.injEq] at hp
      subst hp
      simp [mapGet] at hg

/-- A request timer pending after a step was pending before, or it is the
timer of the request just made, for the promise just created. -/
theorem CoreStep.timer_origin {l : Label} {c c1 : Core} (h : CoreStep l c c1)
    (t : Timeout) (i q : Nat) (ht : t ∈ c1.timeouts)
    (hcb : t.callback = Callback.requestTimeout i q) :
    t ∈ c.timeouts ∨
    (l = .requested i ∧ q = c.promises.length ∧ c1.promises.length = c.promises.length + 1) := by
  cases h with
  | frame _ extra he =>
    simp only [List.mem_append] at ht
    rcases ht with ht | ht
    · exact Or.inl ht
    · rw [he t ht] at hcb
      cases hcb
  | reconnected _ t1 hc => exact Or.inl (List.mem_of_mem_erase ht)
  | requested _ id =>
    simp only [List.mem_append, List.mem_singleton] at ht
    rcases ht with ht | ht
    · exact Or.inl ht
    · subst ht
      simp only [Callback.requestTimeout.injEq] at hcb
      obtain ⟨h1, h2⟩ := hcb
      subst h1
      exact Or.inr ⟨rfl, h2.symm, by simp⟩
  | replied _ pending id q1 v h0 hg0 => exact Or.inl ht
  | timedOut _ t1 id q1 pending hm hc h0 hh => exact Or.inl (List.mem_of_mem_erase ht)
  | expired _ t1 id q1 hm hc => exact Or.inl (List.mem_of_mem_erase ht)
  | cleared _ => exact Or.inl ht

theorem WellFormed.wellFormed_step {l : Label} {c c1 : Core} (h : CoreStep l c c1) (hw : WellFormed c) :
    WellFormed c1 := by
  refine ⟨?_, ?_⟩
  · intro pending1 i q hp hg
    rcases h.entry_origin pending1 i q hp hg with ⟨pending, h0, h1⟩ | ⟨_, h2, h3⟩
    · exact Nat.lt_of_lt_of_le (hw.1 pending i q h0 h1) h.length_le
    · omega
  · intro t ht i q hcb
    rcases h.timer_origin t i q ht hcb with h0 | ⟨_, h2, h3⟩
    · exact Nat.lt_of_lt_of_le (hw.2 t h0 i q hcb) h.length_le
    · omega

theorem Exclusive.exclusive_step {l : Label} {c c1 : Core} {o : Option Nat} {p : Nat}
    (h : CoreStep l c c1) (hlt : p < c.promises.length) (hx : Exclusive o p c) :
    Exclusive o p c1 := by
  refine ⟨?_, ?_⟩
  · intro pending1 i hp hg
    rcases h.entry_origin pending1 i p hp hg with ⟨pending, h0, h1⟩ | ⟨_, h2, _⟩
    · exact hx.1 pending i h0 h1
    · omega
  · intro t ht i hcb
    rcases h.timer_origin t i p ht hcb with h0 | ⟨_, h2, _⟩
    · exact hx.2 t h0 i hcb
    · omega

/-- A step keeps promise `p` pending unless it is a reply to, or the timeout
of, the id under which `p` is referred to. -/
theorem CoreStep.keeps_pending {l : Label} {c c1 : Core} {o : Option Nat} {p : Nat}
    (h : CoreStep l c c1) (hx : Exclusive o p c) (hp : c.promises[p]? = some none)
    (h1 : ∀ i, l = .replied i → some i ≠ o)
    (h2 : ∀ i q, l = .timedOut i q → some i ≠ o) :
    c1.promises[p]? = some none := by
  have hlt : p < c.promises.length := by
    by_contra hge
    rw [List.getElem?_eq_none (by omega)] at hp
    cases hp
  cases h with
  | frame _ extra he => exact hp
  | reconnected _ t hc => exact hp
  | requested _ id =>
    simp only
    rw [List.getElem?_append_left hlt]
    exact hp
  | replied _ pending id q v h0 hg =>
    simp only
    have hq : q ≠ p := by
      intro hqp
      subst hqp
      exact h1 id rfl (hx.1 pending id h0 hg)
    rw [settle_get_other _ _ _ _ hq]
    exact hp
  | timedOut _ t id q pending hm hc h0 hh =>
    simp only
    have hq : q ≠ p := by
      intro hqp
      subst hqp
      exact h2 id q rfl (hx.2 t hm id hc)
    rw [settle_get_other _ _ _ _ hq]
    exact hp
  | expired _ t id q hm hc => exact hp
  | cleared _ => exact hp

theorem NoEntry.noEntry_step {l : Label} {c c1 : Core} {id : Nat} (h : CoreStep l c c1)
    (hn : NoEntry id c) (hl : l ≠ .requested id) : NoEntry id c1 := by
  intro pending1 hp
  cases hg : mapGet pending1 id with
  | none => rfl
  | some q =>
    rcases h.entry_origin pending1 id q hp hg with ⟨pending, h0, h1⟩ | ⟨h2, _, _⟩
    · rw [hn pending h0] at h1
      cases h1
    · exact absurd h2 hl

theorem WellFormed.wellFormed_run (accepts : Nat → Message → Bool) (events : List Event) :
    ∀ s : Manager, WellFormed s.core → WellFormed (run accepts s events).core := by
  induction events with
  | nil => intro s h; exact h
  | cons e rest ih =>
    intro s h
    obtain ⟨l, hstep, _⟩ := step_coreStep accepts s e
    exact ih (WS.step accepts s e) (h.wellFormed_step hstep)

/-- A freshly constructed manager is well formed, and so is every state it
reaches. -/
theorem wellFormed_reachable (accepts : Nat → Message → Bool)
    (localStorage : List (String × String)) (wsUrl : String) (throws : Bool)
    (events : List Event) :
    WellFormed (run accepts (Manager.new localStorage wsUrl throws) events).core := by
  apply WellFormed.wellFormed_run
  have h : (Manager.new localStorage wsUrl throws).core = ⟨none, [], []⟩ := by
    unfold Manager.new
    rw [connect_core]
    rfl
  rw [h]
  exact ⟨by simp, by simp⟩

theorem NoEntry.noEntry_run (accepts : Nat → Message → Bool) (id : Nat) (events : List Event) :
    ∀ s : Manager, NoEntry id s.core →
      (∀ e ∈ events, ∀ type data, e ≠ Event.request type data id) →
      NoEntry id (run accepts s events).core := by
  induction events with
  | nil => intro s h _; exact h
  | cons e rest ih =>
    intro s h hq
    obtain ⟨l, hstep, hcaused⟩ := step_coreStep accepts s e
    have hl : l ≠ .requested id := by
      intro hl
      subst hl
      obtain ⟨type, data, he⟩ := hcaused
      exact hq e (List.mem_cons_self _ _) type data he
    exact ih (WS.step accepts s e) (h.noEntry_step hstep hl)
      (fun e1 he1 => hq e1 (List.mem_cons_of_mem _ he1))

/-- After the timeout callback of a request with `id` has run there is no
pending entry for `id`. -/
theorem runCallback_requestTimeout_noEntry (s : Manager) (wsUrl : String) (throws : Bool)
    (id p : Nat) : NoEntry id (runCallback s wsUrl throws (.requestTimeout id p)).core := by
  intro pending1 hp
  simp only [runCallback] at hp
  cases h0 : s.pendingRequests with
  | none => simp [h0, Manager.core] at hp
  | some pending =>
    simp only [h0] at hp
    by_cases hh : mapHas pending id = true
    · simp only [hh, if_true, Manager.core, Option.some.injEq] at hp
      subst hp
      simp [mapGet_mapDelete]
    · simp only [Bool.not_eq_true] at hh
      simp only [hh, Bool.false_eq_true, if_false, Manager.core, h0, Option.some.injEq] at hp
      subst hp
      simpa [mapHas] using hh

/-- A message whose id has no pending entry is dispatched as an event. -/
theorem handleMessage_of_noEntry (s : Manager) (m : Message) (id : Nat)
    (hm : m.id = some id) (hn : NoEntry id s.core) :
    (handleMessage s m).promises = s.promises ∧
    (handleMessage s m).pendingRequests = s.pendingRequests ∧
    handleMessage s m = { s with invoked := (handleMessage s m).invoked,
                                 console := (handleMessage s m).console } ∧
    (handleMessage s m).invoked = s.invoked ++
      (match mapGet s.eventHandlers m.type with
        | some handler => [(handler.name, m.data)]
        | none => []) := by
  have hpf : pendingFor s m.id = none := by
    rw [hm]
    exact pendingFor_none s id hn
  unfold handleMessage
  simp only [hpf]
  cases mapGet s.eventHandlers m.type with
  | none => simp
  | some handler =>
    simp only
    split_ifs <;> simp

/-- C8 (amended): a reply that arrives after the timeout callback of its
request has run (and after any further events, short of a new request with
the same id) settles no promise and changes no field of the manager, but it
is not without effect: it is dispatched like every message that matches no
pending request, so the handler registered for its type, if there is one, is
called once with its data (and a warning is logged when there is none). -/
theorem handleMessage_late_reply (accepts : Nat → Message → Bool) (s : Manager) (id p : Nat)
    (wsUrl : String) (throws : Bool) (later : List Event) (m : Message)
    (hm : m.id = some id)
    (hlater : ∀ e ∈ later, ∀ type data, e ≠ Event.request type data id) :
    ∀ s1, s1 = run accepts (runCallback s wsUrl throws (.requestTimeout id p)) later →
      (handleMessage s1 m).promises = s1.promises ∧
      (handleMessage s1 m).pendingRequests = s1.pendingRequests ∧
      handleMessage s1 m = { s1 with invoked := (handleMessage s1 m).invoked,
                                     console := (handleMessage s1 m).console } ∧
      (handleMessage s1 m).invoked = s1.invoked ++
        (match mapGet s1.eventHandlers m.type with
          | some handler => [(handler.name, m.data)]
          | none => []) := by
  intro s1 hs1
  apply handleMessage_of_noEntry s1 m id hm
  rw [hs1]
  exact NoEntry.noEntry_run accepts id later _
    (runCallback_requestTimeout_noEntry s wsUrl throws id p) hlater

/-- C8 fails as stated: on a fresh manager a request of type `notification`
times out (its promise is rejected with `Request timeout`); the reply with
the same id and type `notification` that arrives afterwards makes the manager
call the handler registered for `notification`. -/
theorem late_reply_invokes_handler :
    (run (fun _ _ => true) (Manager.new [] "ws://panel.example/api/websocket" false)
      [.request "notification" "query" 1730000000000,
       .timeout (.requestTimeout 1730000000000 0) "" false]).promises
      = [some (.rejected "Request timeout")] ∧
    (run (fun _ _ => true) (Manager.new [] "ws://panel.example/api/websocket" false)
      [.request "notification" "query" 1730000000000,
       .timeout (.requestTimeout 1730000000000 0) "" false]).invoked = [] ∧
    (run (fun _ _ => true) (Manager.new [] "ws://panel.example/api/websocket" false)
      [.request "notification" "query" 1730000000000,
       .timeout (.requestTimeout 1730000000000 0) "" false,
       .message ⟨"notification", "late", some 1730000000000, none, none, none⟩]).invoked
      = [("handleNotification", "late")] := by
  decide

/-- C8 (amended) at a late reply of type `notification` on a fresh manager. -/
theorem handleMessage_late_reply_witness :
    (handleMessage
      (run (fun _ _ => true)
        (runCallback
          (request (fun _ _ => true) (Manager.new [] "ws://panel.example/api/websocket" false)
            "notification" "query" 1730000000000).1
          "" false (.requestTimeout 1730000000000 0)) [.opened])
      ⟨"notification", "late", some 1730000000000, none, none, none⟩).promises
      = [some (.rejected "Request timeout")] := by
  have h := (handleMessage_late_reply (fun _ _ => true)
    (request (fun _ _ => true) (Manager.new [] "ws://panel.example/api/websocket" false)
      "notification" "query" 1730000000000).1 1730000000000 0 "" false [.opened]
    ⟨"notification", "late", some 1730000000000, none, none, none⟩ rfl
    (by simp) _ rfl).1
  rw [h]
  decide

/-- `request` with a fresh id leaves the request waiting. -/
theorem Waiting.of_request (c : Core) (id : Nat) (hw : WellFormed c)
    (hfresh : ∀ t ∈ c.timeouts, ∀ q, t.callback ≠ Callback.requestTimeout id q) :
    Waiting id c.promises.length
      ⟨some (mapSet (c.pendingRequests.getD []) id c.promises.length),
       c.promises ++ [none],
       c.timeouts ++ [⟨30000, .requestTimeout id c.promises.length⟩]⟩ := by
  refine ⟨⟨?_, ?_⟩, ?_, ?_, ?_, ?_⟩
  · intro pending1 i hp hg
    simp only [Option.some.injEq] at hp
    subst hp
    rw [mapGet_mapSet] at hg
    by_cases hi : id = i
    · rw [hi]
    · simp only [hi, if_false] at hg
      cases hc : c.pendingRequests with
      | none => simp [hc, mapGet] at hg
      | some pending =>
        simp only [hc, Option.getD_some] at hg
        exact absurd (hw.1 pending i _ hc hg) (Nat.lt_irrefl _)
  · intro t ht i hcb
    simp only [List.mem_append, List.mem_singleton] at ht
    rcases ht with ht | ht
    · exact absurd (hw.2 t ht i _ hcb) (Nat.lt_irrefl _)
    · subst ht
      simp only [Callback.requestTimeout.injEq] at hcb
      rw [hcb.1]
  · simp
  · exact ⟨_, rfl, by simp [mapGet_mapSet]⟩
  · simp
  · intro t ht q hcb
    simp only [List.mem_append, List.mem_singleton] at ht
    rcases ht with ht | ht
    · exact absurd hcb (hfresh t ht q)
    · subst ht
      simp only [Callback.requestTimeout.injEq] at hcb
      exact hcb.2.symm

/-- A quiet step leaves a waiting request waiting. -/
theorem Waiting.waiting_step {l : Label} {c c1 : Core} {id p : Nat} (h : CoreStep l c c1)
    (hw : Waiting id p c)
    (h1 : l ≠ .cleared) (h2 : l ≠ .requested id) (h3 : l ≠ .replied id)
    (h4 : l ≠ .timedOut id p) (h5 : l ≠ .expired id p) : Waiting id p c1 := by
  have hlt : p < c.promises.length := by
    by_contra hge
    have hp := hw.pending
    rw [List.getElem?_eq_none (by omega)] at hp
    cases hp
  have hkeep : c1.promises[p]? = some none := by
    apply h.keeps_pending hw.exclusive hw.pending
    · intro i hl hi
      simp only [Option.some.injEq] at hi
      subst hi
      exact h3 hl
    · intro i q hl hi
      simp only [Option.some.injEq] at hi
      subst hi
      subst hl
      cases h with
      | timedOut _ t _ _ pending hm hc h0 hh =>
        exact h4 (by rw [hw.unique t hm q hc])
  obtain ⟨pending, hp0, hg0⟩ := hw.entry
  refine ⟨hw.exclusive.exclusive_step h hlt, hkeep, ?_, ?_, ?_⟩
  · cases h with
    | frame _ extra he => exact ⟨pending, hp0, hg0⟩
    | reconnected _ t hc => exact ⟨pending, hp0, hg0⟩
    | requested _ i =>
      have hi : i ≠ id := fun hi => h2 (by rw [hi])
      refine ⟨_, rfl, ?_⟩
      rw [mapGet_mapSet]
      simp only [hi, if_false, hp0, Option.getD_some]
      exact hg0
    | replied _ pending1 i q v h0 hg =>
      have hi : i ≠ id := fun hi => h3 (by rw [hi])
      rw [hp0] at h0
      simp only [Option.some.injEq] at h0
      subst h0
      refine ⟨_, rfl, ?_⟩
      rw [mapGet_mapDelete]
      simp only [hi, if_false]
      exact hg0
    | timedOut _ t i q pending1 hm hc h0 hh =>
      have hi : i ≠ id := by
        intro hi
        subst hi
        exact h4 (by rw [hw.unique t hm q hc])
      rw [hp0] at h0
      simp only [Option.some.injEq] at h0
      subst h0
      refine ⟨_, rfl, ?_⟩
      rw [mapGet_mapDelete]
      simp only [hi, if_false]
      exact hg0
    | expired _ t i q hm hc => exact ⟨pending, hp0, hg0⟩
    | cleared _ => exact absurd rfl h1
  · cases h with
    | frame _ extra he => exact List.mem_append_left _ hw.timer
    | reconnected _ t hc =>
      apply (List.mem_erase_of_ne ?_).mpr hw.timer
      intro heq
      rw [← heq] at hc
      cases hc
    | requested _ i => exact List.mem_append_left _ hw.timer
    | replied _ pending1 i q v h0 hg => exact hw.timer
    | timedOut _ t i q pending1 hm hc h0 hh =>
      apply (List.mem_erase_of_ne ?_).mpr hw.timer
      intro heq
      rw [← heq] at hc
      simp only [Callback.requestTimeout.injEq] at hc
      exact h4 (by rw [hc.1, hc.2])
    | expired _ t i q hm hc =>
      apply (List.mem_erase_of_ne ?_).mpr hw.timer
      intro heq
      rw [← heq] at hc
      simp only [Callback.requestTimeout.injEq] at hc
      exact h5 (by rw [hc.1, hc.2])
    | cleared _ => exact hw.timer
  · intro t ht q hcb
    rcases h.timer_origin t id q ht hcb with h0 | ⟨hl, _, _⟩
    · exact hw.unique t h0 q hcb
    · exact absurd hl h2

/-- Quiet events leave a waiting request waiting. -/
theorem Waiting.waiting_run (accepts : Nat → Message → Bool) (id p : Nat) (events : List Event) :
    ∀ s : Manager, Waiting id p s.core →
      (∀ e ∈ events, Event.quiet id p e = true) →
      Waiting id p (WS.run accepts s events).core := by
  induction events with
  | nil => intro s h _; exact h
  | cons e rest ih =>
    intro s h hq
    obtain ⟨l, hstep, hcaused⟩ := step_coreStep accepts s e
    have hqe := hq e (List.mem_cons_self _ _)
    refine ih (WS.step accepts s e) (h.waiting_step hstep ?_ ?_ ?_ ?_ ?_)
      (fun e1 he1 => hq e1 (List.mem_cons_of_mem _ he1))
    · intro hl
      subst hl
      simp only [Caused] at hcaused
      subst hcaused
      simp [Event.quiet] at hqe
    · intro hl
      subst hl
      obtain ⟨type, data, he⟩ := hcaused
      subst he
      simp [Event.quiet] at hqe
    · intro hl
      subst hl
      obtain ⟨m, he, hm⟩ := hcaused
      subst he
      simp [Event.quiet, hm] at hqe
    · intro hl
      subst hl
      obtain ⟨wsUrl, throws, he⟩ := hcaused
      subst he
      simp [Event.quiet] at hqe
    · intro hl
      subst hl
      obtain ⟨wsUrl, throws, he⟩ := hcaused
      subst he
      simp [Event.quiet] at hqe

theorem pendingFor_of_entry (s : Manager) (id p : Nat) (hid : id ≠ 0)
    (h : ∃ pending, s.pendingRequests = some pending ∧ mapGet pending id = some p) :
    pendingFor s (some id) = some (id, p) := by
  obtain ⟨pending, hp, hg⟩ := h
  simp [pendingFor, hp, hid, hg]

/-- A request timer that fires while its request is waiting rejects the
promise with `Request timeout` and removes the pending entry. -/
theorem fireTimeout_of_waiting (s : Manager) (wsUrl : String) (throws : Bool) (id p : Nat)
    (hw : Waiting id p s.core) :
    (fireTimeout s wsUrl throws (.requestTimeout id p)).promises[p]?
      = some (some (.rejected "Request timeout")) ∧
    NoEntry id (fireTimeout s wsUrl throws (.requestTimeout id p)).core := by
  obtain ⟨pending, hp, hg⟩ := hw.entry
  replace hp : s.pendingRequests = some pending := hp
  have hpend : s.promises[p]? = some none := hw.pending
  have hhas : mapHas pending id = true := by simp [mapHas, hg]
  unfold fireTimeout
  cases hf : s.timeouts.find? (fun t => t.callback == Callback.requestTimeout id p) with
  | none =>
    have h := List.find?_eq_none.mp hf _ hw.timer
    simp at h
  | some t =>
    simp only [runCallback, hp, hhas, if_true]
    refine ⟨settle_get_pending _ _ _ hpend, ?_⟩
    intro pending1 hp1
    simp only [Manager.core, Option.some.injEq] at hp1
    subst hp1
    simp [mapGet_mapDelete]

/-- A request timer that fires when there is no pending entry for its id
does nothing; it only leaves the timer list. -/
theorem fireTimeout_of_noEntry (s : Manager) (wsUrl : String) (throws : Bool) (id p : Nat)
    (hn : NoEntry id s.core) :
    fireTimeout s wsUrl throws (.requestTimeout id p)
      = { s with timeouts := (fireTimeout s wsUrl throws (.requestTimeout id p)).timeouts } := by
  unfold fireTimeout
  cases hf : s.timeouts.find? (fun t => t.callback == Callback.requestTimeout id p) with
  | none => rfl
  | some t =>
    simp only [runCallback]
    cases hp : s.pendingRequests with
    | none => rfl
    | some pending =>
      have hg : mapHas pending id = false := by
        simp [mapHas, hn pending hp]
      simp only [hg, Bool.false_eq_true, if_false]

/-- A reply that arrives while its request is waiting settles the promise,
with the reply's error if it carries one and with its data otherwise, and
removes the pending entry. -/
theorem handleMessage_of_waiting (s : Manager) (reply : Message) (id p : Nat) (hid : id ≠ 0)
    (hreply : reply.id = some id) (hw : Waiting id p s.core) :
    (handleMessage s reply).promises[p]?
      = some (some (match errorOf reply with
          | some e => Settlement.rejected e
          | none => Settlement.resolved reply.data)) ∧
    NoEntry id (handleMessage s reply).core := by
  have hpf : pendingFor s reply.id = some (id, p) := by
    rw [hreply]
    exact pendingFor_of_entry s id p hid hw.entry
  have hpend : s.promises[p]? = some none := hw.pending
  obtain ⟨pending, hp, hg⟩ := hw.entry
  replace hp : s.pendingRequests = some pending := hp
  unfold handleMessage
  simp only [hpf]
  cases errorOf reply with
  | none =>
    refine ⟨settle_get_pending _ _ _ hpend, ?_⟩
    intro pending1 hp1
    simp only [Manager.core, hp, Option.map_some', Option.some.injEq] at hp1
    subst hp1
    simp [mapGet_mapDelete]
  | some e =>
    refine ⟨settle_get_pending _ _ _ hpend, ?_⟩
    intro pending1 hp1
    simp only [Manager.core, hp, Option.map_some', Option.some.injEq] at hp1
    subst hp1
    simp [mapGet_mapDelete]

/-- The life of a request when `destroy()` is not called (what holds of C9):
`request(type, data)` with a fresh id `id` (not 0, carried by no pending
timer) on a well-formed manager registers a timer of 30000 ms. Whatever events
follow that are not `destroy`, a reply with this id, a further request with
this id or the firing of the timer itself, the returned promise is still
pending, its pending entry and its timer are still there. When the timer fires
in such a state, the promise is rejected with `Request timeout` and the
pending entry for the id is removed. When instead a reply with the id
arrives, the promise is settled (rejected with the reply's error, otherwise
resolved with its data) and the entry is removed, and a later firing of the
timer changes nothing but the timer list. -/
theorem request_timeout_or_reply (accepts : Nat → Message → Bool) (s : Manager)
    (type data : String) (id : Nat) (events later : List Event) (wsUrl : String)
    (throws : Bool) (reply : Message)
    (hid : id ≠ 0) (hwf : WellFormed s.core)
    (hfresh : ∀ t ∈ s.timeouts, ∀ q, t.callback ≠ Callback.requestTimeout id q)
    (hquiet : ∀ e ∈ events, Event.quiet id (request accepts s type data id).2 e = true)
    (hreply : reply.id = some id)
    (hlater : ∀ e ∈ later, ∀ type1 data1, e ≠ Event.request type1 data1 id) :
    ∀ p s1 s2, p = (request accepts s type data id).2 →
      s1 = run accepts (request accepts s type data id).1 events →
      s2 = run accepts (handleMessage s1 reply) later →
      (⟨30000, .requestTimeout id p⟩ : Timeout) ∈ (request accepts s type data id).1.timeouts ∧
      s1.promises[p]? = some none ∧
      pendingFor s1 (some id) = some (id, p) ∧
      (⟨30000, .requestTimeout id p⟩ : Timeout) ∈ s1.timeouts ∧
      (fireTimeout s1 wsUrl throws (.requestTimeout id p)).promises[p]?
        = some (some (.rejected "Request timeout")) ∧
      pendingFor (fireTimeout s1 wsUrl throws (.requestTimeout id p)) (some id) = none ∧
      (handleMessage s1 reply).promises[p]?
        = some (some (match errorOf reply with
            | some e => Settlement.rejected e
            | none => Settlement.resolved reply.data)) ∧
      pendingFor (handleMessage s1 reply) (some id) = none ∧
      fireTimeout s2 wsUrl throws (.requestTimeout id p)
        = { s2 with timeouts := (fireTimeout s2 wsUrl throws (.requestTimeout id p)).timeouts } := by
  intro p s1 s2 hp hs1 hs2
  have hp1 : p = s.promises.length := hp
  have hw0 : Waiting id p (request accepts s type data id).1.core := by
    rw [request_core, hp1]
    exact Waiting.of_request s.core id hwf hfresh
  have hw1 : Waiting id p s1.core := by
    rw [hs1]
    exact Waiting.waiting_run accepts id p events _ hw0 (by rw [hp]; exact hquiet)
  have hfire := fireTimeout_of_waiting s1 wsUrl throws id p hw1
  have hrep := handleMessage_of_waiting s1 reply id p hid hreply hw1
  have hn2 : NoEntry id s2.core := by
    rw [hs2]
    exact NoEntry.noEntry_run accepts id later _ hrep.2 hlater
  exact ⟨hw0.timer, hw1.pending, pendingFor_of_entry s1 id p hid hw1.entry, hw1.timer,
    hfire.1, pendingFor_none _ id hfire.2, hrep.1, pendingFor_none _ id hrep.2,
    fireTimeout_of_noEntry s2 wsUrl throws id p hn2⟩

/-- The life of a request on a fresh manager: its socket opens and an
unrelated message arrives before its timer fires. -/
theorem request_timeout_or_reply_witness :
    (fireTimeout
      (run (fun _ _ => true)
        (request (fun _ _ => true) (Manager.new [] "ws://panel.example/api/websocket" false)
          "getStats" "" 1730000000000).1
        [.opened, .message ⟨"notification", "hello", none, none, none, none⟩])
      "" false (.requestTimeout 1730000000000 0)).promises[0]?
      = some (some (.rejected "Request timeout")) :=
  (request_timeout_or_reply (fun _ _ => true)
    (Manager.new [] "ws://panel.example/api/websocket" false) "getStats" "" 1730000000000
    [.opened, .message ⟨"notification", "hello", none, none, none, none⟩] [] "" false
    ⟨"getStats", "42", some 1730000000000, none, none, none⟩
    (by decide)
    (wellFormed_reachable (fun _ _ => true) [] "ws://panel.example/api/websocket" false [])
    (by simp [Manager.new, connect, setupEventHandlers, registerEventHandler])
    (by decide) rfl (by simp) 0 _ _ rfl rfl rfl).2.2.2.2.1

/-- C9, on a manager whose socket has opened: `request('getPlayers')` gets no
reply. When nothing else happens, the firing of its timer rejects the promise
with `Request timeout`, as claimed. When `destroy()` is called before the
timer fires, the pending entry is removed by `destroy`, and the firing of the
timer does not reject the promise: it is still pending. -/
theorem request_timeout_skipped_after_destroy :
    (run (fun _ _ => true) (Manager.new [] "ws://panel.example/api/websocket" false)
      [.opened, .request "getPlayers" "" 1730000000500,
       .timeout (.requestTimeout 1730000000500 0) "" false]).promises
      = [some (.rejected "Request timeout")] ∧
    (run (fun _ _ => true) (Manager.new [] "ws://panel.example/api/websocket" false)
      [.opened, .request "getPlayers" "" 1730000000500, .destroy]).pendingRequests
      = some [] ∧
    (run (fun _ _ => true) (Manager.new [] "ws://panel.example/api/websocket" false)
      [.opened, .request "getPlayers" "" 1730000000500, .destroy,
       .timeout (.requestTimeout 1730000000500 0) "" false]).promises = [none] := by
  decide

theorem run_append (accepts : Nat → Message → Bool) (s : Manager) (xs ys : List Event) :
    run accepts s (xs ++ ys) = run accepts (run accepts s xs) ys := by
  simp [run, List.foldl_append]

/-- A pending promise that no pending entry and no request timer refers to
stays pending, whatever happens to the manager. -/
theorem abandoned_stays_pending (accepts : Nat → Message → Bool) (p : Nat)
    (events : List Event) :
    ∀ s : Manager, Exclusive none p s.core → s.promises[p]? = some none →
      (run accepts s events).promises[p]? = some none := by
  induction events with
  | nil => intro s _ h; exact h
  | cons e rest ih =>
    intro s hx hp
    have hlt : p < s.core.promises.length := by
      by_contra hge
      have hp1 : s.core.promises[p]? = some none := hp
      rw [List.getElem?_eq_none (by omega)] at hp1
      cases hp1
    obtain ⟨l, hstep, _⟩ := step_coreStep accepts s e
    exact ih (step accepts s e) (hx.exclusive_step hstep hlt)
      (hstep.keeps_pending hx hp (fun i _ h => by cases h) (fun i q _ h => by cases h))

/-- C10, on a fresh manager: `request('getStats')` returns promise number 0,
then `destroy()` is called, then the 30 s timer of the request fires. The
timer finds no pending entry and does not reject: after its firing no timer
is left and the promise is still pending, and it stays pending whatever
events follow. -/
theorem request_destroy_leaves_promise_pending (accepts : Nat → Message → Bool)
    (later : List Event) :
    (request accepts (Manager.new [] "ws://panel.example/api/websocket" false)
      "getStats" "" 1730000000000).2 = 0 ∧
    (run accepts (Manager.new [] "ws://panel.example/api/websocket" false)
      [.request "getStats" "" 1730000000000, .destroy]).timeouts
      = [⟨30000, .requestTimeout 1730000000000 0⟩] ∧
    (run accepts (Manager.new [] "ws://panel.example/api/websocket" false)
      [.request "getStats" "" 1730000000000, .destroy,
       .timeout (.requestTimeout 1730000000000 0) "" false]).timeouts = [] ∧
    (run accepts (Manager.new [] "ws://panel.example/api/websocket" false)
      ([.request "getStats" "" 1730000000000, .destroy,
        .timeout (.requestTimeout 1730000000000 0) "" false] ++ later)).promises[0]?
      = some none := by
  have hcore : (run accepts (Manager.new [] "ws://panel.example/api/websocket" false)
      [.request "getStats" "" 1730000000000, .destroy,
       .timeout (.requestTimeout 1730000000000 0) "" false]).core = ⟨some [], [none], []⟩ := by
    rfl
  refine ⟨rfl, rfl, congrArg Core.timeouts hcore, ?_⟩
  rw [run_append]
  apply abandoned_stays_pending
  · rw [hcore]
    refine ⟨?_, by simp⟩
    intro pending i hp hg
    simp only [Option.some.injEq] at hp
    subst hp
    simp [mapGet] at hg
  · exact congrArg (fun c => c.promises[0]?) hcore

/-! ## The subscription set of `WebUIWebSocketManager` (C11) -/

theorem send_subscriptions (accepts : Nat → Message → Bool) (s : Manager) (m : Message) :
    (send accepts s m).1.subscriptions = s.subscriptions := by
  unfold send
  split_ifs <;> rfl

theorem processMessageQueue_subscriptions (accepts : Nat → Message → Bool) (s : Manager) :
    (processMessageQueue accepts s).subscriptions = s.subscriptions := by
  by_cases h : s.isConnected = true
  · rw [processMessageQueue_connected accepts s h]
  · simp only [Bool.not_eq_true] at h
    rw [processMessageQueue_disconnected accepts s h]

theorem authenticate_subscriptions (accepts : Nat → Message → Bool) (s : Manager) :
    (authenticate accepts s).subscriptions = s.subscriptions := by
  unfold authenticate
  split
  · split_ifs
    · exact send_subscriptions accepts s _
    · rfl
  · rfl

theorem onopen_subscriptions (accepts : Nat → Message → Bool) (s : Manager) :
    (onopen accepts s).subscriptions = s.subscriptions := by
  unfold onopen
  simp only [notifyConnectionStatus, startHeartbeat, processMessageQueue_subscriptions,
    authenticate_subscriptions]

theorem stopHeartbeat_subscriptions (s : Manager) :
    (stopHeartbeat s).subscriptions = s.subscriptions := by
  unfold stopHeartbeat
  split <;> rfl

theorem connect_subscriptions (s : Manager) (wsUrl : String) (constructorThrows : Bool) :
    (connect s wsUrl constructorThrows).subscriptions = s.subscriptions := by
  unfold connect
  split_ifs <;> rfl

theorem onclose_subscriptions (s : Manager) (wasClean : Bool) :
    (onclose s wasClean).subscriptions = s.subscriptions := by
  unfold onclose
  simp only [notifyConnectionStatus]
  cases wasClean
  · simp only [Bool.not_false, if_true]
    unfold handleConnectionLoss
    split_ifs
    · exact stopHeartbeat_subscriptions _
    · exact stopHeartbeat_subscriptions _
  · simp only [Bool.not_true, if_false]
    exact stopHeartbeat_subscriptions _

theorem handleMessage_subscriptions (s : Manager) (m : Message) :
    (handleMessage s m).subscriptions = s.subscriptions := by
  unfold handleMessage
  split
  · split <;> rfl
  · split
    · split_ifs <;> rfl
    · rfl

theorem fireTimeout_subscriptions (s : Manager) (wsUrl : String) (throws : Bool)
    (cb : Callback) :
    (fireTimeout s wsUrl throws cb).subscriptions = s.subscriptions := by
  unfold fireTimeout
  split
  · cases cb with
    | reconnect =>
      simp only [runCallback, connect_subscriptions]
    | requestTimeout id q =>
      simp only [runCallback]
      split
      · split_ifs <;> rfl
      · rfl
  · rfl

theorem request_subscriptions (accepts : Nat → Message → Bool) (s : Manager)
    (type data : String) (id : Nat) :
    (request accepts s type data id).1.subscriptions = s.subscriptions := by
  unfold request
  simp only [send_subscriptions]

theorem heartbeatTick_subscriptions (accepts : Nat → Message → Bool) (s : Manager)
    (handle : Nat) :
    (heartbeatTick accepts s handle).subscriptions = s.subscriptions := by
  unfold heartbeatTick
  split_ifs
  · exact send_subscriptions accepts s _
  · rfl

theorem step_subscribed (accepts : Nat → Message → Bool) (s : Manager) (e : Event)
    (channel : String) :
    mapHas (step accepts s e).subscriptions channel =
      subscribedStep channel (mapHas s.subscriptions channel) e := by
  cases e with
  | send m => simp only [step, subscribedStep, send_subscriptions]
  | request type data id => simp only [step, subscribedStep, request_subscriptions]
  | message m => simp only [step, subscribedStep, handleMessage_subscriptions]
  | opened => simp only [step, subscribedStep, onopen_subscriptions]
  | closed wasClean => simp only [step, subscribedStep, onclose_subscriptions]
  | errored => simp only [step, subscribedStep]; rfl
  | timeout cb wsUrl throws => simp only [step, subscribedStep, fireTimeout_subscriptions]
  | tick handle => simp only [step, subscribedStep, heartbeatTick_subscriptions]
  | subscribe c =>
    simp only [step, subscribedStep, subscribe, mapHas, mapGet_mapSet, send_subscriptions]
    split_ifs <;> rfl
  | unsubscribe c =>
    simp only [step, subscribedStep, unsubscribe, mapHas, mapGet_mapDelete, send_subscriptions]
    split_ifs <;> rfl
  | registerEventHandler type handler => rfl
  | unregisterEventHandler type => rfl
  | destroy => rfl

theorem run_subscribed (accepts : Nat → Message → Bool) (channel : String)
    (events : List Event) :
    ∀ s : Manager, mapHas (run accepts s events).subscriptions channel =
      subscribedAfter channel (mapHas s.subscriptions channel) events := by
  induction events with
  | nil => intro s; rfl
  | cons e rest ih =>
    intro s
    have h := ih (step accepts s e)
    rw [step_subscribed] at h
    simpa [run, subscribedAfter] using h

theorem authenticateFrames_type (localStorage : List (String × String)) :
    ∀ m ∈ authenticateFrames localStorage, m.type = "authenticate" := by
  intro m hm
  unfold authenticateFrames at hm
  split at hm
  · split_ifs at hm
    · simp only [List.mem_singleton] at hm
      rw [hm]
    · cases hm
  · cases hm

/-- C11, as the code has it: after any sequence of events a channel is in the
subscription set exactly when it was passed to `subscribe` and since then
neither passed to `unsubscribe` nor dropped by `destroy`; an open event leaves
the set as it is and hands to the socket the `authenticate` frame and the
queued messages only, so the only `subscribe` frames it sends are those that
were waiting in the queue. -/
theorem onopen_sends_queue_only (accepts : Nat → Message → Bool) (s : Manager)
    (events : List Event) (channel : String) :
    mapHas (run accepts s events).subscriptions channel =
      subscribedAfter channel (mapHas s.subscriptions channel) events ∧
    (onopen accepts s).subscriptions = s.subscriptions ∧
    (∃ frames, (onopen accepts s).attempted = s.attempted ++ frames ∧
      ∀ m ∈ frames, m.type = "subscribe" → m ∈ s.messageQueue) := by
  refine ⟨run_subscribed accepts channel events s, onopen_subscriptions accepts s,
    authenticateFrames s.localStorage ++ s.messageQueue, (onopen_queue accepts s).2.1, ?_⟩
  intro m hm hsub
  rcases List.mem_append.mp hm with h | h
  · have := authenticateFrames_type s.localStorage m h
    rw [this] at hsub
    exact absurd hsub (by decide)
  · exact h

theorem onopen_sends_queue_only_witness :
    mapHas (run (fun _ _ => true) (Manager.new [] "ws://host/ws" false)
        resubscribeTrace).subscriptions "console" = true ∧
    (onopen (fun _ _ => true)
        (run (fun _ _ => true) (Manager.new [] "ws://host/ws" false)
          (resubscribeTrace.take 4))).subscriptions = [("console", true)] :=
  ⟨(onopen_sends_queue_only (fun _ _ => true) (Manager.new [] "ws://host/ws" false)
      resubscribeTrace "console").1.trans (by decide),
   (onopen_sends_queue_only (fun _ _ => true)
      (run (fun _ _ => true) (Manager.new [] "ws://host/ws" false) (resubscribeTrace.take 4))
      [] "console").2.1.trans (by decide)⟩

/-- C11 does not hold as stated: a manager that subscribed to `console` while
connected and is then reconnected still has `console` in its subscription set,
but the second open event sends nothing, so the only `subscribe` frame ever
transmitted is the one of the original call. -/
theorem onopen_does_not_resubscribe :
    (run (fun _ _ => true) (Manager.new [] "ws://host/ws" false) resubscribeTrace).subscriptions
      = [("console", true)] ∧
    (run (fun _ _ => true) (Manager.new [] "ws://host/ws" false) resubscribeTrace).isConnected
      = true ∧
    (run (fun _ _ => true) (Manager.new [] "ws://host/ws" false) resubscribeTrace).transmitted
      = [⟨"subscribe", "", none, none, none, some "console"⟩] ∧
    (run (fun _ _ => true) (Manager.new [] "ws://host/ws" false)
        (resubscribeTrace.take 4)).transmitted
      = [⟨"subscribe", "", none, none, none, some "console"⟩] := by
  decide

/-! ## Reconnection of `WebUIWebSocketManager` (C21, C22) -/

theorem onopen_backoff (accepts : Nat → Message → Bool) (s : Manager) :
    (onopen accepts s).backoff = ⟨0, s.maxReconnectAttempts, 1000, s.timeouts, s.alerts⟩ := by
  unfold onopen
  simp only [notifyConnectionStatus, startHeartbeat]
  rw [authenticate_connected accepts _ rfl, processMessageQueue_connected accepts _ rfl]
  rfl

theorem stopHeartbeat_backoff (s : Manager) : (stopHeartbeat s).backoff = s.backoff := by
  unfold stopHeartbeat
  split <;> rfl

theorem connect_backoff (s : Manager) (wsUrl : String) (constructorThrows : Bool) :
    (connect s wsUrl constructorThrows).backoff = s.backoff := by
  unfold connect
  split_ifs <;> rfl

theorem onclose_backoff (s : Manager) (wasClean : Bool) :
    (onclose s wasClean).backoff =
      ⟨s.reconnectAttempts, s.maxReconnectAttempts, s.reconnectDelay,
       s.timeouts ++ (if wasClean = false ∧ s.reconnectAttempts < s.maxReconnectAttempts
         then [⟨s.reconnectDelay, Callback.reconnect⟩] else []),
       s.alerts ++ (if wasClean = false ∧ ¬ s.reconnectAttempts < s.maxReconnectAttempts
         then ["Verbindung verloren"] else [])⟩ := by
  unfold onclose
  simp only [notifyConnectionStatus]
  generalize hs2 : stopHeartbeat _ = s2
  have hb : s2.backoff = s.backoff := by
    rw [← hs2, stopHeartbeat_backoff]
    rfl
  simp only [Manager.backoff, Backoff.mk.injEq] at hb
  obtain ⟨h1, h2, h3, h4, h5⟩ := hb
  cases wasClean
  · simp only [Bool.not_false, if_true, true_and]
    unfold handleConnectionLoss
    by_cases hlt : s.reconnectAttempts < s.maxReconnectAttempts
    · have hlt2 : s2.reconnectAttempts < s2.maxReconnectAttempts := by rw [h1, h2]; exact hlt
      simp [Manager.backoff, hlt, hlt2, h1, h2, h3, h4, h5]
    · have hlt2 : ¬ s2.reconnectAttempts < s2.maxReconnectAttempts := by rw [h1, h2]; exact hlt
      simp [Manager.backoff, hlt, hlt2, h1, h2, h3, h4, h5]
  · simp [Manager.backoff, h1, h2, h3, h4, h5]

theorem fireTimeout_reconnect_backoff (s : Manager) (wsUrl : String) (throws : Bool)
    (t : Timeout) (h : s.timeouts.find? (fun t => t.callback == Callback.reconnect) = some t) :
    (fireTimeout s wsUrl throws .reconnect).backoff =
      ⟨s.reconnectAttempts + 1, s.maxReconnectAttempts, s.reconnectDelay * 2,
       s.timeouts.erase t, s.alerts⟩ := by
  unfold fireTimeout
  rw [h]
  simp only [runCallback, connect_backoff]
  rfl

/-- One failed attempt: an unclean close below the bound schedules a reconnect
with the current delay, and its firing counts the attempt and doubles the
delay. -/
theorem closed_then_reconnect (s : Manager) (wsUrl : String) (throws : Bool)
    (hnone : ∀ t ∈ s.timeouts, t.callback ≠ Callback.reconnect)
    (hlt : s.reconnectAttempts < s.maxReconnectAttempts) :
    (onclose s false).backoff =
      ⟨s.reconnectAttempts, s.maxReconnectAttempts, s.reconnectDelay,
       s.timeouts ++ [⟨s.reconnectDelay, Callback.reconnect⟩], s.alerts⟩ ∧
    (fireTimeout (onclose s false) wsUrl throws .reconnect).backoff =
      ⟨s.reconnectAttempts + 1, s.maxReconnectAttempts, s.reconnectDelay * 2,
       s.timeouts, s.alerts⟩ := by
  have hc := onclose_backoff s false
  simp only [hlt, and_self, if_true, not_true_eq_false, and_false, if_false,
    List.append_nil] at hc
  refine ⟨hc, ?_⟩
  simp only [Manager.backoff, Backoff.mk.injEq] at hc
  obtain ⟨c1, c2, c3, c4, c5⟩ := hc
  have hnot : (⟨s.reconnectDelay, Callback.reconnect⟩ : Timeout) ∉ s.timeouts := by
    intro hmem
    exact hnone _ hmem rfl
  have hfind : (onclose s false).timeouts.find? (fun t => t.callback == Callback.reconnect)
      = some ⟨s.reconnectDelay, Callback.reconnect⟩ := by
    rw [c4, List.find?_append]
    have : s.timeouts.find? (fun t => t.callback == Callback.reconnect) = none := by
      rw [List.find?_eq_none]
      intro t ht
      simpa using hnone t ht
    rw [this]
    simp
  rw [fireTimeout_reconnect_backoff _ wsUrl throws _ hfind, c1, c2, c3, c4, c5,
    List.erase_append_right _ hnot]
  simp

theorem run_failedAttempts (accepts : Nat → Message → Bool) (wsUrl : String) (k : Nat) :
    ∀ s : Manager, (∀ t ∈ s.timeouts, t.callback ≠ Callback.reconnect) →
      s.reconnectAttempts + k ≤ s.maxReconnectAttempts →
      (run accepts s (failedAttempts wsUrl k)).backoff =
        ⟨s.reconnectAttempts + k, s.maxReconnectAttempts, s.reconnectDelay * 2 ^ k,
         s.timeouts, s.alerts⟩ := by
  induction k with
  | zero =>
    intro s _ _
    simp [failedAttempts, run, Manager.backoff]
  | succ k ih =>
    intro s hnone hle
    have hstep : run accepts s (failedAttempts wsUrl (k + 1)) =
        run accepts (fireTimeout (onclose s false) wsUrl false .reconnect)
          (failedAttempts wsUrl k) := rfl
    obtain ⟨_, h2⟩ := closed_then_reconnect s wsUrl false hnone (by omega)
    simp only [Manager.backoff, Backoff.mk.injEq] at h2
    obtain ⟨c1, c2, c3, c4, c5⟩ := h2
    rw [hstep, ih _ (by rw [c4]; exact hnone) (by rw [c1, c2]; omega), c1, c2, c3, c4, c5]
    simp only [Backoff.mk.injEq, and_true, true_and]
    constructor
    · omega
    · rw [pow_succ]
      ring

/-- C21, as the code has it: a close event with `wasClean = true` schedules
nothing; one with `wasClean = false` schedules a reconnect with the current
delay while `reconnectAttempts` is below the bound and raises the alert
otherwise. Starting with the counter at 0 and the delay at 1000 (as after the
constructor or an open event) and with every attempt failing, the delay
scheduled before the n-th attempt (n = 1..5) is `2 ^ (n - 1) * 1000` ms: 1000,
2000, 4000, 8000, 16000. -/
theorem reconnect_delay_doubles (accepts : Nat → Message → Bool) (s : Manager)
    (wsUrl : String) (n : Nat)
    (h0 : s.reconnectAttempts = 0) (hd : s.reconnectDelay = 1000)
    (hmax : s.maxReconnectAttempts = 5)
    (hnone : ∀ t ∈ s.timeouts, t.callback ≠ Callback.reconnect)
    (h1 : 1 ≤ n) (h5 : n ≤ 5) :
    (run accepts s (failedAttempts wsUrl (n - 1) ++ [.closed false])).timeouts =
      s.timeouts ++ [⟨2 ^ (n - 1) * 1000, Callback.reconnect⟩] ∧
    (run accepts s (failedAttempts wsUrl (n - 1) ++ [.closed false])).reconnectAttempts
      = n - 1 ∧
    (∀ s1 : Manager, (onclose s1 true).timeouts = s1.timeouts ∧
      (onclose s1 true).alerts = s1.alerts) ∧
    (∀ s1 : Manager, s1.reconnectAttempts < s1.maxReconnectAttempts →
      (onclose s1 false).timeouts = s1.timeouts ++ [⟨s1.reconnectDelay, Callback.reconnect⟩]) := by
  have hk := run_failedAttempts accepts wsUrl (n - 1) s hnone (by omega)
  simp only [Manager.backoff, Backoff.mk.injEq] at hk
  obtain ⟨k1, k2, k3, k4, k5⟩ := hk
  have hrun : run accepts s (failedAttempts wsUrl (n - 1) ++ [.closed false]) =
      onclose (run accepts s (failedAttempts wsUrl (n - 1))) false := by
    rw [run_append]
    rfl
  have hc := onclose_backoff (run accepts s (failedAttempts wsUrl (n - 1))) false
  simp only [Manager.backoff, Backoff.mk.injEq] at hc
  obtain ⟨c1, _, _, c4, _⟩ := hc
  have hlt : (run accepts s (failedAttempts wsUrl (n - 1))).reconnectAttempts <
      (run accepts s (failedAttempts wsUrl (n - 1))).maxReconnectAttempts := by
    rw [k1, k2]
    omega
  refine ⟨?_, ?_, ?_, ?_⟩
  · rw [hrun, c4, if_pos ⟨trivial, hlt⟩, k4, k3, hd, Nat.mul_comm]
  · rw [hrun, c1, k1, h0]
    omega
  · intro s1
    have h := onclose_backoff s1 true
    simp only [Manager.backoff, Backoff.mk.injEq] at h
    obtain ⟨_, _, _, t4, t5⟩ := h
    constructor
    · rw [t4]
      simp
    · rw [t5]
      simp
  · intro s1 hlt1
    have h := onclose_backoff s1 false
    simp only [Manager.backoff, Backoff.mk.injEq] at h
    obtain ⟨_, _, _, t4, _⟩ := h
    rw [t4, if_pos ⟨trivial, hlt1⟩]

theorem reconnect_delay_doubles_witness :
    (run (fun _ _ => true) (Manager.new [] "ws://panel.example/api/websocket" false)
      (failedAttempts "ws://panel.example/api/websocket" 2 ++ [.closed false])).timeouts =
      [⟨4000, Callback.reconnect⟩] :=
  (reconnect_delay_doubles (fun _ _ => true)
    (Manager.new [] "ws://panel.example/api/websocket" false)
    "ws://panel.example/api/websocket" 3 (by decide) (by decide) (by decide) (by decide)
    (by decide) (by decide)).1

/-- C21 does not hold as stated: the delay scheduled before the first
reconnection attempt is 1000 ms, not `2 ^ 1 * 1000`, and the one before the
fifth is 16000 ms, not `2 ^ 5 * 1000`. -/
theorem reconnect_first_delay :
    (run (fun _ _ => true) (Manager.new [] "ws://panel.example/api/websocket" false)
      [.closed false]).timeouts = [⟨1000, Callback.reconnect⟩] ∧
    (run (fun _ _ => true) (Manager.new [] "ws://panel.example/api/websocket" false)
      (failedAttempts "ws://panel.example/api/websocket" 4 ++ [.closed false])).timeouts =
      [⟨16000, Callback.reconnect⟩] ∧
    (run (fun _ _ => true) (Manager.new [] "ws://panel.example/api/websocket" false)
      (failedAttempts "ws://panel.example/api/websocket" 4)).reconnectAttempts = 4 := by
  decide

theorem manager_new_backoff (localStorage : List (String × String)) (wsUrl : String)
    (throws : Bool) :
    (Manager.new localStorage wsUrl throws).backoff = ⟨0, 5, 1000, [], []⟩ := by
  unfold Manager.new
  rw [connect_backoff]
  rfl

theorem steady_new (localStorage : List (String × String)) (wsUrl : String) (throws : Bool) :
    Steady (if throws then 0 else 1) (Manager.new localStorage wsUrl throws).backoff := by
  rw [manager_new_backoff]
  refine ⟨rfl, ?_, Nat.zero_le _, Or.inl ⟨?_, rfl⟩⟩
  · show 1000 = 2 ^ 0 * 1000
    norm_num
  · cases throws <;> decide

/-- The reconnect logic keeps `Steady` along every sequence of open events,
close events and reconnect firings that can happen. -/
theorem steady_run (accepts : Nat → Message → Bool) (events : List Event) :
    ∀ (sockets : Nat) (s : Manager), Steady sockets s.backoff →
      socketTrace accepts sockets s events = true →
      ∃ sockets1, Steady sockets1 (run accepts s events).backoff := by
  induction events with
  | nil => intro sockets s hs _; exact ⟨sockets, hs⟩
  | cons e rest ih =>
    intro sockets s hs htrace
    obtain ⟨hmax, hdelay, hle, hphase⟩ := hs
    have hrun : run accepts s (e :: rest) = run accepts (step accepts s e) rest := rfl
    rw [hrun]
    cases e with
    | opened =>
      simp only [socketTrace, Bool.and_eq_true, decide_eq_true_eq] at htrace
      refine ih sockets _ ?_ htrace.2
      have hb : (step accepts s .opened).backoff
          = ⟨0, s.maxReconnectAttempts, 1000, s.timeouts, s.alerts⟩ := onopen_backoff accepts s
      rw [hb]
      refine ⟨hmax, ?_, Nat.zero_le _, ?_⟩
      · show 1000 = 2 ^ 0 * 1000
        norm_num
      rcases hphase with ⟨h1, h2⟩ | ⟨h1, _, _⟩
      · exact Or.inl ⟨h1, h2⟩
      · omega
    | closed wasClean =>
      simp only [socketTrace, Bool.and_eq_true, decide_eq_true_eq] at htrace
      refine ih (sockets - 1) _ ?_ htrace.2
      have hb : (step accepts s (.closed wasClean)).backoff = _ := onclose_backoff s wasClean
      rw [hb]
      rcases hphase with ⟨h1, h2⟩ | ⟨h1, _, _⟩
      · have h2' : s.timeouts = [] := h2
        refine ⟨hmax, hdelay, hle, ?_⟩
        by_cases hc : wasClean = false ∧ s.reconnectAttempts < s.maxReconnectAttempts
        · right
          refine ⟨by omega, ?_, ?_⟩
          · have := hc.2
            rw [show s.maxReconnectAttempts = 5 from hmax] at this
            exact this
          · simp only [hc, and_self, if_true, h2', List.nil_append]
        · left
          refine ⟨by omega, ?_⟩
          simp only [hc, if_false, h2', List.append_nil]
      · omega
    | timeout callback wsUrl throws =>
      cases callback with
      | requestTimeout id p => simp [socketTrace] at htrace
      | reconnect =>
        simp only [socketTrace, Bool.and_eq_true] at htrace
        rcases hphase with ⟨_, h2⟩ | ⟨h1, h2, h3⟩
        · have h2' : s.timeouts = [] := h2
          rw [h2'] at htrace
          simp at htrace
        · have h3' : s.timeouts = [⟨s.reconnectDelay, Callback.reconnect⟩] := h3
          have hfind : s.timeouts.find? (fun t => t.callback == Callback.reconnect)
              = some ⟨s.reconnectDelay, Callback.reconnect⟩ := by
            rw [h3']
            simp
          refine ih _ _ ?_ htrace.2
          have hb : (step accepts s (.timeout .reconnect wsUrl throws)).backoff = _ :=
            fireTimeout_reconnect_backoff s wsUrl throws _ hfind
          rw [hb]
          refine ⟨hmax, ?_, ?_, Or.inl ⟨?_, ?_⟩⟩
          · have hd : s.reconnectDelay = 2 ^ s.reconnectAttempts * 1000 := hdelay
            simp only [hd, pow_succ]
            ring
          · have : s.reconnectAttempts < 5 := h2
            show s.reconnectAttempts + 1 ≤ 5
            omega
          · rw [h1]
            cases throws <;> decide
          · simp only [h3', List.erase_cons_head]
    | send m => simp [socketTrace] at htrace
    | request type data id => simp [socketTrace] at htrace
    | message m => simp [socketTrace] at htrace
    | errored => simp [socketTrace] at htrace
    | tick handle => simp [socketTrace] at htrace
    | subscribe c => simp [socketTrace] at htrace
    | unsubscribe c => simp [socketTrace] at htrace
    | registerEventHandler type handler => simp [socketTrace] at htrace
    | unregisterEventHandler type => simp [socketTrace] at htrace
    | destroy => simp [socketTrace] at htrace

/-- C22: in every state that a manager reaches from its construction through
open events, close events and firings of its reconnect timers (each socket
closing at most once), `reconnectAttempts` is at most `maxReconnectAttempts` =
5 and the delay is `2 ^ reconnectAttempts * 1000`; an unclean close at
`reconnectAttempts = 5` raises the alert `Verbindung verloren` and schedules
nothing; an open event sets `reconnectAttempts` to 0 and `reconnectDelay` to
1000. -/
theorem reconnectAttempts_bounded (accepts : Nat → Message → Bool)
    (localStorage : List (String × String)) (wsUrl : String) (throws : Bool)
    (events : List Event)
    (htrace : socketTrace accepts (if throws then 0 else 1)
      (Manager.new localStorage wsUrl throws) events = true) :
    (run accepts (Manager.new localStorage wsUrl throws) events).reconnectAttempts ≤ 5 ∧
    (run accepts (Manager.new localStorage wsUrl throws) events).maxReconnectAttempts = 5 ∧
    (run accepts (Manager.new localStorage wsUrl throws) events).reconnectDelay =
      2 ^ (run accepts (Manager.new localStorage wsUrl throws) events).reconnectAttempts
        * 1000 ∧
    ((run accepts (Manager.new localStorage wsUrl throws) events).reconnectAttempts = 5 →
      (onclose (run accepts (Manager.new localStorage wsUrl throws) events) false).alerts =
        (run accepts (Manager.new localStorage wsUrl throws) events).alerts
          ++ ["Verbindung verloren"] ∧
      (onclose (run accepts (Manager.new localStorage wsUrl throws) events) false).timeouts =
        (run accepts (Manager.new localStorage wsUrl throws) events).timeouts) ∧
    (onopen accepts (run accepts (Manager.new localStorage wsUrl throws) events)).reconnectAttempts
      = 0 ∧
    (onopen accepts (run accepts (Manager.new localStorage wsUrl throws) events)).reconnectDelay
      = 1000 := by
  obtain ⟨sockets1, hmax, hdelay, hle, _⟩ :=
    steady_run accepts events _ _ (steady_new localStorage wsUrl throws) htrace
  generalize run accepts (Manager.new localStorage wsUrl throws) events = s at *
  have ho := onopen_backoff accepts s
  simp only [Manager.backoff, Backoff.mk.injEq] at ho
  refine ⟨hle, hmax, hdelay, ?_, ho.1, ho.2.2.1⟩
  intro h5
  have hc := onclose_backoff s false
  simp only [Manager.backoff, Backoff.mk.injEq] at hc
  obtain ⟨_, _, _, c4, c5⟩ := hc
  have hmax' : s.maxReconnectAttempts = 5 := hmax
  have hnot : ¬ s.reconnectAttempts < s.maxReconnectAttempts := by
    rw [h5, hmax']
    decide
  constructor
  · rw [c5]
    simp [hnot]
  · rw [c4]
    simp [hnot]

theorem reconnectAttempts_bounded_witness :
    (run (fun _ _ => true) (Manager.new [] "ws://panel.example/api/websocket" false)
      (failedAttempts "ws://panel.example/api/websocket" 5 ++ [.closed false])).reconnectAttempts
      ≤ 5 :=
  (reconnectAttempts_bounded (fun _ _ => true) [] "ws://panel.example/api/websocket" false
    (failedAttempts "ws://panel.example/api/websocket" 5 ++ [.closed false]) (by decide)).1

/-! ## Authentication and dispatch of `WebUIWebSocketManager` (C23, C24, C25, C28) -/

/-- C23, as the code has it: when a non-empty token is stored under
`webui-auth-token`, the first message an open event hands to the socket is the
`authenticate` frame carrying it, followed by the queued messages in order,
and when its transmission goes through it is the first frame transmitted; when
no token (or an empty one) is stored under that key, no `authenticate` frame is
sent and the queued messages are the only ones handed to the socket. -/
theorem onopen_authenticates_first (accepts : Nat → Message → Bool) (s : Manager) :
    (∀ authToken, mapGet s.localStorage "webui-auth-token" = some authToken →
      authToken ≠ "" →
      (onopen accepts s).attempted = s.attempted ++
        (⟨"authenticate", "", none, none, some authToken, none⟩ :: s.messageQueue) ∧
      (s.websocket.isSome = true →
        accepts s.attempted.length ⟨"authenticate", "", none, none, some authToken, none⟩
          = true →
        (onopen accepts s).transmitted = s.transmitted ++
          (⟨"authenticate", "", none, none, some authToken, none⟩ ::
            delivered accepts true (s.attempted.length + 1) s.messageQueue))) ∧
    ((mapGet s.localStorage "webui-auth-token" = none ∨
        mapGet s.localStorage "webui-auth-token" = some "") →
      (onopen accepts s).attempted = s.attempted ++ s.messageQueue ∧
      (onopen accepts s).transmitted = s.transmitted ++
        delivered accepts s.websocket.isSome s.attempted.length s.messageQueue) := by
  obtain ⟨_, hatt, htr⟩ := onopen_queue accepts s
  constructor
  · intro authToken hget hne
    have hframes : authenticateFrames s.localStorage =
        [⟨"authenticate", "", none, none, some authToken, none⟩] := by
      simp [authenticateFrames, hget, hne]
    rw [hframes] at hatt htr
    refine ⟨hatt, ?_⟩
    intro hsock hacc
    rw [htr, hsock]
    simp [delivered, hacc]
  · intro hnone
    have hframes : authenticateFrames s.localStorage = [] := by
      rcases hnone with h | h <;> simp [authenticateFrames, h]
    rw [hframes] at hatt htr
    exact ⟨hatt, htr⟩

theorem onopen_authenticates_first_witness :
    (run (fun _ _ => true)
      (Manager.new [("webui-auth-token", "secret")] "ws://panel.example/api/websocket" false)
      [.send (chat "hello"), .opened]).transmitted =
      [⟨"authenticate", "", none, none, some "secret", none⟩, chat "hello"] :=
  (((onopen_authenticates_first (fun _ _ => true)
      (run (fun _ _ => true)
        (Manager.new [("webui-auth-token", "secret")] "ws://panel.example/api/websocket" false)
        [.send (chat "hello")])).1 "secret" (by decide) (by decide)).2
    (by decide) (by decide)).trans (by decide)

/-- C23 does not hold as stated: with no token stored under `webui-auth-token`
(here the storage holds the session token that the login writes), an open
event transmits the queued message first and no `authenticate` frame at all. -/
theorem onopen_without_token :
    (run (fun _ _ => true)
      (Manager.new [("webui_session_token", "secret")] "ws://panel.example/api/websocket"
        false)
      [.send (chat "hello"), .opened]).transmitted = [chat "hello"] ∧
    (run (fun _ _ => true)
      (Manager.new [("webui_session_token", "secret")] "ws://panel.example/api/websocket"
        false)
      [.send (chat "hello"), .opened]).attempted = [chat "hello"] := by
  decide

/-- C24: when the id of an inbound message (an id is never 0) has an entry in
`pendingRequests`, `handleMessage` removes that entry and no other, calls
`reject` of the entry's promise with the message's error when the message
carries one and `resolve` with the message's data otherwise, so that a promise
that was pending is settled accordingly, and invokes no event handler and
writes nothing to the console, whatever handlers are registered. -/
theorem handleMessage_reply (s : Manager) (m : Message) (id p : Nat)
    (pending : List (Nat × Nat)) (hid : id ≠ 0) (hm : m.id = some id)
    (hp : s.pendingRequests = some pending) (hg : mapGet pending id = some p) :
    (handleMessage s m).pendingRequests = some (mapDelete pending id) ∧
    mapGet (mapDelete pending id) id = none ∧
    (∀ i, i ≠ id → mapGet (mapDelete pending id) i = mapGet pending i) ∧
    (handleMessage s m).promises = settle s.promises p
      (match errorOf m with
        | some e => Settlement.rejected e
        | none => Settlement.resolved m.data) ∧
    (s.promises[p]? = some none →
      (handleMessage s m).promises[p]? = some (some
        (match errorOf m with
          | some e => Settlement.rejected e
          | none => Settlement.resolved m.data))) ∧
    (handleMessage s m).invoked = s.invoked ∧
    (handleMessage s m).console = s.console ∧
    (handleMessage s m).eventHandlers = s.eventHandlers := by
  have hpf : pendingFor s m.id = some (id, p) := by
    rw [hm]
    exact pendingFor_of_entry s id p hid ⟨pending, hp, hg⟩
  have hset : (handleMessage s m).promises = settle s.promises p
      (match errorOf m with
        | some e => Settlement.rejected e
        | none => Settlement.resolved m.data) := by
    unfold handleMessage
    simp only [hpf]
    cases errorOf m <;> rfl
  refine ⟨?_, ?_, ?_, hset, ?_, ?_, ?_, ?_⟩
  · unfold handleMessage
    simp only [hpf]
    cases errorOf m <;> simp [hp]
  · simp [mapGet_mapDelete]
  · intro i hi
    rw [mapGet_mapDelete, if_neg (fun h => hi h.symm)]
  · intro hpend
    rw [hset]
    exact settle_get_pending _ _ _ hpend
  · unfold handleMessage
    simp only [hpf]
    cases errorOf m <;> rfl
  · unfold handleMessage
    simp only [hpf]
    cases errorOf m <;> rfl
  · unfold handleMessage
    simp only [hpf]
    cases errorOf m <;> rfl

theorem handleMessage_reply_witness :
    (handleMessage
      (request (fun _ _ => true) (Manager.new [] "ws://panel.example/api/websocket" false)
        "notification" "query" 1730000000000).1
      ⟨"notification", "answer", some 1730000000000, none, none, none⟩).promises
      = [some (.resolved "answer")] ∧
    (handleMessage
      (request (fun _ _ => true) (Manager.new [] "ws://panel.example/api/websocket" false)
        "notification" "query" 1730000000000).1
      ⟨"notification", "answer", some 1730000000000, none, none, none⟩).invoked = [] :=
  have h := handleMessage_reply
    (request (fun _ _ => true) (Manager.new [] "ws://panel.example/api/websocket" false)
      "notification" "query" 1730000000000).1
    ⟨"notification", "answer", some 1730000000000, none, none, none⟩ 1730000000000 0
    [(1730000000000, 0)] (by decide) rfl (by decide) (by decide)
  ⟨h.2.2.2.1.trans (by decide), h.2.2.2.2.2.1.trans (by decide)⟩

/-- C25: for an inbound message that matches no pending request (it has no id,
or no entry is pending for its id), `handleMessage` looks up the handler
registered for the message's type, which is the one most recently registered
for it, calls it once with the message's data and calls nothing else; a handler
that throws costs a line on the console, and so does a type without handler;
in every case the manager is otherwise unchanged and the call returns. -/
theorem handleMessage_dispatch (s : Manager) (m : Message)
    (hm : m.id = none ∨ ∃ id, m.id = some id ∧ NoEntry id s.core) :
    (∀ handler, mapGet s.eventHandlers m.type = some handler →
      (handleMessage s m).invoked = s.invoked ++ [(handler.name, m.data)] ∧
      (handleMessage s m).console = s.console ++
        (if handler.throws then ["error: Fehler im Event-Handler für " ++ m.type] else [])) ∧
    (mapGet s.eventHandlers m.type = none →
      (handleMessage s m).invoked = s.invoked ∧
      (handleMessage s m).console = s.console ++
        ["warn: Unbekannter Message-Type: " ++ m.type]) ∧
    handleMessage s m = { s with invoked := (handleMessage s m).invoked,
                                 console := (handleMessage s m).console } ∧
    (∀ type handler,
      mapGet (registerEventHandler s type handler).eventHandlers type = some handler) := by
  have hpf : pendingFor s m.id = none := by
    rcases hm with h | ⟨id, h, hn⟩
    · rw [h]
      rfl
    · rw [h]
      exact pendingFor_none s id hn
  refine ⟨?_, ?_, ?_, ?_⟩
  · intro handler hh
    unfold handleMessage
    simp only [hpf, hh]
    split_ifs <;> simp
  · intro hh
    unfold handleMessage
    simp only [hpf, hh]
    simp
  · unfold handleMessage
    simp only [hpf]
    cases mapGet s.eventHandlers m.type with
    | none => simp
    | some handler =>
      simp only
      split_ifs <;> simp
  · intro type handler
    simp [registerEventHandler, mapGet_mapSet]

theorem handleMessage_dispatch_witness :
    (handleMessage
      (registerEventHandler
        (registerEventHandler (Manager.new [] "ws://panel.example/api/websocket" false)
          "console_output" ⟨"first", false⟩)
        "console_output" ⟨"second", true⟩)
      ⟨"console_output", "hello", none, none, none, none⟩).invoked = [("second", "hello")] ∧
    (handleMessage (Manager.new [] "ws://panel.example/api/websocket" false)
      ⟨"console_output", "hello", none, none, none, none⟩).invoked = [] :=
  ⟨((handleMessage_dispatch
      (registerEventHandler
        (registerEventHandler (Manager.new [] "ws://panel.example/api/websocket" false)
          "console_output" ⟨"first", false⟩)
        "console_output" ⟨"second", true⟩)
      ⟨"console_output", "hello", none, none, none, none⟩ (Or.inl rfl)).1
      ⟨"second", true⟩ (by decide)).1.trans (by decide),
   ((handleMessage_dispatch (Manager.new [] "ws://panel.example/api/websocket" false)
      ⟨"console_output", "hello", none, none, none, none⟩ (Or.inl rfl)).2.1
      (by decide)).1.trans (by decide)⟩

theorem handleMessage_invoked_of_unmatched (s : Manager) (m : Message)
    (hpf : pendingFor s m.id = none) :
    (handleMessage s m).invoked = s.invoked ++
      (match mapGet s.eventHandlers m.type with
        | some handler => [(handler.name, m.data)]
        | none => []) := by
  unfold handleMessage
  simp only [hpf]
  cases mapGet s.eventHandlers m.type with
  | none => simp
  | some handler =>
    simp only
    split_ifs <;> simp

theorem manager_new_handlers (localStorage : List (String × String)) (wsUrl : String)
    (throws : Bool) :
    (Manager.new localStorage wsUrl throws).eventHandlers =
      [("server-status", ⟨"handleServerStatusUpdate", false⟩),
       ("player-update", ⟨"handlePlayerUpdate", false⟩),
       ("performance-data", ⟨"handlePerformanceData", false⟩),
       ("console-output", ⟨"handleConsoleOutput", false⟩),
       ("system-alert", ⟨"handleSystemAlert", false⟩),
       ("notification", ⟨"handleNotification", false⟩)] ∧
    (Manager.new localStorage wsUrl throws).pendingRequests = none ∧
    (Manager.new localStorage wsUrl throws).invoked = [] := by
  unfold Manager.new connect
  split_ifs <;> exact ⟨rfl, rfl, rfl⟩

/-- C28: the registry of a freshly constructed manager has exactly the keys
`server-status`, `player-update`, `performance-data`, `console-output`,
`system-alert` and `notification`; so of the nine type tags of the inbound
protocol only `notification` reaches a handler, and a message of type
`console_output` invokes none. -/
theorem default_registry (localStorage : List (String × String)) (wsUrl : String)
    (throws : Bool) (m : Message) :
    (Manager.new localStorage wsUrl throws).eventHandlers.map Prod.fst =
      ["server-status", "player-update", "performance-data", "console-output",
       "system-alert", "notification"] ∧
    (m.type ∈ protocolTypes →
      (handleMessage (Manager.new localStorage wsUrl throws) m).invoked =
        if m.type = "notification" then [("handleNotification", m.data)] else []) ∧
    (m.type = "console_output" →
      (handleMessage (Manager.new localStorage wsUrl throws) m).invoked = []) := by
  obtain ⟨hh, hp, hi⟩ := manager_new_handlers localStorage wsUrl throws
  have hpf : pendingFor (Manager.new localStorage wsUrl throws) m.id = none := by
    unfold pendingFor
    rw [hp]
    cases m.id <;> rfl
  have hinv := handleMessage_invoked_of_unmatched _ m hpf
  rw [hh, hi] at hinv
  refine ⟨by rw [hh]; rfl, ?_, ?_⟩
  · intro hmem
    rw [hinv]
    simp only [protocolTypes, List.mem_cons, List.mem_singleton, List.not_mem_nil,
      or_false] at hmem
    rcases hmem with h | h | h | h | h | h | h | h | h <;> rw [h] <;> simp [mapGet]
  · intro h
    rw [hinv, h]
    simp [mapGet]

theorem default_registry_witness :
    (handleMessage (Manager.new [] "ws://panel.example/api/websocket" false)
      ⟨"console_output", "hello", none, none, none, none⟩).invoked = [] ∧
    (handleMessage (Manager.new [] "ws://panel.example/api/websocket" false)
      ⟨"notification", "hello", none, none, none, none⟩).invoked
      = [("handleNotification", "hello")] :=
  ⟨(default_registry [] "ws://panel.example/api/websocket" false
      ⟨"console_output", "hello", none, none, none, none⟩).2.2 rfl,
   ((default_registry [] "ws://panel.example/api/websocket" false
      ⟨"notification", "hello", none, none, none, none⟩).2.1 (by decide)).trans (by decide)⟩

theorem manager_new_storage (localStorage : List (String × String)) (wsUrl : String)
    (throws : Bool) :
    (Manager.new localStorage wsUrl throws).localStorage = localStorage ∧
    (Manager.new localStorage wsUrl throws).attempted = [] ∧
    (Manager.new localStorage wsUrl throws).transmitted = [] ∧
    (Manager.new localStorage wsUrl throws).messageQueue = [] := by
  unfold Manager.new connect
  split_ifs <;> exact ⟨rfl, rfl, rfl, rfl⟩

end WS

namespace EssentialsCoreWebUI

/-! ## The heartbeat failure handling (C6, C7) -/

theorem validateToken_failed (s : EssentialsCoreWebUI) (outcome : ValidateOutcome)
    (h : outcome.failed = true) :
    (validateToken s outcome).isAuthenticated = false ∧
    (validateToken s outcome).reconnectAttempts = s.reconnectAttempts ∧
    (validateToken s outcome).maxReconnectAttempts = s.maxReconnectAttempts ∧
    (validateToken s outcome).heartbeatInterval = s.heartbeatInterval ∧
    (validateToken s outcome).errors = s.errors ∧
    (validateToken s outcome).timeouts = s.timeouts ∧
    (validateToken s outcome).reconnects = s.reconnects := by
  cases outcome <;> simp [ValidateOutcome.failed] at h <;> simp [validateToken]

theorem attemptReconnect_failed
    (setupWebSocket : EssentialsCoreWebUI → Except String EssentialsCoreWebUI)
    (s : EssentialsCoreWebUI) (outcome : ValidateOutcome) (h : outcome.failed = true) :
    (attemptReconnect setupWebSocket s outcome).reconnectAttempts = s.reconnectAttempts ∧
    (attemptReconnect setupWebSocket s outcome).maxReconnectAttempts = s.maxReconnectAttempts ∧
    (attemptReconnect setupWebSocket s outcome).heartbeatInterval = s.heartbeatInterval ∧
    (attemptReconnect setupWebSocket s outcome).errors = s.errors ∧
    (attemptReconnect setupWebSocket s outcome).timeouts = s.timeouts := by
  obtain ⟨h1, h2, h3, h4, h5, h6, _⟩ :=
    validateToken_failed { s with reconnects := s.reconnects + 1 } outcome h
  unfold attemptReconnect
  simp only [h1, Bool.false_eq_true, if_false]
  exact ⟨h2, h3, h4, h5, h6⟩

/-- What `handleHeartbeatFailure` does to the counter, the errors and the timers. -/
theorem handleHeartbeatFailure_effect (s : EssentialsCoreWebUI) :
    (handleHeartbeatFailure s).reconnectAttempts = s.reconnectAttempts + 1 ∧
    (handleHeartbeatFailure s).maxReconnectAttempts = s.maxReconnectAttempts ∧
    (handleHeartbeatFailure s).heartbeatInterval = s.heartbeatInterval ∧
    (handleHeartbeatFailure s).errors = s.errors ++
      (if s.reconnectAttempts + 1 ≤ s.maxReconnectAttempts then [] else ["Verbindung verloren"]) ∧
    (handleHeartbeatFailure s).timeouts = s.timeouts ++
      (if s.reconnectAttempts + 1 ≤ s.maxReconnectAttempts
        then [2 ^ (s.reconnectAttempts + 1) * 1000] else []) := by
  unfold handleHeartbeatFailure
  by_cases h : s.reconnectAttempts + 1 ≤ s.maxReconnectAttempts
  · simp [h, showNotification]
  · simp [h, showError]

/-- A run of unsuccessful events counts the failed heartbeats and emits the
fatal error once per failure beyond `maxReconnectAttempts`. -/
theorem run_unsuccessful
    (setupWebSocket : EssentialsCoreWebUI → Except String EssentialsCoreWebUI)
    (events : List Event) :
    ∀ s : EssentialsCoreWebUI, s.maxReconnectAttempts = 5 → s.heartbeatInterval.isSome = true →
      (∀ e ∈ events, Event.unsuccessful e = true) →
      (run setupWebSocket s events).reconnectAttempts = s.reconnectAttempts + heartbeats events ∧
      (run setupWebSocket s events).maxReconnectAttempts = 5 ∧
      (run setupWebSocket s events).heartbeatInterval.isSome = true ∧
      (run setupWebSocket s events).errors = s.errors ++ List.replicate
        ((s.reconnectAttempts + heartbeats events - 5) - (s.reconnectAttempts - 5))
        "Verbindung verloren" := by
  induction events with
  | nil => intro s hmax hint _; simp [run, heartbeats, hmax, hint]
  | cons e rest ih =>
    intro s hmax hint hall
    have hrest : ∀ e1 ∈ rest, Event.unsuccessful e1 = true :=
      fun e1 he1 => hall e1 (List.mem_cons_of_mem _ he1)
    have he := hall e (List.mem_cons_self _ _)
    have hrun : run setupWebSocket s (e :: rest)
        = run setupWebSocket (step setupWebSocket s e) rest := rfl
    rw [hrun]
    cases e with
    | heartbeat probe now =>
      cases probe with
      | ok => simp [Event.unsuccessful] at he
      | failed =>
        obtain ⟨h1, h2, h3, h4, _⟩ := handleHeartbeatFailure_effect s
        have hstep : step setupWebSocket s (.heartbeat .failed now) = handleHeartbeatFailure s := by
          simp [step, hint, heartbeat]
        rw [hstep]
        obtain ⟨i1, i2, i3, i4⟩ := ih (handleHeartbeatFailure s) (h2.trans hmax)
          (by rw [h3]; exact hint) hrest
        refine ⟨?_, i2, i3, ?_⟩
        · rw [i1, h1]
          simp only [heartbeats]
          omega
        · rw [i4, h4, h1, hmax, List.append_assoc]
          congr 1
          simp only [heartbeats]
          by_cases hle : s.reconnectAttempts + 1 ≤ 5
          · simp only [hle, if_true, List.nil_append]
            congr 1
            omega
          · simp only [hle, if_false]
            have hk : (s.reconnectAttempts + (heartbeats rest + 1) - 5) - (s.reconnectAttempts - 5)
                = ((s.reconnectAttempts + 1 + heartbeats rest - 5) - (s.reconnectAttempts + 1 - 5)) + 1 := by
              omega
            rw [hk, List.replicate_succ]
            rfl
    | timeout delay outcome =>
      have hout : outcome.failed = true := by simpa [Event.unsuccessful] using he
      by_cases hmem : delay ∈ s.timeouts
      · obtain ⟨h1, h2, h3, h4, _⟩ := attemptReconnect_failed setupWebSocket
          { s with timeouts := s.timeouts.erase delay } outcome hout
        have hstep : step setupWebSocket s (.timeout delay outcome)
            = attemptReconnect setupWebSocket
                { s with timeouts := s.timeouts.erase delay } outcome := by
          simp [step, hmem]
        rw [hstep]
        obtain ⟨i1, i2, i3, i4⟩ := ih _ (h2.trans hmax) (by rw [h3]; exact hint) hrest
        refine ⟨?_, i2, i3, ?_⟩
        · rw [i1, h1]
          rfl
        · rw [i4, h4, h1]
          rfl
      · have hstep : step setupWebSocket s (.timeout delay outcome) = s := by
          simp [step, hmem]
        rw [hstep]
        exact ih s hmax hint hrest

/-! ## Warnings and the reset of the failure counter (C19, C20) -/

theorem validateToken_notifications (s : EssentialsCoreWebUI) (outcome : ValidateOutcome) :
    (validateToken s outcome).notifications = s.notifications ∧
    (validateToken s outcome).websocket = s.websocket ∧
    (validateToken s outcome).reconnectAttempts = s.reconnectAttempts := by
  cases outcome <;> simp [validateToken]

theorem attemptReconnect_failed_notifications
    (setupWebSocket : EssentialsCoreWebUI → Except String EssentialsCoreWebUI)
    (s : EssentialsCoreWebUI) (outcome : ValidateOutcome) (h : outcome.failed = true) :
    (attemptReconnect setupWebSocket s outcome).notifications = s.notifications := by
  obtain ⟨h1, _⟩ := validateToken_failed { s with reconnects := s.reconnects + 1 } outcome h
  unfold attemptReconnect
  simp only [h1, Bool.false_eq_true, if_false]
  exact (validateToken_notifications _ outcome).1

theorem handleHeartbeatFailure_notifications (s : EssentialsCoreWebUI) :
    (handleHeartbeatFailure s).notifications = s.notifications ++
      (if s.reconnectAttempts + 1 ≤ s.maxReconnectAttempts
        then [warning (s.reconnectAttempts + 1)] else []) := by
  unfold handleHeartbeatFailure
  by_cases h : s.reconnectAttempts + 1 ≤ s.maxReconnectAttempts
  · simp [h, showNotification, warning]
  · simp [h, showError]

/-- A run of unsuccessful events that keeps the counter within
`maxReconnectAttempts` emits one warning per failed heartbeat, numbered on
from the counter, and no fatal error. -/
theorem run_unsuccessful_notifications
    (setupWebSocket : EssentialsCoreWebUI → Except String EssentialsCoreWebUI)
    (events : List Event) :
    ∀ s : EssentialsCoreWebUI, s.maxReconnectAttempts = 5 → s.heartbeatInterval.isSome = true →
      (∀ e ∈ events, Event.unsuccessful e = true) →
      s.reconnectAttempts + heartbeats events ≤ 5 →
      (run setupWebSocket s events).notifications = s.notifications ++
        (List.range' (s.reconnectAttempts + 1) (heartbeats events)).map warning := by
  induction events with
  | nil => intro s _ _ _ _; simp [run, heartbeats]
  | cons e rest ih =>
    intro s hmax hint hall hle
    have hrest : ∀ e1 ∈ rest, Event.unsuccessful e1 = true :=
      fun e1 he1 => hall e1 (List.mem_cons_of_mem _ he1)
    have he := hall e (List.mem_cons_self _ _)
    have hrun : run setupWebSocket s (e :: rest)
        = run setupWebSocket (step setupWebSocket s e) rest := rfl
    rw [hrun]
    cases e with
    | heartbeat probe now =>
      cases probe with
      | ok => simp [Event.unsuccessful] at he
      | failed =>
        obtain ⟨h1, h2, h3, _, _⟩ := handleHeartbeatFailure_effect s
        have hn := handleHeartbeatFailure_notifications s
        have hstep : step setupWebSocket s (.heartbeat .failed now) = handleHeartbeatFailure s := by
          simp [step, hint, heartbeat]
        simp only [heartbeats] at hle ⊢
        have hle1 : s.reconnectAttempts + 1 ≤ s.maxReconnectAttempts := by
          rw [hmax]
          omega
        rw [if_pos hle1] at hn
        rw [hstep, ih (handleHeartbeatFailure s) (h2.trans hmax) (by rw [h3]; exact hint) hrest
          (by rw [h1]; omega), hn, h1, List.range'_succ, List.map_cons, List.append_assoc]
        rfl
    | timeout delay outcome =>
      have hout : outcome.failed = true := by simpa [Event.unsuccessful] using he
      simp only [heartbeats] at hle ⊢
      by_cases hmem : delay ∈ s.timeouts
      · obtain ⟨h1, h2, h3, _, _⟩ := attemptReconnect_failed setupWebSocket
          { s with timeouts := s.timeouts.erase delay } outcome hout
        have hn := attemptReconnect_failed_notifications setupWebSocket
          { s with timeouts := s.timeouts.erase delay } outcome hout
        have hstep : step setupWebSocket s (.timeout delay outcome)
            = attemptReconnect setupWebSocket
                { s with timeouts := s.timeouts.erase delay } outcome := by
          simp [step, hmem]
        rw [hstep, ih _ (h2.trans hmax) (by rw [h3]; exact hint) hrest (by rw [h1]; exact hle),
          hn, h1]
      · have hstep : step setupWebSocket s (.timeout delay outcome) = s := by
          simp [step, hmem]
        rw [hstep]
        exact ih s hmax hint hrest hle

/-- After a validation that succeeds `attemptReconnect` has set the counter to
0 before it looks at the socket: the counter is 0 at the end unless
`setupWebSocket`, called with the counter at 0, returns normally, and then the
result is what `setupWebSocket` returned. -/
theorem attemptReconnect_valid
    (setupWebSocket : EssentialsCoreWebUI → Except String EssentialsCoreWebUI)
    (s : EssentialsCoreWebUI) (user : Option String) :
    ((attemptReconnect setupWebSocket s (.valid user)).reconnectAttempts = 0 ∧
      (attemptReconnect setupWebSocket s (.valid user)).websocket = s.websocket) ∨
    (∃ readyState s2 s3, s.websocket = some readyState ∧ readyState ≠ OPEN ∧
      s2.reconnectAttempts = 0 ∧ setupWebSocket s2 = .ok s3 ∧
      attemptReconnect setupWebSocket s (.valid user) = s3) := by
  unfold attemptReconnect
  simp only [validateToken, showNotification, if_true]
  cases hw : s.websocket with
  | none => left; simp
  | some readyState =>
    simp only
    by_cases hopen : readyState = OPEN
    · left; simp [hopen, hw]
    · simp only [ne_eq, hopen, not_false_eq_true, if_true]
      split
      · next s3 h3 =>
        right
        exact ⟨readyState, _, s3, rfl, hopen, rfl, h3, rfl⟩
      · left; simp [hw]

/-! ## Message routing, token validation and login (C26, C27, C29) -/

/-- C26: `handleWebSocketMessage` calls, for each of the nine types
`server_stats`, `console_output`, `player_join`, `player_leave`,
`performance_update`, `module_event`, `security_alert`, `notification` and
`auth_expired`, exactly one method, once, with the message's data (without
argument for `auth_expired`), and for every other type calls nothing and only
writes a line to the console. -/
theorem handleWebSocketMessage_routes (m : WS.Message) :
    (m.type = "server_stats" →
      handleWebSocketMessage m = ([("updateServerStats", some m.data)], [])) ∧
    (m.type = "console_output" →
      handleWebSocketMessage m = ([("handleConsoleOutput", some m.data)], [])) ∧
    (m.type = "player_join" →
      handleWebSocketMessage m = ([("handlePlayerJoin", some m.data)], [])) ∧
    (m.type = "player_leave" →
      handleWebSocketMessage m = ([("handlePlayerLeave", some m.data)], [])) ∧
    (m.type = "performance_update" →
      handleWebSocketMessage m = ([("handlePerformanceUpdate", some m.data)], [])) ∧
    (m.type = "module_event" →
      handleWebSocketMessage m = ([("handleModuleEvent", some m.data)], [])) ∧
    (m.type = "security_alert" →
      handleWebSocketMessage m = ([("handleSecurityAlert", some m.data)], [])) ∧
    (m.type = "notification" →
      handleWebSocketMessage m = ([("handleNotification", some m.data)], [])) ∧
    (m.type = "auth_expired" →
      handleWebSocketMessage m = ([("handleAuthExpired", none)], [])) ∧
    (m.type ∉ WS.protocolTypes →
      handleWebSocketMessage m = ([], ["log: Unbekannte WebSocket-Nachricht"])) ∧
    (m.type ∈ WS.protocolTypes → (handleWebSocketMessage m).1.length = 1) := by
  refine ⟨?_, ?_, ?_, ?_, ?_, ?_, ?_, ?_, ?_, ?_, ?_⟩
  · intro h; simp [handleWebSocketMessage, h]
  · intro h; simp [handleWebSocketMessage, h]
  · intro h; simp [handleWebSocketMessage, h]
  · intro h; simp [handleWebSocketMessage, h]
  · intro h; simp [handleWebSocketMessage, h]
  · intro h; simp [handleWebSocketMessage, h]
  · intro h; simp [handleWebSocketMessage, h]
  · intro h; simp [handleWebSocketMessage, h]
  · intro h; simp [handleWebSocketMessage, h]
  · intro h
    simp only [WS.protocolTypes, List.mem_cons, List.mem_singleton, List.not_mem_nil,
      or_false, not_or] at h
    obtain ⟨h1, h2, h3, h4, h5, h6, h7, h8, h9⟩ := h
    simp [handleWebSocketMessage, h1, h2, h3, h4, h5, h6, h7, h8, h9]
  · intro h
    simp only [WS.protocolTypes, List.mem_cons, List.mem_singleton, List.not_mem_nil,
      or_false] at h
    rcases h with h | h | h | h | h | h | h | h | h <;> simp [handleWebSocketMessage, h]

theorem handleWebSocketMessage_routes_witness :
    handleWebSocketMessage
        ⟨"console_output", "\x7b\"level\":\"info\",\"message\":\"hello\"\x7d", none, none,
          none, none⟩ =
      ([("handleConsoleOutput", some "\x7b\"level\":\"info\",\"message\":\"hello\"\x7d")], []) ∧
    handleWebSocketMessage ⟨"console-output", "hello", none, none, none, none⟩ =
      ([], ["log: Unbekannte WebSocket-Nachricht"]) :=
  ⟨(handleWebSocketMessage_routes
      ⟨"console_output", "\x7b\"level\":\"info\",\"message\":\"hello\"\x7d", none, none,
        none, none⟩).2.1 rfl,
   (handleWebSocketMessage_routes
      ⟨"console-output", "hello", none, none, none, none⟩).2.2.2.2.2.2.2.2.2.1 (by decide)⟩

/-- C27: after `validateToken` the client is authenticated exactly when the
endpoint answered 2xx with a body from which the reply is read, and then
`currentUser` is the reply's `user` and the storage is as before; after another
status `isAuthenticated` is false and the storage holds no session token, its
other entries being as before; after a network error (and after a 2xx answer
whose body cannot be read) `isAuthenticated` is false and the storage is
unchanged. The call returns in every case. -/
theorem validateToken_outcomes (s : EssentialsCoreWebUI) (outcome : ValidateOutcome) :
    ((validateToken s outcome).isAuthenticated = true ↔ ∃ user, outcome = .valid user) ∧
    (∀ user, outcome = .valid user →
      (validateToken s outcome).isAuthenticated = true ∧
      (validateToken s outcome).currentUser = user ∧
      (validateToken s outcome).localStorage = s.localStorage) ∧
    (outcome = .refused →
      (validateToken s outcome).isAuthenticated = false ∧
      (∀ e ∈ (validateToken s outcome).localStorage, e.1 ≠ "webui_session_token") ∧
      (validateToken s outcome).localStorage =
        s.localStorage.filter (fun e => e.1 != "webui_session_token")) ∧
    (outcome = .networkError ∨ outcome = .badBody →
      (validateToken s outcome).isAuthenticated = false ∧
      (validateToken s outcome).localStorage = s.localStorage) := by
  refine ⟨?_, ?_, ?_, ?_⟩
  · cases outcome <;> simp [validateToken]
  · intro user h
    subst h
    simp [validateToken]
  · intro h
    subst h
    refine ⟨rfl, ?_, rfl⟩
    intro e he
    have := (List.mem_filter.mp he).2
    simpa using this
  · intro h
    rcases h with h | h <;> subst h <;> exact ⟨rfl, rfl⟩

theorem validateToken_outcomes_witness :
    (validateToken (initial [("webui_session_token", "abc"), ("webui_theme", "dark")] 0)
      .refused).localStorage = [("webui_theme", "dark")] ∧
    (validateToken (initial [("webui_session_token", "abc"), ("webui_theme", "dark")] 0)
      .networkError).localStorage = [("webui_session_token", "abc"), ("webui_theme", "dark")] ∧
    (validateToken (initial [("webui_session_token", "abc")] 0)
      (.valid (some "admin"))).currentUser = some "admin" :=
  ⟨((validateToken_outcomes _ .refused).2.2.1 rfl).2.2.trans (by decide),
   ((validateToken_outcomes _ .networkError).2.2.2 (Or.inl rfl)).2,
   ((validateToken_outcomes _ (.valid (some "admin"))).2.1 (some "admin") rfl).2.1⟩

end EssentialsCoreWebUI

namespace WebUIEnhancedFeatures

theorem enhanced_attemptReconnect_failed
    (setupWebSocket : EssentialsCoreWebUI → Except String EssentialsCoreWebUI)
    (s : WebUIEnhancedFeatures) (outcome : ValidateOutcome) (activeModule : Option String)
    (h : outcome.failed = true) :
    (attemptReconnect setupWebSocket s outcome activeModule).reconnectAttempts
      = s.reconnectAttempts ∧
    (attemptReconnect setupWebSocket s outcome activeModule).maxReconnectAttempts
      = s.maxReconnectAttempts ∧
    (attemptReconnect setupWebSocket s outcome activeModule).heartbeatInterval
      = s.heartbeatInterval ∧
    (attemptReconnect setupWebSocket s outcome activeModule).webui.errors = s.webui.errors ∧
    (attemptReconnect setupWebSocket s outcome activeModule).timeouts = s.timeouts := by
  obtain ⟨h1, _, _, _, h5, _, _⟩ := EssentialsCoreWebUI.validateToken_failed s.webui outcome h
  unfold attemptReconnect
  simp only [h1, Bool.false_eq_true, if_false, h5, and_self]

/-- What `handleHeartbeatFailure` does to the counter, the errors and the timers. -/
theorem enhanced_handleHeartbeatFailure_effect (s : WebUIEnhancedFeatures) :
    (handleHeartbeatFailure s).reconnectAttempts = s.reconnectAttempts + 1 ∧
    (handleHeartbeatFailure s).maxReconnectAttempts = s.maxReconnectAttempts ∧
    (handleHeartbeatFailure s).heartbeatInterval = s.heartbeatInterval ∧
    (handleHeartbeatFailure s).webui.errors = s.webui.errors ++
      (if s.reconnectAttempts + 1 ≤ s.maxReconnectAttempts then []
        else ["🚫 Verbindung verloren"]) ∧
    (handleHeartbeatFailure s).timeouts = s.timeouts ++
      (if s.reconnectAttempts + 1 ≤ s.maxReconnectAttempts
        then [2 ^ (s.reconnectAttempts + 1) * 1000] else []) := by
  unfold handleHeartbeatFailure
  by_cases h : s.reconnectAttempts + 1 ≤ s.maxReconnectAttempts
  · simp [h, EssentialsCoreWebUI.showNotification]
  · simp [h, EssentialsCoreWebUI.showError, updateConnectionStatus]

/-- A run of unsuccessful events counts the failed heartbeats and emits the
fatal error once per failure beyond `maxReconnectAttempts`. -/
theorem enhanced_run_unsuccessful
    (setupWebSocket : EssentialsCoreWebUI → Except String EssentialsCoreWebUI)
    (events : List Event) :
    ∀ s : WebUIEnhancedFeatures, s.maxReconnectAttempts = 5 →
      s.heartbeatInterval.isSome = true →
      (∀ e ∈ events, Event.unsuccessful e = true) →
      (run setupWebSocket s events).reconnectAttempts = s.reconnectAttempts + heartbeats events ∧
      (run setupWebSocket s events).maxReconnectAttempts = 5 ∧
      (run setupWebSocket s events).heartbeatInterval.isSome = true ∧
      (run setupWebSocket s events).webui.errors = s.webui.errors ++ List.replicate
        ((s.reconnectAttempts + heartbeats events - 5) - (s.reconnectAttempts - 5))
        "🚫 Verbindung verloren" := by
  induction events with
  | nil => intro s hmax hint _; simp [run, heartbeats, hmax, hint]
  | cons e rest ih =>
    intro s hmax hint hall
    have hrest : ∀ e1 ∈ rest, Event.unsuccessful e1 = true :=
      fun e1 he1 => hall e1 (List.mem_cons_of_mem _ he1)
    have he := hall e (List.mem_cons_self _ _)
    have hrun : run setupWebSocket s (e :: rest)
        = run setupWebSocket (step setupWebSocket s e) rest := rfl
    rw [hrun]
    cases e with
    | heartbeat probe now =>
      cases probe with
      | ok => simp [Event.unsuccessful] at he
      | failed =>
        obtain ⟨h1, h2, h3, h4, _⟩ := enhanced_handleHeartbeatFailure_effect s
        have hstep : step setupWebSocket s (.heartbeat .failed now) = handleHeartbeatFailure s := by
          simp [step, hint, heartbeat]
        rw [hstep]
        obtain ⟨i1, i2, i3, i4⟩ := ih (handleHeartbeatFailure s) (h2.trans hmax)
          (by rw [h3]; exact hint) hrest
        refine ⟨?_, i2, i3, ?_⟩
        · rw [i1, h1]
          simp only [heartbeats]
          omega
        · rw [i4, h4, h1, hmax, List.append_assoc]
          congr 1
          simp only [heartbeats]
          by_cases hle : s.reconnectAttempts + 1 ≤ 5
          · simp only [hle, if_true, List.nil_append]
            congr 1
            omega
          · simp only [hle, if_false]
            have hk : (s.reconnectAttempts + (heartbeats rest + 1) - 5) - (s.reconnectAttempts - 5)
                = ((s.reconnectAttempts + 1 + heartbeats rest - 5) - (s.reconnectAttempts + 1 - 5)) + 1 := by
              omega
            rw [hk, List.replicate_succ]
            rfl
    | timeout delay outcome activeModule =>
      have hout : outcome.failed = true := by simpa [Event.unsuccessful] using he
      by_cases hmem : delay ∈ s.timeouts
      · obtain ⟨h1, h2, h3, h4, _⟩ := enhanced_attemptReconnect_failed setupWebSocket
          { s with timeouts := s.timeouts.erase delay } outcome activeModule hout
        have hstep : step setupWebSocket s (.timeout delay outcome activeModule)
            = attemptReconnect setupWebSocket
                { s with timeouts := s.timeouts.erase delay } outcome activeModule := by
          simp [step, hmem]
        rw [hstep]
        obtain ⟨i1, i2, i3, i4⟩ := ih _ (h2.trans hmax) (by rw [h3]; exact hint) hrest
        refine ⟨?_, i2, i3, ?_⟩
        · rw [i1, h1]
          rfl
        · rw [i4, h4, h1]
          rfl
      · have hstep : step setupWebSocket s (.timeout delay outcome activeModule) = s := by
          simp [step, hmem]
        rw [hstep]
        exact ih s hmax hint hrest

/-! ## Warnings and the reset of the failure counter (C19, C20) -/

theorem enhanced_attemptReconnect_failed_notifications
    (setupWebSocket : EssentialsCoreWebUI → Except String EssentialsCoreWebUI)
    (s : WebUIEnhancedFeatures) (outcome : ValidateOutcome) (activeModule : Option String)
    (h : outcome.failed = true) :
    (attemptReconnect setupWebSocket s outcome activeModule).webui.notifications
      = s.webui.notifications := by
  obtain ⟨h1, _⟩ := EssentialsCoreWebUI.validateToken_failed s.webui outcome h
  unfold attemptReconnect
  simp only [h1, Bool.false_eq_true, if_false]
  exact (EssentialsCoreWebUI.validateToken_notifications _ outcome).1

theorem enhanced_handleHeartbeatFailure_notifications (s : WebUIEnhancedFeatures) :
    (handleHeartbeatFailure s).webui.notifications = s.webui.notifications ++
      (if s.reconnectAttempts + 1 ≤ s.maxReconnectAttempts
        then [warning (s.reconnectAttempts + 1) s.maxReconnectAttempts] else []) := by
  unfold handleHeartbeatFailure
  by_cases h : s.reconnectAttempts + 1 ≤ s.maxReconnectAttempts
  · simp [h, EssentialsCoreWebUI.showNotification, warning]
  · simp [h, EssentialsCoreWebUI.showError, updateConnectionStatus]

/-- A run of unsuccessful events that keeps the counter within
`maxReconnectAttempts` emits one warning per failed heartbeat, numbered on
from the counter. -/
theorem enhanced_run_unsuccessful_notifications
    (setupWebSocket : EssentialsCoreWebUI → Except String EssentialsCoreWebUI)
    (events : List Event) :
    ∀ s : WebUIEnhancedFeatures, s.maxReconnectAttempts = 5 →
      s.heartbeatInterval.isSome = true →
      (∀ e ∈ events, Event.unsuccessful e = true) →
      s.reconnectAttempts + heartbeats events ≤ 5 →
      (run setupWebSocket s events).webui.notifications = s.webui.notifications ++
        (List.range' (s.reconnectAttempts + 1) (heartbeats events)).map
          (fun n => warning n 5) := by
  induction events with
  | nil => intro s _ _ _ _; simp [run, heartbeats]
  | cons e rest ih =>
    intro s hmax hint hall hle
    have hrest : ∀ e1 ∈ rest, Event.unsuccessful e1 = true :=
      fun e1 he1 => hall e1 (List.mem_cons_of_mem _ he1)
    have he := hall e (List.mem_cons_self _ _)
    have hrun : run setupWebSocket s (e :: rest)
        = run setupWebSocket (step setupWebSocket s e) rest := rfl
    rw [hrun]
    cases e with
    | heartbeat probe now =>
      cases probe with
      | ok => simp [Event.unsuccessful] at he
      | failed =>
        obtain ⟨h1, h2, h3, _, _⟩ := enhanced_handleHeartbeatFailure_effect s
        have hn := enhanced_handleHeartbeatFailure_notifications s
        have hstep : step setupWebSocket s (.heartbeat .failed now) = handleHeartbeatFailure s := by
          simp [step, hint, heartbeat]
        simp only [heartbeats] at hle ⊢
        have hle1 : s.reconnectAttempts + 1 ≤ s.maxReconnectAttempts := by
          rw [hmax]
          omega
        rw [if_pos hle1, hmax] at hn
        rw [hstep, ih (handleHeartbeatFailure s) (h2.trans hmax) (by rw [h3]; exact hint) hrest
          (by rw [h1]; omega), hn, h1, List.range'_succ, List.map_cons, List.append_assoc]
        rfl
    | timeout delay outcome activeModule =>
      have hout : outcome.failed = true := by simpa [Event.unsuccessful] using he
      simp only [heartbeats] at hle ⊢
      by_cases hmem : delay ∈ s.timeouts
      · obtain ⟨h1, h2, h3, _, _⟩ := enhanced_attemptReconnect_failed setupWebSocket
          { s with timeouts := s.timeouts.erase delay } outcome activeModule hout
        have hn := enhanced_attemptReconnect_failed_notifications setupWebSocket
          { s with timeouts := s.timeouts.erase delay } outcome activeModule hout
        have hstep : step setupWebSocket s (.timeout delay outcome activeModule)
            = attemptReconnect setupWebSocket
                { s with timeouts := s.timeouts.erase delay } outcome activeModule := by
          simp [step, hmem]
        rw [hstep, ih _ (h2.trans hmax) (by rw [h3]; exact hint) hrest (by rw [h1]; exact hle),
          hn, h1]
      · have hstep : step setupWebSocket s (.timeout delay outcome activeModule) = s := by
          simp [step, hmem]
        rw [hstep]
        exact ih s hmax hint hrest hle

/-- After a validation that succeeds `attemptReconnect` leaves its counter at
0, whatever becomes of the socket; the socket of `webui` is as before unless
`setupWebSocket` returns normally. -/
theorem enhanced_attemptReconnect_valid
    (setupWebSocket : EssentialsCoreWebUI → Except String EssentialsCoreWebUI)
    (s : WebUIEnhancedFeatures) (user : Option String) (activeModule : Option String) :
    (attemptReconnect setupWebSocket s (.valid user) activeModule).reconnectAttempts = 0 ∧
    ((∀ x s3, setupWebSocket x ≠ .ok s3) →
      (attemptReconnect setupWebSocket s (.valid user) activeModule).webui.websocket
        = s.webui.websocket) := by
  unfold attemptReconnect
  simp only [EssentialsCoreWebUI.validateToken, EssentialsCoreWebUI.showNotification, if_true,
    updateConnectionStatus]
  cases hw : s.webui.websocket with
  | none =>
    simp only
    cases activeModule <;> simp [refreshCurrentView, EssentialsCoreWebUI.showNotification, hw]
  | some readyState =>
    simp only
    by_cases hopen : readyState = EssentialsCoreWebUI.OPEN
    · simp only [hopen, ne_eq, not_true_eq_false, if_false]
      cases activeModule <;> simp [refreshCurrentView, EssentialsCoreWebUI.showNotification, hw]
    · simp only [ne_eq, hopen, not_false_eq_true, if_true]
      split
      · next webui h3 =>
        constructor
        · cases activeModule <;> simp [refreshCurrentView]
        · intro hnever
          exact absurd h3 (hnever _ _)
      · simp [hw]

end WebUIEnhancedFeatures

/-- C6 (amended), for `EssentialsCoreWebUI` (`a`) and `WebUIEnhancedFeatures`
(`f`) alike: start from `reconnectAttempts = 0` with the heartbeat running,
and let only failed heartbeats and reconnection attempts whose validation
fails happen, at least five heartbeats among them. Then the fatal `connection
lost` error has been emitted once per failure after the fifth (not at all
after exactly five failures), and the next failure, the sixth or a later one,
emits it and schedules no reconnection attempt. The state is not terminal: a
heartbeat that succeeds sets `reconnectAttempts` back to 0, and the failure
after it schedules a reconnection attempt again, with a delay of 2000 ms. -/
theorem heartbeat_failures_give_up
    (setupWebSocket : EssentialsCoreWebUI → Except String EssentialsCoreWebUI) (now : Nat)
    (a : EssentialsCoreWebUI) (eventsA : List EssentialsCoreWebUI.Event)
    (f : WebUIEnhancedFeatures) (eventsF : List WebUIEnhancedFeatures.Event)
    (ha : a.reconnectAttempts = 0 ∧ a.maxReconnectAttempts = 5 ∧
      a.heartbeatInterval.isSome = true)
    (hea : ∀ e ∈ eventsA, EssentialsCoreWebUI.Event.unsuccessful e = true)
    (hka : 5 ≤ EssentialsCoreWebUI.heartbeats eventsA)
    (hf : f.reconnectAttempts = 0 ∧ f.maxReconnectAttempts = 5 ∧
      f.heartbeatInterval.isSome = true)
    (hef : ∀ e ∈ eventsF, WebUIEnhancedFeatures.Event.unsuccessful e = true)
    (hkf : 5 ≤ WebUIEnhancedFeatures.heartbeats eventsF) :
    ((a.run setupWebSocket eventsA).errors = a.errors ++ List.replicate
        (EssentialsCoreWebUI.heartbeats eventsA - 5) "Verbindung verloren" ∧
      ((a.run setupWebSocket eventsA).heartbeat .failed now).errors
        = (a.run setupWebSocket eventsA).errors ++ ["Verbindung verloren"] ∧
      ((a.run setupWebSocket eventsA).heartbeat .failed now).timeouts
        = (a.run setupWebSocket eventsA).timeouts ∧
      ((a.run setupWebSocket eventsA).heartbeat .ok now).reconnectAttempts = 0 ∧
      (((a.run setupWebSocket eventsA).heartbeat .ok now).heartbeat .failed now).timeouts
        = (a.run setupWebSocket eventsA).timeouts ++ [2000]) ∧
    ((f.run setupWebSocket eventsF).webui.errors = f.webui.errors ++ List.replicate
        (WebUIEnhancedFeatures.heartbeats eventsF - 5) "🚫 Verbindung verloren" ∧
      ((f.run setupWebSocket eventsF).heartbeat .failed now).webui.errors
        = (f.run setupWebSocket eventsF).webui.errors ++ ["🚫 Verbindung verloren"] ∧
      ((f.run setupWebSocket eventsF).heartbeat .failed now).timeouts
        = (f.run setupWebSocket eventsF).timeouts ∧
      ((f.run setupWebSocket eventsF).heartbeat .ok now).reconnectAttempts = 0 ∧
      (((f.run setupWebSocket eventsF).heartbeat .ok now).heartbeat .failed now).timeouts
        = (f.run setupWebSocket eventsF).timeouts ++ [2000]) := by
  obtain ⟨ha0, hamax, haint⟩ := ha
  obtain ⟨hf0, hfmax, hfint⟩ := hf
  obtain ⟨a1, a2, _, a4⟩ :=
    EssentialsCoreWebUI.run_unsuccessful setupWebSocket eventsA a hamax haint hea
  obtain ⟨f1, f2, _, f4⟩ :=
    WebUIEnhancedFeatures.enhanced_run_unsuccessful setupWebSocket eventsF f hfmax hfint hef
  obtain ⟨_, _, _, ea, ta⟩ :=
    EssentialsCoreWebUI.handleHeartbeatFailure_effect (a.run setupWebSocket eventsA)
  obtain ⟨_, _, _, ef, tf⟩ :=
    WebUIEnhancedFeatures.enhanced_handleHeartbeatFailure_effect (f.run setupWebSocket eventsF)
  have hna : ¬ (a.run setupWebSocket eventsA).reconnectAttempts + 1
      ≤ (a.run setupWebSocket eventsA).maxReconnectAttempts := by
    rw [a1, a2, ha0]
    omega
  have hnf : ¬ (f.run setupWebSocket eventsF).reconnectAttempts + 1
      ≤ (f.run setupWebSocket eventsF).maxReconnectAttempts := by
    rw [f1, f2, hf0]
    omega
  simp only [hna, if_false, List.append_nil] at ea ta
  simp only [hnf, if_false, List.append_nil] at ef tf
  refine ⟨⟨?_, ea, ta, rfl, ?_⟩, ⟨?_, ef, tf, rfl, ?_⟩⟩
  · rw [a4, ha0]
    simp
  · obtain ⟨_, _, _, _, t1⟩ := EssentialsCoreWebUI.handleHeartbeatFailure_effect
      ((a.run setupWebSocket eventsA).heartbeat .ok now)
    have hmax1 : ((a.run setupWebSocket eventsA).heartbeat .ok now).maxReconnectAttempts = 5 := a2
    have hatt1 : ((a.run setupWebSocket eventsA).heartbeat .ok now).reconnectAttempts = 0 := rfl
    rw [hmax1, hatt1] at t1
    exact t1
  · rw [f4, hf0]
    simp
  · obtain ⟨_, _, _, _, t1⟩ := WebUIEnhancedFeatures.enhanced_handleHeartbeatFailure_effect
      ((f.run setupWebSocket eventsF).heartbeat .ok now)
    have hmax1 : ((f.run setupWebSocket eventsF).heartbeat .ok now).maxReconnectAttempts = 5 := f2
    have hatt1 : ((f.run setupWebSocket eventsF).heartbeat .ok now).reconnectAttempts = 0 := rfl
    rw [hmax1, hatt1] at t1
    exact t1

/-- C6 fails as stated. After `sixFailures` the fatal error has been emitted
and `attemptReconnect` has run four times, yet the timer of 32 s scheduled by
the fifth failure fires afterwards and runs it a fifth time; and after a
heartbeat that succeeds, the next failure schedules a new attempt, which runs
as well. Also six consecutive heartbeat failures emit no fatal error when the
reconnection attempts between them succeed. -/
theorem heartbeat_giveup_not_terminal :
    (((EssentialsCoreWebUI.initial [] 0).startHeartbeat 1).run setupWebSocketMissing
      sixFailures).errors = ["Verbindung verloren"] ∧
    (((EssentialsCoreWebUI.initial [] 0).startHeartbeat 1).run setupWebSocketMissing
      sixFailures).reconnects = 4 ∧
    (((EssentialsCoreWebUI.initial [] 0).startHeartbeat 1).run setupWebSocketMissing
      (sixFailures ++ [.timeout 32000 .networkError])).reconnects = 5 ∧
    (((EssentialsCoreWebUI.initial [] 0).startHeartbeat 1).run setupWebSocketMissing
      (sixFailures ++ [.timeout 32000 .networkError, .heartbeat .ok 210000,
        .heartbeat .failed 240000])).timeouts = [2000] ∧
    (((EssentialsCoreWebUI.initial [] 0).startHeartbeat 1).run setupWebSocketMissing
      (sixFailures ++ [.timeout 32000 .networkError, .heartbeat .ok 210000,
        .heartbeat .failed 240000, .timeout 2000 .networkError])).reconnects = 6 ∧
    (((EssentialsCoreWebUI.initial [] 0).startHeartbeat 1).run setupWebSocketMissing
      [.heartbeat .failed 30000, .timeout 2000 (.valid (some "admin")),
       .heartbeat .failed 60000, .timeout 2000 (.valid (some "admin")),
       .heartbeat .failed 90000, .timeout 2000 (.valid (some "admin")),
       .heartbeat .failed 120000, .timeout 2000 (.valid (some "admin")),
       .heartbeat .failed 150000, .timeout 2000 (.valid (some "admin")),
       .heartbeat .failed 180000]).errors = [] := by
  decide

/-- C6 (amended) on a fresh page of each class after five failed heartbeats:
no fatal error so far, and the sixth failure emits it. -/
theorem heartbeat_failures_give_up_witness :
    ((((EssentialsCoreWebUI.initial [] 0).startHeartbeat 1).run setupWebSocketMissing
        [.heartbeat .failed 30000, .heartbeat .failed 60000, .heartbeat .failed 90000,
         .heartbeat .failed 120000, .heartbeat .failed 150000]).heartbeat .failed 180000).errors
      = ["Verbindung verloren"] ∧
    ((((WebUIEnhancedFeatures.initial (EssentialsCoreWebUI.initial [] 0) 0).startHeartbeat 2).run
        setupWebSocketMissing
        [.heartbeat .failed 30000, .heartbeat .failed 60000, .heartbeat .failed 90000,
         .heartbeat .failed 120000, .heartbeat .failed 150000]).heartbeat
          .failed 180000).webui.errors
      = ["🚫 Verbindung verloren"] := by
  have h := heartbeat_failures_give_up setupWebSocketMissing 180000
    ((EssentialsCoreWebUI.initial [] 0).startHeartbeat 1)
    [.heartbeat .failed 30000, .heartbeat .failed 60000, .heartbeat .failed 90000,
     .heartbeat .failed 120000, .heartbeat .failed 150000]
    ((WebUIEnhancedFeatures.initial (EssentialsCoreWebUI.initial [] 0) 0).startHeartbeat 2)
    [.heartbeat .failed 30000, .heartbeat .failed 60000, .heartbeat .failed 90000,
     .heartbeat .failed 120000, .heartbeat .failed 150000]
    (by decide) (by decide) (by decide) (by decide) (by decide) (by decide)
  refine ⟨?_, ?_⟩
  · rw [h.1.2.1, h.1.1]
    decide
  · rw [h.2.2.1, h.2.1]
    decide

/-- C7: when `handleHeartbeatFailure` handles the n-th consecutive heartbeat
failure, for n from 1 to 5 (`reconnectAttempts` goes from n - 1 to n, with
`maxReconnectAttempts = 5`), it schedules exactly one reconnection attempt,
with a delay of exactly `2^n * 1000` ms, which is one of 2000, 4000, 8000,
16000, 32000; this holds for `EssentialsCoreWebUI` (`a`) and for
`WebUIEnhancedFeatures` (`f`). The delay is a function of n alone. -/
theorem heartbeat_failure_delay (a : EssentialsCoreWebUI) (f : WebUIEnhancedFeatures)
    (n now : Nat) (hn1 : 1 ≤ n) (hn5 : n ≤ 5)
    (ha : a.reconnectAttempts + 1 = n) (hamax : a.maxReconnectAttempts = 5)
    (hf : f.reconnectAttempts + 1 = n) (hfmax : f.maxReconnectAttempts = 5) :
    (a.heartbeat .failed now).reconnectAttempts = n ∧
    (a.heartbeat .failed now).timeouts = a.timeouts ++ [2 ^ n * 1000] ∧
    (f.heartbeat .failed now).reconnectAttempts = n ∧
    (f.heartbeat .failed now).timeouts = f.timeouts ++ [2 ^ n * 1000] ∧
    2 ^ n * 1000 ∈ [2000, 4000, 8000, 16000, 32000] := by
  obtain ⟨a1, _, _, _, a5⟩ := EssentialsCoreWebUI.handleHeartbeatFailure_effect a
  obtain ⟨f1, _, _, _, f5⟩ := WebUIEnhancedFeatures.enhanced_handleHeartbeatFailure_effect f
  have hale : a.reconnectAttempts + 1 ≤ a.maxReconnectAttempts := by omega
  have hfle : f.reconnectAttempts + 1 ≤ f.maxReconnectAttempts := by omega
  rw [if_pos hale, ha] at a5
  rw [if_pos hfle, hf] at f5
  refine ⟨a1.trans ha, a5, f1.trans hf, f5, ?_⟩
  have hcases : n = 1 ∨ n = 2 ∨ n = 3 ∨ n = 4 ∨ n = 5 := by omega
  rcases hcases with h | h | h | h | h <;> subst h <;> decide

/-- C7 at the third consecutive failure: the delay is 8000 ms in both classes. -/
theorem heartbeat_failure_delay_witness :
    (({ EssentialsCoreWebUI.initial [] 0 with reconnectAttempts := 2 }).heartbeat
      .failed 90000).timeouts = [8000] ∧
    (({ WebUIEnhancedFeatures.initial (EssentialsCoreWebUI.initial [] 0) 0 with
        reconnectAttempts := 2 }).heartbeat .failed 90000).timeouts = [8000] :=
  ⟨(heartbeat_failure_delay { EssentialsCoreWebUI.initial [] 0 with reconnectAttempts := 2 }
      { WebUIEnhancedFeatures.initial (EssentialsCoreWebUI.initial [] 0) 0 with
        reconnectAttempts := 2 }
      3 90000 (by decide) (by decide) rfl rfl rfl rfl).2.1,
   (heartbeat_failure_delay { EssentialsCoreWebUI.initial [] 0 with reconnectAttempts := 2 }
      { WebUIEnhancedFeatures.initial (EssentialsCoreWebUI.initial [] 0) 0 with
        reconnectAttempts := 2 }
      3 90000 (by decide) (by decide) rfl rfl rfl rfl).2.2.2.1⟩

/-- C19, for `EssentialsCoreWebUI` (`a`) and `WebUIEnhancedFeatures` (`f`)
alike: start from `reconnectAttempts = 0` with the heartbeat running, and let
only failed heartbeats and reconnection attempts whose validation fails
happen, at most five heartbeats among them. Then exactly one warning
notification per failed heartbeat has been emitted, the i-th naming attempt i,
and no fatal error. In any state a failed heartbeat emits the fatal `connection
lost` error exactly when the incremented counter exceeds
`maxReconnectAttempts`. -/
theorem heartbeat_failures_warn
    (setupWebSocket : EssentialsCoreWebUI → Except String EssentialsCoreWebUI) (now : Nat)
    (a : EssentialsCoreWebUI) (eventsA : List EssentialsCoreWebUI.Event)
    (f : WebUIEnhancedFeatures) (eventsF : List WebUIEnhancedFeatures.Event)
    (ha : a.reconnectAttempts = 0 ∧ a.maxReconnectAttempts = 5 ∧
      a.heartbeatInterval.isSome = true)
    (hea : ∀ e ∈ eventsA, EssentialsCoreWebUI.Event.unsuccessful e = true)
    (hka : EssentialsCoreWebUI.heartbeats eventsA ≤ 5)
    (hf : f.reconnectAttempts = 0 ∧ f.maxReconnectAttempts = 5 ∧
      f.heartbeatInterval.isSome = true)
    (hef : ∀ e ∈ eventsF, WebUIEnhancedFeatures.Event.unsuccessful e = true)
    (hkf : WebUIEnhancedFeatures.heartbeats eventsF ≤ 5) :
    ((a.run setupWebSocket eventsA).notifications = a.notifications ++
        (List.range' 1 (EssentialsCoreWebUI.heartbeats eventsA)).map
          EssentialsCoreWebUI.warning ∧
      (a.run setupWebSocket eventsA).errors = a.errors ∧
      ∀ s : EssentialsCoreWebUI, (s.heartbeat .failed now).errors = s.errors ++
        (if s.maxReconnectAttempts < s.reconnectAttempts + 1
          then ["Verbindung verloren"] else [])) ∧
    ((f.run setupWebSocket eventsF).webui.notifications = f.webui.notifications ++
        (List.range' 1 (WebUIEnhancedFeatures.heartbeats eventsF)).map
          (fun n => WebUIEnhancedFeatures.warning n 5) ∧
      (f.run setupWebSocket eventsF).webui.errors = f.webui.errors ∧
      ∀ s : WebUIEnhancedFeatures, (s.heartbeat .failed now).webui.errors = s.webui.errors ++
        (if s.maxReconnectAttempts < s.reconnectAttempts + 1
          then ["🚫 Verbindung verloren"] else [])) := by
  obtain ⟨ha0, hamax, haint⟩ := ha
  obtain ⟨hf0, hfmax, hfint⟩ := hf
  obtain ⟨_, _, _, a4⟩ :=
    EssentialsCoreWebUI.run_unsuccessful setupWebSocket eventsA a hamax haint hea
  obtain ⟨_, _, _, f4⟩ :=
    WebUIEnhancedFeatures.enhanced_run_unsuccessful setupWebSocket eventsF f hfmax hfint hef
  have an := EssentialsCoreWebUI.run_unsuccessful_notifications setupWebSocket eventsA a hamax
    haint hea (by rw [ha0]; omega)
  have fn := WebUIEnhancedFeatures.enhanced_run_unsuccessful_notifications setupWebSocket
    eventsF f hfmax hfint hef (by rw [hf0]; omega)
  rw [ha0] at an a4
  rw [hf0] at fn f4
  refine ⟨⟨an, ?_, ?_⟩, ⟨fn, ?_, ?_⟩⟩
  · rw [a4]
    have : 0 + EssentialsCoreWebUI.heartbeats eventsA - 5 - (0 - 5) = 0 := by omega
    rw [this]
    simp
  · intro s
    obtain ⟨_, _, _, e1, _⟩ := EssentialsCoreWebUI.handleHeartbeatFailure_effect s
    have hh : s.heartbeat .failed now = s.handleHeartbeatFailure := rfl
    rw [hh, e1]
    by_cases hle : s.reconnectAttempts + 1 ≤ s.maxReconnectAttempts
    · rw [if_pos hle, if_neg (by omega)]
    · rw [if_neg hle, if_pos (by omega)]
  · rw [f4]
    have : 0 + WebUIEnhancedFeatures.heartbeats eventsF - 5 - (0 - 5) = 0 := by omega
    rw [this]
    simp
  · intro s
    obtain ⟨_, _, _, e1, _⟩ := WebUIEnhancedFeatures.enhanced_handleHeartbeatFailure_effect s
    have hh : s.heartbeat .failed now = s.handleHeartbeatFailure := rfl
    rw [hh, e1]
    by_cases hle : s.reconnectAttempts + 1 ≤ s.maxReconnectAttempts
    · rw [if_pos hle, if_neg (by omega)]
    · rw [if_neg hle, if_pos (by omega)]

theorem heartbeat_failures_warn_witness :
    (((EssentialsCoreWebUI.initial [] 0).startHeartbeat 1).run setupWebSocketMissing
        [.heartbeat .failed 30000, .timeout 2000 .networkError,
         .heartbeat .failed 60000]).notifications =
      [("Verbindungsproblem erkannt (Versuch 1)", "warning"),
       ("Verbindungsproblem erkannt (Versuch 2)", "warning")] ∧
    (((WebUIEnhancedFeatures.initial (EssentialsCoreWebUI.initial [] 0) 0).startHeartbeat 1).run
        setupWebSocketMissing
        [.heartbeat .failed 30000, .timeout 2000 .networkError none,
         .heartbeat .failed 60000]).webui.notifications =
      [("🔄 Verbindungsproblem erkannt (Versuch 1/5)", "warning"),
       ("🔄 Verbindungsproblem erkannt (Versuch 2/5)", "warning")] :=
  have h := heartbeat_failures_warn setupWebSocketMissing 0
    ((EssentialsCoreWebUI.initial [] 0).startHeartbeat 1)
    [.heartbeat .failed 30000, .timeout 2000 .networkError, .heartbeat .failed 60000]
    ((WebUIEnhancedFeatures.initial (EssentialsCoreWebUI.initial [] 0) 0).startHeartbeat 1)
    [.heartbeat .failed 30000, .timeout 2000 .networkError none, .heartbeat .failed 60000]
    (by decide) (by decide) (by decide) (by decide) (by decide) (by decide)
  ⟨h.1.1.trans (by decide), h.2.1.trans (by decide)⟩

/-- C20, as the code has it, for `EssentialsCoreWebUI` (`a`) and
`WebUIEnhancedFeatures` (`f`) alike: when the re-validation fails,
`attemptReconnect` leaves `reconnectAttempts` unchanged; when it succeeds, the
counter is set to 0 before the socket is looked at, so it is 0 afterwards also
when the socket is absent or open (nothing is reopened) and when
`setupWebSocket` cannot reopen it, the socket then being as it was. -/
theorem attemptReconnect_resets_on_validation
    (setupWebSocket : EssentialsCoreWebUI → Except String EssentialsCoreWebUI)
    (a : EssentialsCoreWebUI) (f : WebUIEnhancedFeatures) (outcome : ValidateOutcome)
    (activeModule : Option String) :
    (outcome.failed = true →
      (a.attemptReconnect setupWebSocket outcome).reconnectAttempts = a.reconnectAttempts ∧
      (f.attemptReconnect setupWebSocket outcome activeModule).reconnectAttempts
        = f.reconnectAttempts) ∧
    (outcome.failed = false → (∀ x s3, setupWebSocket x ≠ .ok s3) →
      (a.attemptReconnect setupWebSocket outcome).reconnectAttempts = 0 ∧
      (a.attemptReconnect setupWebSocket outcome).websocket = a.websocket ∧
      (f.attemptReconnect setupWebSocket outcome activeModule).reconnectAttempts = 0 ∧
      (f.attemptReconnect setupWebSocket outcome activeModule).webui.websocket
        = f.webui.websocket) ∧
    (outcome.failed = false →
      (a.websocket = none ∨ a.websocket = some EssentialsCoreWebUI.OPEN) →
      (a.attemptReconnect setupWebSocket outcome).reconnectAttempts = 0 ∧
      (a.attemptReconnect setupWebSocket outcome).websocket = a.websocket) ∧
    (outcome.failed = false →
      (f.attemptReconnect setupWebSocket outcome activeModule).reconnectAttempts = 0) := by
  refine ⟨?_, ?_, ?_, ?_⟩
  · intro h
    exact ⟨(EssentialsCoreWebUI.attemptReconnect_failed setupWebSocket a outcome h).1,
      (WebUIEnhancedFeatures.enhanced_attemptReconnect_failed setupWebSocket f outcome
        activeModule h).1⟩
  · intro h hnever
    cases outcome with
    | valid user =>
      obtain ⟨f1, f2⟩ := WebUIEnhancedFeatures.enhanced_attemptReconnect_valid setupWebSocket f
        user activeModule
      rcases EssentialsCoreWebUI.attemptReconnect_valid setupWebSocket a user with
        ⟨h1, h2⟩ | ⟨_, s2, s3, _, _, _, h3, _⟩
      · exact ⟨h1, h2, f1, f2 hnever⟩
      · exact absurd h3 (hnever s2 s3)
    | badBody => cases h
    | refused => cases h
    | networkError => cases h
  · intro h hsock
    cases outcome with
    | valid user =>
      rcases EssentialsCoreWebUI.attemptReconnect_valid setupWebSocket a user with
        h1 | ⟨readyState, _, _, hw, hne, _⟩
      · exact h1
      · rcases hsock with hs | hs
        · rw [hs] at hw
          cases hw
        · rw [hs] at hw
          cases hw
          exact absurd rfl hne
    | badBody => cases h
    | refused => cases h
    | networkError => cases h
  · intro h
    cases outcome with
    | valid user =>
      exact (WebUIEnhancedFeatures.enhanced_attemptReconnect_valid setupWebSocket f user
        activeModule).1
    | badBody => cases h
    | refused => cases h
    | networkError => cases h

theorem attemptReconnect_resets_on_validation_witness :
    (backingOff.attemptReconnect setupWebSocketMissing .networkError).reconnectAttempts = 3 ∧
    (backingOffFeatures.attemptReconnect setupWebSocketMissing .networkError none).reconnectAttempts
      = 3 ∧
    (backingOff.attemptReconnect setupWebSocketMissing (.valid none)).reconnectAttempts = 0 ∧
    (backingOffFeatures.attemptReconnect setupWebSocketMissing (.valid none)
      none).reconnectAttempts = 0 :=
  ⟨((attemptReconnect_resets_on_validation setupWebSocketMissing backingOff backingOffFeatures
      .networkError none).1 (by decide)).1,
   ((attemptReconnect_resets_on_validation setupWebSocketMissing backingOff backingOffFeatures
      .networkError none).1 (by decide)).2,
   ((attemptReconnect_resets_on_validation setupWebSocketMissing backingOff backingOffFeatures
      (.valid none) none).2.1 (by decide) (by intro x s3 h; cases h)).1,
   ((attemptReconnect_resets_on_validation setupWebSocketMissing backingOff backingOffFeatures
      (.valid none) none).2.1 (by decide) (by intro x s3 h; cases h)).2.2.1⟩

/-- C20 does not hold as stated: with three failures counted and a closed
socket, a re-validation that succeeds sets `reconnectAttempts` to 0 in both
classes although the socket cannot be reopened (`setupWebSocket` throws) and
is still closed afterwards. -/
theorem attemptReconnect_resets_without_transport :
    backingOff.reconnectAttempts = 3 ∧ backingOff.websocket = some 3 ∧
    (backingOff.attemptReconnect setupWebSocketMissing (.valid (some "admin"))).reconnectAttempts
      = 0 ∧
    (backingOff.attemptReconnect setupWebSocketMissing (.valid (some "admin"))).websocket
      = some 3 ∧
    (backingOff.attemptReconnect setupWebSocketMissing (.valid (some "admin"))).console
      = ["error: Reconnect failed"] ∧
    backingOffFeatures.reconnectAttempts = 3 ∧
    (backingOffFeatures.attemptReconnect setupWebSocketMissing (.valid (some "admin"))
      none).reconnectAttempts = 0 ∧
    (backingOffFeatures.attemptReconnect setupWebSocketMissing (.valid (some "admin"))
      none).webui.websocket = some 3 := by
  decide

/-- C29: starting from empty storage, a login that succeeds leaves in the
storage the one key `webui_session_token`; `authenticate` reads the key
`webui-auth-token`, which is absent, so an open event of a manager on that
storage hands only its queued messages to the socket, and a freshly constructed
manager transmits nothing at all, no `authenticate` frame in particular.
(`setupWebSocket`, which the repository does not define, is taken not to touch
the storage.) -/
theorem login_token_not_sent
    (setupWebSocket : EssentialsCoreWebUI → Except String EssentialsCoreWebUI)
    (accepts : Nat → WS.Message → Bool) (now : Nat) (token : String) (user : Option String)
    (wsUrl : String) (throws : Bool)
    (hsw : ∀ x y, setupWebSocket x = .ok y → y.localStorage = x.localStorage) :
    ((EssentialsCoreWebUI.initial [] now).performLogin setupWebSocket
        (.success token user)).1.localStorage = [("webui_session_token", token)] ∧
    WS.mapGet ((EssentialsCoreWebUI.initial [] now).performLogin setupWebSocket
        (.success token user)).1.localStorage "webui-auth-token" = none ∧
    (∀ m : WS.Manager,
      m.localStorage = ((EssentialsCoreWebUI.initial [] now).performLogin setupWebSocket
        (.success token user)).1.localStorage →
      (WS.onopen accepts m).attempted = m.attempted ++ m.messageQueue) ∧
    (WS.run accepts
      (WS.Manager.new ((EssentialsCoreWebUI.initial [] now).performLogin setupWebSocket
        (.success token user)).1.localStorage wsUrl throws) [.opened]).attempted = [] ∧
    (WS.run accepts
      (WS.Manager.new ((EssentialsCoreWebUI.initial [] now).performLogin setupWebSocket
        (.success token user)).1.localStorage wsUrl throws) [.opened]).transmitted = [] := by
  have hstore : ((EssentialsCoreWebUI.initial [] now).performLogin setupWebSocket
      (.success token user)).1.localStorage = [("webui_session_token", token)] := by
    unfold EssentialsCoreWebUI.performLogin
    simp only
    split
    · next s2 h2 =>
      rw [hsw _ _ h2]
      rfl
    · rfl
  rw [hstore]
  have hframes : WS.authenticateFrames [("webui_session_token", token)] = [] := by
    simp [WS.authenticateFrames, WS.mapGet]
  refine ⟨rfl, by simp [WS.mapGet], ?_, ?_, ?_⟩
  · intro m hm
    have h := (WS.onopen_queue accepts m).2.1
    rw [hm, hframes] at h
    simpa using h
  · obtain ⟨h1, h2, _, h4⟩ := WS.manager_new_storage [("webui_session_token", token)] wsUrl throws
    have h := (WS.onopen_queue accepts
      (WS.Manager.new [("webui_session_token", token)] wsUrl throws)).2.1
    rw [h1, h2, h4, hframes] at h
    exact h
  · obtain ⟨h1, h2, h3, h4⟩ := WS.manager_new_storage [("webui_session_token", token)] wsUrl throws
    have h := (WS.onopen_queue accepts
      (WS.Manager.new [("webui_session_token", token)] wsUrl throws)).2.2
    rw [h1, h2, h3, h4, hframes] at h
    simpa [WS.delivered] using h

theorem login_token_not_sent_witness :
    ((EssentialsCoreWebUI.initial [] 0).performLogin setupWebSocketOpens
        (.success "abc" (some "admin"))).1.localStorage = [("webui_session_token", "abc")] ∧
    (WS.run (fun _ _ => true)
      (WS.Manager.new ((EssentialsCoreWebUI.initial [] 0).performLogin setupWebSocketOpens
        (.success "abc" (some "admin"))).1.localStorage "ws://panel.example/api/websocket"
        false) [.opened]).transmitted = [] :=
  have h := login_token_not_sent setupWebSocketOpens (fun _ _ => true) 0 "abc" (some "admin")
    "ws://panel.example/api/websocket" false
    (by intro x y hxy; cases hxy; rfl)
  ⟨h.1, h.2.2.2.2⟩
